import Mathlib

/-!
# HiQP: a shallow embedding of the task manager, two tasks, the task factory and `dls`

* `hiqp_core/src/task_manager.cpp`: the manager owns a map from task names to
  tasks, a geometric primitive store and a solver.  Tasks are held through
  shared pointers in the source, and every pointer in the map is reachable
  under exactly one key, so the embedding stores tasks by value and writes an
  in-place mutation of a found task back under the key it was found at.
* `hiqp_core/src/tasks/tdyn_jnt_limits.cpp` and
  `hiqp_core/src/tasks/task_avoid_collisions_sdf.cpp`: the joint-limit dynamics
  and the collision-avoidance task.
* `hiqp_controllers/src/task_factory__old.cpp`: the task factory.
* `hiqp_controllers/src/task_manager.cpp`: `addTask` of the id-based manager.
* `hiqp_controllers/include/hiqp/hiqp_utils.h`: `dls`.

Collaborators whose code is outside this translation (the `Task` class, the
solver, the primitive store, the kinematics solvers, the distance oracle, the
function and dynamics classes, `pinv`) are passed in as functions acting on
their own opaque states.  Each manager operation also records the collaborator
calls it makes, in program order, in a trace.
-/

namespace hiqp

/-! ## Data model -/

/-- The function and dynamics objects of a task (`def_`, `dyn_`): the values the
manager reads through `getValue`, `getJacobian`, `getDynamics`, `getTaskTypes`
and `getPerformanceMeasures`, and the remaining internal state `impl`. -/
structure TaskData (D σ : Type) where
  e_ : List D
  J_ : List (List D)
  e_dot_star_ : List D
  task_types_ : List Int
  performance_measures_ : List D
  impl : σ
  deriving DecidableEq, Repr

/-- A task: the metadata written by `setTaskName`, `setPriority`, `setVisible`,
`setActive`, `setMonitored`, and its function/dynamics objects. -/
structure Task (D σ : Type) where
  task_name_ : String
  priority_ : Nat
  visible_ : Bool
  active_ : Bool
  monitored_ : Bool
  data : TaskData D σ
  deriving DecidableEq, Repr

/-- The container `TaskMap`: name/task entries in iteration order. -/
abbrev TaskMap (D σ : Type) := List (String × Task D σ)

/-- One stage handed to the solver by `appendStage`. -/
structure Stage (D : Type) where
  priority : Nat
  e_dot_star : List D
  J : List (List D)
  task_types : List Int
  deriving DecidableEq, Repr

/-- One record of `getTaskMeasures`. -/
structure TaskMeasure (D : Type) where
  task_name : String
  e : List D
  de : List D
  pm : List D
  deriving DecidableEq, Repr

/-- Calls observed during one manager operation, in program order. -/
inductive Event (D : Type) where
  | lock
  | unlock
  | clearStages
  | update (key : String)
  | appendStage (st : Stage D)
  | solve
  | init (task_name : String)
  | monitor (key : String)
  | removeDependency (task_name : String)
  | setGeometricPrimitive (name : String)
  deriving DecidableEq, Repr

/-- The collaborators of the manager.  `G` is the state of the geometric
primitive store, `S` the state of the solver, `R` the robot state.

* `taskCtor n_controls` is the function/dynamics state of a freshly constructed
  `Task`.
* `taskInit`, `taskUpdate` and `taskMonitor` are `Task::init`, `Task::update`
  and `Task::monitor`: they return a status (where the source has one) and the
  new function/dynamics objects of the task.  A task holds a pointer to the
  primitive store: `init` declares its dependencies there and so returns the
  store as well, `update` resolves primitives and only reads it.
* `clearStages`, `appendStage`, `solve` are the three solver methods; `solve`
  returns its verdict, its new state and the control vector as it leaves it.
* `removeDependency` and `setGeometricPrimitive` are the two store methods the
  translated operations call. -/
structure Env (D σ R G S : Type) where
  taskCtor : Nat → TaskData D σ
  taskInit : G → Task D σ → List String → List String → R → Int × TaskData D σ × G
  taskUpdate : G → Task D σ → R → Int × TaskData D σ
  taskMonitor : Task D σ → TaskData D σ
  clearStages : S → S
  appendStage : S → Stage D → S
  solve : S → List D → Bool × S × List D
  removeDependency : G → String → G
  setGeometricPrimitive : G → String → String → String → Bool → List D → List D → Int × G

/-- The members of `TaskManager` that the translated operations use. -/
structure TaskManager (D σ G S : Type) where
  n_controls_ : Nat
  task_map_ : TaskMap D σ
  geometric_primitive_map_ : G
  solver_ : S
  deriving DecidableEq, Repr

/-- What an operation leaves behind: its return value, the manager afterwards
and the calls it made. -/
structure Outcome (α D σ G S : Type) where
  ret : α
  mgr : TaskManager D σ G S
  trace : List (Event D)

/-- The manager and the calls made at the point where control reaches the
closing brace of a method body. -/
structure BodyState (D σ G S : Type) where
  mgr : TaskManager D σ G S
  trace : List (Event D)

/-- How a call of a method declared to return a value ends: by a `return`
statement, with an outcome; or by control flowing off the end of the body
without one.  In the second case the behaviour of the program is undefined from
that point on: the call hands the caller neither a value nor a state it can
rely on, and `body` only records what the statements of the body did before. -/
inductive Completion (α D σ G S : Type) where
  | returned (out : Outcome α D σ G S)
  | offEnd (body : BodyState D σ G S)

/-- The outcome of a call, when it has one. -/
def Completion.out? {α D σ G S : Type} : Completion α D σ G S → Option (Outcome α D σ G S)
  | Completion.returned out => some out
  | Completion.offEnd _ => none

/-- The value a call returns, when it returns one. -/
def Completion.ret? {α D σ G S : Type} : Completion α D σ G S → Option α
  | Completion.returned out => some out.ret
  | Completion.offEnd _ => none

/-- The calls made by the statements a call executed. -/
def Completion.trace {α D σ G S : Type} : Completion α D σ G S → List (Event D)
  | Completion.returned out => out.trace
  | Completion.offEnd body => body.trace

/-- The outcome of `getVelocityControls`, which also has the output vector. -/
structure ControlsOutcome (D σ G S : Type) where
  ret : Bool
  controls : List D
  mgr : TaskManager D σ G S
  trace : List (Event D)

/-- The outcome of `getTaskMeasures`, which also has the output list. -/
structure MeasuresOutcome (D σ G S : Type) where
  data : List (TaskMeasure D)
  mgr : TaskManager D σ G S
  trace : List (Event D)

section model

variable {D σ R G S : Type}

/-! ## The task map -/

namespace TaskMap

/-- The names under which tasks are stored. -/
def keys (m : TaskMap D σ) : List String := m.map Prod.fst

/-- A map holds at most one entry per key. -/
def WF (m : TaskMap D σ) : Prop := (keys m).Nodup

instance (m : TaskMap D σ) : Decidable (WF m) := by
  unfold WF; infer_instance

/-- Lookup `task_map_.find(name)`: the task stored under `name`, if any. -/
def find : TaskMap D σ → String → Option (Task D σ)
  | [], _ => none
  | (k, t) :: rest, name => if k = name then some t else find rest name

/-- The key is present: `task_map_.find(name) != task_map_.end()`. -/
def contains (m : TaskMap D σ) (name : String) : Bool := (find m name).isSome

/-- Writing through the pointer found under `name`: the entry found by `find`
now holds `t`; nothing changes when there is no such entry. -/
def assign : TaskMap D σ → String → Task D σ → TaskMap D σ
  | [], _, _ => []
  | (k, t0) :: rest, name, t =>
    if k = name then (k, t) :: rest else (k, t0) :: assign rest name t

/-- The order of the keys, `std::less<std::string>`: lexicographic on the
characters. -/
def keyLt : List Char → List Char → Bool
  | _, [] => false
  | [], _ :: _ => true
  | a :: as, b :: bs =>
    if a.toNat < b.toNat then true
    else if b.toNat < a.toNat then false
    else keyLt as bs

/-- Insertion of a new key at its place in key order. -/
def insertSorted : TaskMap D σ → String → Task D σ → TaskMap D σ
  | [], name, t => [(name, t)]
  | (k, t0) :: rest, name, t =>
    if keyLt name.data k.data then (name, t) :: (k, t0) :: rest
    else (k, t0) :: insertSorted rest name t

/-- The call `task_map_.emplace(name, t)`: inserts only when the key is not
there yet. -/
def emplace (m : TaskMap D σ) (name : String) (t : Task D σ) : TaskMap D σ :=
  if contains m name then m else insertSorted m name t

/-- The call `task_map_.erase(name)`: the map without the entries under `name`
and the number of entries removed. -/
def erase (m : TaskMap D σ) (name : String) : TaskMap D σ × Nat :=
  (m.filter (fun kv => decide (kv.1 ≠ name)), (m.filter (fun kv => decide (kv.1 = name))).length)

end TaskMap

/-! ## `getVelocityControls` -/

/-- The state after the loop over the task map in `getVelocityControls`. -/
structure Assembled (D σ S : Type) where
  tasks : TaskMap D σ
  solver : S
  trace : List (Event D)

/-- The stage appended for a task: `getPriority()`, `getDynamics()`,
`getJacobian()`, `getTaskTypes()`. -/
def stageOf (t : Task D σ) : Stage D :=
  { priority := t.priority_, e_dot_star := t.data.e_dot_star_, J := t.data.J_,
    task_types := t.data.task_types_ }

/-- A task after its `update(robot_state)` ran. -/
def updated (env : Env D σ R G S) (g : G) (robot_state : R) (t : Task D σ) : Task D σ :=
  { t with data := (env.taskUpdate g t robot_state).2 }

/-- The loop `for (auto&& kv : task_map_)` of `getVelocityControls`: an active
task is updated and, when its update returned 0, appended as a stage. -/
def stageLoop (env : Env D σ R G S) (g : G) (robot_state : R) :
    TaskMap D σ → S → Assembled D σ S
  | [], s => { tasks := [], solver := s, trace := [] }
  | (k, t) :: rest, s =>
    if t.active_ then
      if (env.taskUpdate g t robot_state).1 = 0 then
        let st := stageOf (updated env g robot_state t)
        let r := stageLoop env g robot_state rest (env.appendStage s st)
        { tasks := (k, updated env g robot_state t) :: r.tasks, solver := r.solver,
          trace := Event.update k :: Event.appendStage st :: r.trace }
      else
        let r := stageLoop env g robot_state rest s
        { tasks := (k, updated env g robot_state t) :: r.tasks, solver := r.solver,
          trace := Event.update k :: r.trace }
    else
      let r := stageLoop env g robot_state rest s
      { tasks := (k, t) :: r.tasks, solver := r.solver, trace := r.trace }

/-- The loop `for (int i=0; i<controls.size(); ++i) controls.at(i) = 0;`. -/
def zeroControls [Zero D] (controls : List D) : List D := controls.map (fun _ => 0)

/-- The solver call of `getVelocityControls` on a non-empty task map: `solve`
applied to the solver as the stage loop left it, and to the vector passed in. -/
def solveCall (env : Env D σ R G S) (m : TaskManager D σ G S) (robot_state : R)
    (controls : List D) : Bool × S × List D :=
  env.solve (stageLoop env m.geometric_primitive_map_ robot_state m.task_map_
    (env.clearStages m.solver_)).solver controls

/-- The method `TaskManager::getVelocityControls`. -/
def getVelocityControls [Zero D] (env : Env D σ R G S) (m : TaskManager D σ G S)
    (robot_state : R) (controls : List D) : ControlsOutcome D σ G S :=
  if m.task_map_.length < 1 then
    { ret := false, controls := zeroControls controls, mgr := m, trace := [] }
  else
    let a := stageLoop env m.geometric_primitive_map_ robot_state m.task_map_
      (env.clearStages m.solver_)
    let sol := env.solve a.solver controls
    let m1 : TaskManager D σ G S := { m with task_map_ := a.tasks, solver_ := sol.2.1 }
    let tr : List (Event D) := Event.clearStages :: Event.lock :: (a.trace ++ [Event.unlock, Event.solve])
    if !sol.1 then
      { ret := false, controls := zeroControls sol.2.2, mgr := m1, trace := tr }
    else
      { ret := true, controls := sol.2.2, mgr := m1, trace := tr }

/-! ## `getTaskMeasures` -/

/-- The loop of `getTaskMeasures`: a monitored task runs `monitor()` and is
pushed onto the list. -/
def measureLoop (env : Env D σ R G S) :
    TaskMap D σ → TaskMap D σ × List (TaskMeasure D) × List (Event D)
  | [] => ([], [], [])
  | (k, t) :: rest =>
    let r := measureLoop env rest
    if t.monitored_ then
      let t1 : Task D σ := { t with data := env.taskMonitor t }
      ((k, t1) :: r.1,
        { task_name := t1.task_name_, e := t1.data.e_, de := t1.data.e_dot_star_,
          pm := t1.data.performance_measures_ } :: r.2.1,
        Event.monitor k :: r.2.2)
    else ((k, t) :: r.1, r.2.1, r.2.2)

/-- The call `data.clear()`. -/
def clearMeasures (_data : List (TaskMeasure D)) : List (TaskMeasure D) := []

/-- The method `TaskManager::getTaskMeasures`; `data` is the list passed in. -/
def getTaskMeasures (env : Env D σ R G S) (m : TaskManager D σ G S)
    (data : List (TaskMeasure D)) : MeasuresOutcome D σ G S :=
  let r := measureLoop env m.task_map_
  { data := clearMeasures data ++ r.2.1, mgr := { m with task_map_ := r.1 },
    trace := Event.lock :: (r.2.2 ++ [Event.unlock]) }

/-! ## `setTask`, `removeTask`, `removeAllTasks` -/

/-- The object made by `std::make_shared<Task>(geometric_primitive_map_,
visualizer_, n_controls_)`; its metadata is overwritten by `setTask` before it
is read. -/
def newTask (env : Env D σ R G S) (n_controls : Nat) : Task D σ :=
  { task_name_ := "", priority_ := 0, visible_ := false, active_ := false,
    monitored_ := false, data := env.taskCtor n_controls }

/-- The five setters `setTaskName`, `setPriority`, `setVisible`, `setActive`,
`setMonitored` of `setTask`. -/
def configure (t : Task D σ) (task_name : String) (priority : Nat)
    (visible active monitored : Bool) : Task D σ :=
  { t with task_name_ := task_name, priority_ := priority, visible_ := visible,
           active_ := active, monitored_ := monitored }

/-- The task `setTask` works on: the stored one when the name is found, a new
one otherwise. -/
def taskFor (env : Env D σ R G S) (m : TaskManager D σ G S) (task_name : String) : Task D σ :=
  match TaskMap.find m.task_map_ task_name with
  | none => newTask env m.n_controls_
  | some t => t

/-- The call `task->init(def_params, dyn_params, robot_state)` of `setTask`, on
the task after the five setters. -/
def initCall (env : Env D σ R G S) (m : TaskManager D σ G S) (task_name : String)
    (priority : Nat) (visible active monitored : Bool)
    (def_params dyn_params : List String) (robot_state : R) : Int × TaskData D σ × G :=
  env.taskInit m.geometric_primitive_map_
    (configure (taskFor env m task_name) task_name priority visible active monitored)
    def_params dyn_params robot_state

/-- The task `setTask` works on, after the five setters and `init` ran on it. -/
def initialised (env : Env D σ R G S) (m : TaskManager D σ G S) (task_name : String)
    (priority : Nat) (visible active monitored : Bool)
    (def_params dyn_params : List String) (robot_state : R) : Task D σ :=
  { configure (taskFor env m task_name) task_name priority visible active monitored with
    data := (initCall env m task_name priority visible active monitored def_params dyn_params
      robot_state).2.1 }

/-- The task map once the setters and `init` of `setTask` ran: they write
through the pointer `it->second` when the name was found, and touch no entry
when the task is a new object. -/
def writtenThrough (tm : TaskMap D σ) (task_name : String) (task : Task D σ) : TaskMap D σ :=
  match TaskMap.find tm task_name with
  | none => tm
  | some _ => TaskMap.assign tm task_name task

/-- The method `TaskManager::setTask`.  A name that is found yields the stored
task itself, so the five setters and `init` act on the entry in the map; a name
that is not found yields a fresh task, which enters the map only through
`emplace`. -/
def setTask (env : Env D σ R G S) (m : TaskManager D σ G S) (task_name : String)
    (priority : Nat) (visible active monitored : Bool)
    (def_params dyn_params : List String) (robot_state : R) : Outcome Int D σ G S :=
  let r := initCall env m task_name priority visible active monitored def_params dyn_params
    robot_state
  let task := initialised env m task_name priority visible active monitored def_params
    dyn_params robot_state
  let map1 := writtenThrough m.task_map_ task_name task
  if r.1 ≠ 0 then
    { ret := -1, mgr := { m with task_map_ := map1, geometric_primitive_map_ := r.2.2 },
      trace := [Event.lock, Event.init task_name, Event.unlock] }
  else
    { ret := 0,
      mgr := { m with task_map_ := TaskMap.emplace map1 task_name task,
                      geometric_primitive_map_ := r.2.2 },
      trace := [Event.lock, Event.init task_name, Event.unlock] }

/-- The method `TaskManager::removeTask`. -/
def removeTask (env : Env D σ R G S) (m : TaskManager D σ G S) (task_name : String) :
    Outcome Int D σ G S :=
  let er := TaskMap.erase m.task_map_ task_name
  if er.2 = 1 then
    { ret := 0,
      mgr := { m with task_map_ := er.1,
                      geometric_primitive_map_ :=
                        env.removeDependency m.geometric_primitive_map_ task_name },
      trace := [Event.lock, Event.removeDependency task_name, Event.unlock] }
  else
    { ret := -1, mgr := { m with task_map_ := er.1 }, trace := [Event.lock, Event.unlock] }

/-- The `while` loop of `removeAllTasks`: one `removeDependency(it->first)` per
entry. -/
def removeAllLoop (env : Env D σ R G S) : TaskMap D σ → G → G × List (Event D)
  | [], g => (g, [])
  | (k, _) :: rest, g =>
    let r := removeAllLoop env rest (env.removeDependency g k)
    (r.1, Event.removeDependency k :: r.2)

/-- The method `TaskManager::removeAllTasks`. -/
def removeAllTasks (env : Env D σ R G S) (m : TaskManager D σ G S) : Outcome Int D σ G S :=
  let r := removeAllLoop env m.task_map_ m.geometric_primitive_map_
  { ret := 0, mgr := { m with task_map_ := [], geometric_primitive_map_ := r.1 },
    trace := Event.lock :: (r.2 ++ [Event.unlock]) }

/-! ## Flags of a single task

The four methods below are declared `int` and have no `return` statement on
any path: control flows off the end of the body, which is undefined behaviour.
Each is given as its body, the statements up to the closing brace, and as the
call, which ends `offEnd`. -/

/-- The statements of `TaskManager::activateTask`, up to the closing brace of its
body. -/
def activateTaskBody (m : TaskManager D σ G S) (task_name : String) :
    BodyState D σ G S :=
  match TaskMap.find m.task_map_ task_name with
  | some t =>
    { mgr := { m with task_map_ := TaskMap.assign m.task_map_ task_name { t with active_ := true } },
      trace := [Event.lock, Event.unlock] }
  | none => { mgr := m, trace := [Event.lock, Event.unlock] }

/-- The method `TaskManager::activateTask`: declared `int`, its body ends without a
`return` statement. -/
def activateTask (m : TaskManager D σ G S) (task_name : String) :
    Completion Int D σ G S :=
  Completion.offEnd (activateTaskBody m task_name)

/-- The statements of `TaskManager::deactivateTask`, up to the closing brace of its
body. -/
def deactivateTaskBody (m : TaskManager D σ G S) (task_name : String) :
    BodyState D σ G S :=
  match TaskMap.find m.task_map_ task_name with
  | some t =>
    { mgr := { m with task_map_ := TaskMap.assign m.task_map_ task_name { t with active_ := false } },
      trace := [Event.lock, Event.unlock] }
  | none => { mgr := m, trace := [Event.lock, Event.unlock] }

/-- The method `TaskManager::deactivateTask`: declared `int`, its body ends without a
`return` statement. -/
def deactivateTask (m : TaskManager D σ G S) (task_name : String) :
    Completion Int D σ G S :=
  Completion.offEnd (deactivateTaskBody m task_name)

/-- The statements of `TaskManager::monitorTask`, up to the closing brace of its
body. -/
def monitorTaskBody (m : TaskManager D σ G S) (task_name : String) :
    BodyState D σ G S :=
  match TaskMap.find m.task_map_ task_name with
  | some t =>
    { mgr := { m with task_map_ := TaskMap.assign m.task_map_ task_name { t with monitored_ := true } },
      trace := [Event.lock, Event.unlock] }
  | none => { mgr := m, trace := [Event.lock, Event.unlock] }

/-- The method `TaskManager::monitorTask`: declared `int`, its body ends without a
`return` statement. -/
def monitorTask (m : TaskManager D σ G S) (task_name : String) :
    Completion Int D σ G S :=
  Completion.offEnd (monitorTaskBody m task_name)

/-- The statements of `TaskManager::demonitorTask`, up to the closing brace of its
body. -/
def demonitorTaskBody (m : TaskManager D σ G S) (task_name : String) :
    BodyState D σ G S :=
  match TaskMap.find m.task_map_ task_name with
  | some t =>
    { mgr := { m with task_map_ := TaskMap.assign m.task_map_ task_name { t with monitored_ := false } },
      trace := [Event.lock, Event.unlock] }
  | none => { mgr := m, trace := [Event.lock, Event.unlock] }

/-- The method `TaskManager::demonitorTask`: declared `int`, its body ends without a
`return` statement. -/
def demonitorTask (m : TaskManager D σ G S) (task_name : String) :
    Completion Int D σ G S :=
  Completion.offEnd (demonitorTaskBody m task_name)

/-! ## `setPrimitive` -/

/-- The method `TaskManager::setPrimitive`: the store method is called as a
statement, its result is not used, and the method ends in `return 0`. -/
def setPrimitive (env : Env D σ R G S) (m : TaskManager D σ G S) (name type frame_id : String)
    (visible : Bool) (color parameters : List D) : Outcome Int D σ G S :=
  let r := env.setGeometricPrimitive m.geometric_primitive_map_ name type frame_id visible
    color parameters
  { ret := 0, mgr := { m with geometric_primitive_map_ := r.2 },
    trace := [Event.lock, Event.setGeometricPrimitive name, Event.unlock] }

/-! ## Priority levels

These five methods are declared `int` and have no `return` statement either;
they are given as body and call in the same way. -/

/-- The `while` loop of `removePriorityLevel`: an entry whose task has the given
priority is withdrawn from the store by `getTaskName()` and erased. -/
def removePriorityLoop (env : Env D σ R G S) (priority : Nat) :
    TaskMap D σ → G → TaskMap D σ × G × List (Event D)
  | [], g => ([], g, [])
  | (k, t) :: rest, g =>
    if t.priority_ = priority then
      let r := removePriorityLoop env priority rest (env.removeDependency g t.task_name_)
      (r.1, r.2.1, Event.removeDependency t.task_name_ :: r.2.2)
    else
      let r := removePriorityLoop env priority rest g
      ((k, t) :: r.1, r.2.1, r.2.2)

/-- The statements of `TaskManager::removePriorityLevel`, up to the closing brace of its
body. -/
def removePriorityLevelBody (env : Env D σ R G S) (m : TaskManager D σ G S) (priority : Nat) :
    BodyState D σ G S :=
  let r := removePriorityLoop env priority m.task_map_ m.geometric_primitive_map_
  { mgr := { m with task_map_ := r.1, geometric_primitive_map_ := r.2.1 },
    trace := Event.lock :: (r.2.2 ++ [Event.unlock]) }

/-- The method `TaskManager::removePriorityLevel`: declared `int`, its body ends without a
`return` statement. -/
def removePriorityLevel (env : Env D σ R G S) (m : TaskManager D σ G S) (priority : Nat) :
    Completion Int D σ G S :=
  Completion.offEnd (removePriorityLevelBody env m priority)

/-- The loop shared by the four flag methods on a priority level: `f` is the
setter applied to the tasks of that priority. -/
def priorityLoop (priority : Nat) (f : Task D σ → Task D σ) : TaskMap D σ → TaskMap D σ
  | [] => []
  | (k, t) :: rest =>
    if t.priority_ = priority then (k, f t) :: priorityLoop priority f rest
    else (k, t) :: priorityLoop priority f rest

/-- The statements of `TaskManager::activatePriorityLevel`, up to the closing brace of its
body. -/
def activatePriorityLevelBody (m : TaskManager D σ G S) (priority : Nat) :
    BodyState D σ G S :=
  { mgr := { m with task_map_ := priorityLoop priority (fun t => { t with active_ := true }) m.task_map_ },
    trace := [Event.lock, Event.unlock] }

/-- The method `TaskManager::activatePriorityLevel`: declared `int`, its body ends without a
`return` statement. -/
def activatePriorityLevel (m : TaskManager D σ G S) (priority : Nat) :
    Completion Int D σ G S :=
  Completion.offEnd (activatePriorityLevelBody m priority)

/-- The statements of `TaskManager::deactivatePriorityLevel`, up to the closing brace of its
body. -/
def deactivatePriorityLevelBody (m : TaskManager D σ G S) (priority : Nat) :
    BodyState D σ G S :=
  { mgr := { m with task_map_ := priorityLoop priority (fun t => { t with active_ := false }) m.task_map_ },
    trace := [Event.lock, Event.unlock] }

/-- The method `TaskManager::deactivatePriorityLevel`: declared `int`, its body ends without a
`return` statement. -/
def deactivatePriorityLevel (m : TaskManager D σ G S) (priority : Nat) :
    Completion Int D σ G S :=
  Completion.offEnd (deactivatePriorityLevelBody m priority)

/-- The statements of `TaskManager::monitorPriorityLevel`, up to the closing brace of its
body. -/
def monitorPriorityLevelBody (m : TaskManager D σ G S) (priority : Nat) :
    BodyState D σ G S :=
  { mgr := { m with task_map_ := priorityLoop priority (fun t => { t with monitored_ := true }) m.task_map_ },
    trace := [Event.lock, Event.unlock] }

/-- The method `TaskManager::monitorPriorityLevel`: declared `int`, its body ends without a
`return` statement. -/
def monitorPriorityLevel (m : TaskManager D σ G S) (priority : Nat) :
    Completion Int D σ G S :=
  Completion.offEnd (monitorPriorityLevelBody m priority)

/-- The statements of `TaskManager::demonitorPriorityLevel`, up to the closing brace of its
body. -/
def demonitorPriorityLevelBody (m : TaskManager D σ G S) (priority : Nat) :
    BodyState D σ G S :=
  { mgr := { m with task_map_ := priorityLoop priority (fun t => { t with monitored_ := false }) m.task_map_ },
    trace := [Event.lock, Event.unlock] }

/-- The method `TaskManager::demonitorPriorityLevel`: declared `int`, its body ends without a
`return` statement. -/
def demonitorPriorityLevel (m : TaskManager D σ G S) (priority : Nat) :
    Completion Int D σ G S :=
  Completion.offEnd (demonitorPriorityLevelBody m priority)

/-! ## Reading a trace, and the stages a tick is specified to submit -/

/-- The stage of an `appendStage` call. -/
def Event.stage? : Event D → Option (Stage D)
  | Event.appendStage st => some st
  | _ => none

/-- The key of the task an `update` call went to. -/
def Event.updateKey? : Event D → Option String
  | Event.update k => some k
  | _ => none

/-- The name a `removeDependency` call was made with. -/
def Event.removedName? : Event D → Option String
  | Event.removeDependency n => some n
  | _ => none

/-- Specification side: the entries of the task map that are active and whose
update returns 0, in map order. -/
def stagedTasks (env : Env D σ R G S) (g : G) (robot_state : R) (m : TaskMap D σ) :
    TaskMap D σ :=
  m.filter (fun kv => kv.2.active_ && decide ((env.taskUpdate g kv.2 robot_state).1 = 0))

/-- Specification side: one stage per staged task, carrying the priority,
desired dynamics, Jacobian and row types the task has after its update. -/
def expectedStages (env : Env D σ R G S) (g : G) (robot_state : R) (m : TaskMap D σ) :
    List (Stage D) :=
  (stagedTasks env g robot_state m).map (fun kv => stageOf (updated env g robot_state kv.2))

/-- Specification side: the calls one entry of the task map gives rise to in a
tick: none for an inactive task, an update for an active one, followed by an
`appendStage` when that update returned 0. -/
def taskEvents (env : Env D σ R G S) (g : G) (robot_state : R) (kv : String × Task D σ) :
    List (Event D) :=
  if kv.2.active_ then
    if (env.taskUpdate g kv.2 robot_state).1 = 0 then
      [Event.update kv.1, Event.appendStage (stageOf (updated env g robot_state kv.2))]
    else [Event.update kv.1]
  else []

/-- The key of the task a `monitor` call went to. -/
def Event.monitorKey? : Event D → Option String
  | Event.monitor k => some k
  | _ => none

/-- Specification side: the record emitted for a task, holding its name, value,
desired dynamics and performance measures. -/
def measureOf (t : Task D σ) : TaskMeasure D :=
  { task_name := t.task_name_, e := t.data.e_, de := t.data.e_dot_star_,
    pm := t.data.performance_measures_ }

/-- A task after its `monitor()` ran. -/
def monitored (env : Env D σ R G S) (t : Task D σ) : Task D σ :=
  { t with data := env.taskMonitor t }

/-- The four flag changes offered per task and per priority level. -/
inductive FlagOp where
  | activate
  | deactivate
  | monitor
  | demonitor
  deriving DecidableEq, Repr

/-- The per-task method of a flag change. -/
def FlagOp.run (op : FlagOp) (m : TaskManager D σ G S) (task_name : String) :
    Completion Int D σ G S :=
  match op with
  | FlagOp.activate => activateTask m task_name
  | FlagOp.deactivate => deactivateTask m task_name
  | FlagOp.monitor => monitorTask m task_name
  | FlagOp.demonitor => demonitorTask m task_name

/-- The body of the per-task method of a flag change. -/
def FlagOp.runBody (op : FlagOp) (m : TaskManager D σ G S) (task_name : String) :
    BodyState D σ G S :=
  match op with
  | FlagOp.activate => activateTaskBody m task_name
  | FlagOp.deactivate => deactivateTaskBody m task_name
  | FlagOp.monitor => monitorTaskBody m task_name
  | FlagOp.demonitor => demonitorTaskBody m task_name

/-- The per-priority-level method of a flag change. -/
def FlagOp.runLevel (op : FlagOp) (m : TaskManager D σ G S) (priority : Nat) :
    Completion Int D σ G S :=
  match op with
  | FlagOp.activate => activatePriorityLevel m priority
  | FlagOp.deactivate => deactivatePriorityLevel m priority
  | FlagOp.monitor => monitorPriorityLevel m priority
  | FlagOp.demonitor => demonitorPriorityLevel m priority

/-- The body of the per-priority-level method of a flag change. -/
def FlagOp.runLevelBody (op : FlagOp) (m : TaskManager D σ G S) (priority : Nat) :
    BodyState D σ G S :=
  match op with
  | FlagOp.activate => activatePriorityLevelBody m priority
  | FlagOp.deactivate => deactivatePriorityLevelBody m priority
  | FlagOp.monitor => monitorPriorityLevelBody m priority
  | FlagOp.demonitor => demonitorPriorityLevelBody m priority

/-- Specification side: what a flag change is to do to a task: activate and
deactivate set the active flag to true and false, monitor and demonitor set the
monitored flag to true and false; every other field stays. -/
def FlagOp.apply (op : FlagOp) (t : Task D σ) : Task D σ :=
  match op with
  | FlagOp.activate =>
    { task_name_ := t.task_name_, priority_ := t.priority_, visible_ := t.visible_,
      active_ := true, monitored_ := t.monitored_, data := t.data }
  | FlagOp.deactivate =>
    { task_name_ := t.task_name_, priority_ := t.priority_, visible_ := t.visible_,
      active_ := false, monitored_ := t.monitored_, data := t.data }
  | FlagOp.monitor =>
    { task_name_ := t.task_name_, priority_ := t.priority_, visible_ := t.visible_,
      active_ := t.active_, monitored_ := true, data := t.data }
  | FlagOp.demonitor =>
    { task_name_ := t.task_name_, priority_ := t.priority_, visible_ := t.visible_,
      active_ := t.active_, monitored_ := false, data := t.data }

end model

/-! ## A concrete instance

The collaborators below are small executable stand-ins used to run the
operations on concrete managers. -/

namespace Demo

/-- Modelled from the spec: `GeometricPrimitiveMap` (its header and source are
not part of the translated files).  The store keeps, per primitive name, its
type name, and per task name a dependency mark; an upsert under an existing
name with a different type fails. -/
structure Store where
  prims : List (String × String)
  deps : List String
  deriving DecidableEq, Repr

/-- Modelled from the spec: `setGeometricPrimitive`, "If a primitive of that
name already exists but with a different type, fail; otherwise overwrite
parameters."  A failure is reported as the status `-1`. -/
def Store.setGeometricPrimitive (g : Store) (name type : String) : Int × Store :=
  match g.prims.find? (fun p => p.1 == name) with
  | some p => if p.2 = type then (0, g) else (-1, g)
  | none => (0, { g with prims := g.prims ++ [(name, type)] })

/-- Modelled from the spec: `removeDependency(task_name)` withdraws the
dependency declarations of a task. -/
def Store.removeDependency (g : Store) (task_name : String) : Store :=
  { g with deps := g.deps.filter (fun d => d != task_name) }

/-- A collaborator set for running examples: `init` fails exactly on an empty
definition parameter list, `update` fails exactly on a task of priority 0, and
the solver keeps the appended stages and succeeds exactly when it holds one. -/
def env : Env Int Unit Unit Store (List (Stage Int)) where
  taskCtor := fun _ =>
    { e_ := [], J_ := [], e_dot_star_ := [], task_types_ := [], performance_measures_ := [],
      impl := () }
  taskInit := fun g t def_params _ _ =>
    if def_params.isEmpty then (-1, t.data, g)
    else (0, { t.data with e_ := [0], J_ := [[1]], e_dot_star_ := [0], task_types_ := [0] },
          { g with deps := g.deps ++ [t.task_name_] })
  taskUpdate := fun _ t _ =>
    if t.priority_ = 0 then (-1, t.data)
    else (0, { t.data with e_dot_star_ := [Int.ofNat t.priority_] })
  taskMonitor := fun t => { t.data with performance_measures_ := t.data.e_ }
  clearStages := fun _ => []
  appendStage := fun s st => s ++ [st]
  solve := fun s controls =>
    if s.isEmpty then (false, s, controls.map (fun c => c + 1))
    else (true, s, controls.map (fun _ => 7))
  removeDependency := Store.removeDependency
  setGeometricPrimitive := fun g name type _ _ _ _ => Store.setGeometricPrimitive g name type

/-- A task for examples. -/
def mkTask (name : String) (priority : Nat) (visible active monitored : Bool) :
    Task Int Unit :=
  { task_name_ := name, priority_ := priority, visible_ := visible, active_ := active,
    monitored_ := monitored,
    data := { e_ := [0], J_ := [[1]], e_dot_star_ := [0], task_types_ := [0],
              performance_measures_ := [], impl := () } }

/-- A manager with an empty task map. -/
def mgr0 : TaskManager Int Unit Store (List (Stage Int)) :=
  { n_controls_ := 2, task_map_ := [], geometric_primitive_map_ := { prims := [], deps := [] },
    solver_ := [] }

/-- A manager with three tasks: `a` (priority 1, active), `b` (priority 2,
inactive, monitored) and `c` (priority 0, active). -/
def mgr3 : TaskManager Int Unit Store (List (Stage Int)) :=
  { n_controls_ := 2,
    task_map_ := [("a", mkTask "a" 1 true true false), ("b", mkTask "b" 2 false false true),
                  ("c", mkTask "c" 0 true true false)],
    geometric_primitive_map_ := { prims := [("p", "point")], deps := ["a", "b", "c"] },
    solver_ := [] }

/-- A manager whose only task, `b`, is inactive. -/
def mgrIdle : TaskManager Int Unit Store (List (Stage Int)) :=
  { n_controls_ := 2, task_map_ := [("b", mkTask "b" 2 false false true)],
    geometric_primitive_map_ := { prims := [], deps := ["b"] }, solver_ := [] }

end Demo

/-! ## Joint-limit dynamics: `hiqp_core/src/tasks/tdyn_jnt_limits.cpp` -/

namespace tasks

/-- The assignment `v(i) = x` to a coefficient of an Eigen vector; there is no
result when the index is outside the vector. -/
def setCoeff {D : Type} (v : List D) (i : Nat) (x : D) : Option (List D) :=
  if i < v.length then some (v.set i x) else none

/-- The call `v.resize(n)` on an Eigen vector: a vector of that size is left
alone, any other is replaced by `n` coefficients of unspecified content, given
here by `fresh`. -/
def resize {D : Type} (fresh : Nat → D) (v : List D) (n : Nat) : List D :=
  if v.length = n then v else (List.range n).map fresh

/-- The members of `TDynJntLimits`. -/
structure TDynJntLimits (D : Type) where
  e_dot_star_ : List D
  performance_measures_ : List D
  dq_max_ : D
  gain_ : D
  deriving DecidableEq, Repr

namespace TDynJntLimits

/-- The method `TDynJntLimits::init`.  `stod` is `std::stod`, which has no
result on a string that is not a number, and then `init` has none either.  The
parameter count is taken as it is (lists are shorter than `2^31`). -/
def init {D R : Type} (stod : String → Option D) (fresh : Nat → D) (s : TDynJntLimits D)
    (parameters : List String) (_robot_state : R) (_e_initial _e_final : List D) :
    Option (Int × TDynJntLimits D) :=
  if parameters.length ≠ 3 then some (-1, s)
  else
    match parameters[1]? with
    | none => none
    | some p1 =>
      match stod p1 with
      | none => none
      | some dq_max =>
        match parameters[2]? with
        | none => none
        | some p2 =>
          match stod p2 with
          | none => none
          | some gain =>
            some (0, { e_dot_star_ := resize fresh s.e_dot_star_ 4, performance_measures_ := [],
                       dq_max_ := dq_max, gain_ := gain })

/-- The method `TDynJntLimits::update`: four coefficient writes, the last two
reading `e(2)` and `e(3)`. -/
def update {D R : Type} [Neg D] [Mul D] (s : TDynJntLimits D) (_robot_state : R)
    (e : List D) (_J : List (List D)) : Option (Int × TDynJntLimits D) :=
  match setCoeff s.e_dot_star_ 0 (-s.dq_max_) with
  | none => none
  | some v0 =>
    match setCoeff v0 1 s.dq_max_ with
    | none => none
    | some v1 =>
      match e[2]? with
      | none => none
      | some e2 =>
        match setCoeff v1 2 (-s.gain_ * e2) with
        | none => none
        | some v2 =>
          match e[3]? with
          | none => none
          | some e3 =>
            match setCoeff v2 3 (-s.gain_ * e3) with
            | none => none
            | some v3 => some (0, { s with e_dot_star_ := v3 })

end TDynJntLimits

/-! ## Collision avoidance: `hiqp_core/src/tasks/task_avoid_collisions_sdf.cpp` -/

/-- A `double` written as a decimal: `mant` times ten to the power `-exp10`. -/
structure Dec where
  mant : Int
  exp10 : Nat
  deriving DecidableEq, Repr

/-- An `Eigen::Vector3d`. -/
structure Vector3d where
  x : Dec
  y : Dec
  z : Dec
  deriving DecidableEq, Repr

/-- What the task reads of a geometric primitive: `getName()`, `getType()` and
`getFrameId()`. -/
structure GeometricPrimitive where
  name_ : String
  type_ : String
  frame_id_ : String
  deriving DecidableEq, Repr

/-- Modelled from the spec: `GeometricPrimitiveMap::getGeometricPrimitive<T>`,
"typed lookup; returns nothing if the name is unknown or type mismatches".
The store holds one primitive per name, given by `gpm`. -/
def getGeometricPrimitive (gpm : String → Option GeometricPrimitive) (type name : String) :
    Option GeometricPrimitive :=
  match gpm name with
  | some p => if p.type_ = type then some p else none
  | none => none

/-- The collaborators of the task.  `gpm` is the content of the primitive
store; `kdl_getQNrFromLinkName` is -1 for a frame that is not attached to the
manipulator; `jntToCart` and `jntToJac` are the two kinematics solvers made in
`init` over the kinematic tree, giving a status (and the position of the
frame); `rootFrame` is the name of the root segment. -/
structure SDFEnv (R : Type) where
  gpm : String → Option GeometricPrimitive
  kdl_getQNrFromLinkName : R → String → Int
  jntToCart : R → String → Int × Vector3d
  jntToJac : R → String → Int
  rootFrame : R → String

/-- The distance-gradient oracle `obstacleGradientBulk(test_pts, gradients,
frame)`: its verdict and the gradients it wrote. -/
abbrev Oracle := List Vector3d → String → Bool × List Vector3d

/-- The members of `TaskAvoidCollisionsSDF` the translated methods use. -/
structure TaskAvoidCollisionsSDF where
  n_dimensions_ : Nat
  task_types_ : List Int
  primitives_ : List GeometricPrimitive
  performance_measures_ : List Dec
  root_frame_id_ : String
  deriving DecidableEq, Repr

/-- The entry of a `kin_q_list`: the frame and the position `ee_pose_.p`. -/
structure KinematicQuantities where
  frame_id_ : String
  ee_pose_p : Vector3d
  deriving DecidableEq, Repr

/-- What `update` leaves: its status and, per primitive whose loop body ran to
its end, the content of `gradients` there. -/
structure SDFUpdate where
  ret : Int
  gradients : List (String × List Vector3d)
  deriving DecidableEq, Repr

namespace TaskAvoidCollisionsSDF

/-- The method `TaskAvoidCollisionsSDF::reset`. -/
def reset (s : TaskAvoidCollisionsSDF) : TaskAvoidCollisionsSDF :=
  { s with n_dimensions_ := 0, task_types_ := [], primitives_ := [] }

/-- The `for` loop of `init` over `parameters.at(1)`, `parameters.at(2)`, ...:
the status is -2 as soon as a name is neither a point nor a sphere of the
store, or its frame is not attached; otherwise the primitive is bound. -/
def bindLoop {R : Type} (env : SDFEnv R) (robot_state : R) :
    List String → TaskAvoidCollisionsSDF → Int × TaskAvoidCollisionsSDF
  | [], s => (0, s)
  | name :: rest, s =>
    match getGeometricPrimitive env.gpm "point" name with
    | some point =>
      if env.kdl_getQNrFromLinkName robot_state point.frame_id_ = -1 then (-2, s)
      else bindLoop env robot_state rest
        { s with primitives_ := s.primitives_ ++ [point], n_dimensions_ := s.n_dimensions_ + 1 }
    | none =>
      match getGeometricPrimitive env.gpm "sphere" name with
      | some sphere =>
        if env.kdl_getQNrFromLinkName robot_state sphere.frame_id_ = -1 then (-2, s)
        else bindLoop env robot_state rest
          { s with primitives_ := s.primitives_ ++ [sphere],
                   n_dimensions_ := s.n_dimensions_ + 1 }
      | none => (-2, s)

/-- The method `TaskAvoidCollisionsSDF::init`. -/
def init {R : Type} (env : SDFEnv R) (s : TaskAvoidCollisionsSDF) (parameters : List String)
    (robot_state : R) : Int × TaskAvoidCollisionsSDF :=
  if parameters.length < 2 then (-2, s)
  else
    let r := bindLoop env robot_state (parameters.drop 1) (reset s)
    if r.1 ≠ 0 then r
    else
      (0, { r.2 with performance_measures_ := [],
                     task_types_ := List.replicate r.2.n_dimensions_ (-1) ++ r.2.task_types_,
                     root_frame_id_ := env.rootFrame robot_state })

/-- The method `TaskAvoidCollisionsSDF::forwardKinematics`: the status and the
position written to `kin_q.ee_pose_`. -/
def forwardKinematics {R : Type} (env : SDFEnv R) (robot_state : R) (frame_id : String) :
    Int × Vector3d :=
  if (env.jntToCart robot_state frame_id).1 < 0 then (-2, (env.jntToCart robot_state frame_id).2)
  else if env.jntToJac robot_state frame_id < 0 then
    (-2, (env.jntToCart robot_state frame_id).2)
  else (0, (env.jntToCart robot_state frame_id).2)

/-- The method `TaskAvoidCollisionsSDF::primitiveForwardKinematics`: the status
and the `kin_q_list` it filled. -/
def primitiveForwardKinematics {R : Type} (env : SDFEnv R) (robot_state : R)
    (primitive : GeometricPrimitive) : Int × List KinematicQuantities :=
  if primitive.type_ = "point" then
    if (forwardKinematics env robot_state primitive.frame_id_).1 < 0 then (-2, [])
    else (0, [{ frame_id_ := primitive.frame_id_,
                ee_pose_p := (forwardKinematics env robot_state primitive.frame_id_).2 }])
  else if primitive.type_ = "sphere" then
    if (forwardKinematics env robot_state primitive.frame_id_).1 < 0 then (-2, [])
    else (0, [{ frame_id_ := primitive.frame_id_,
                ee_pose_p := (forwardKinematics env robot_state primitive.frame_id_).2 }])
  else (-2, [])

/-- The gradient `Eigen::Vector3d(0.6, -0.3, 0.3)` of the source. -/
def fallbackGradient : Vector3d :=
  { x := { mant := 6, exp10 := 1 }, y := { mant := -3, exp10 := 1 },
    z := { mant := 3, exp10 := 1 } }

/-- The content of `gradients` after the oracle call in the loop body of
`update`: what the oracle wrote when it succeeded, and otherwise the list
cleared and given the one fallback gradient. -/
def gradientsAfterOracle (oracle : Oracle) (test_pts : List Vector3d) (root_frame_id : String) :
    List Vector3d :=
  if !(oracle test_pts root_frame_id).1 then [fallbackGradient]
  else (oracle test_pts root_frame_id).2

/-- The `for` loop of `update` over `primitives_`. -/
def updateLoop {R : Type} (env : SDFEnv R) (oracle : Oracle) (robot_state : R)
    (root_frame_id : String) : List GeometricPrimitive → SDFUpdate
  | [] => { ret := 0, gradients := [] }
  | primitive :: rest =>
    if (primitiveForwardKinematics env robot_state primitive).1 < 0 then
      { ret := -2, gradients := [] }
    else
      let test_pts := (primitiveForwardKinematics env robot_state primitive).2.map
        (fun kin_q => kin_q.ee_pose_p)
      let r := updateLoop env oracle robot_state root_frame_id rest
      { ret := r.ret,
        gradients := (primitive.name_, gradientsAfterOracle oracle test_pts root_frame_id)
          :: r.gradients }

/-- The method `TaskAvoidCollisionsSDF::update`. -/
def update {R : Type} (env : SDFEnv R) (oracle : Oracle) (s : TaskAvoidCollisionsSDF)
    (robot_state : R) : SDFUpdate :=
  updateLoop env oracle robot_state s.root_frame_id_ s.primitives_

/-- Specification side: a name can be bound when the store holds it as a point
or as a sphere and its frame is attached to the manipulator. -/
def bindable {R : Type} (env : SDFEnv R) (robot_state : R) (name : String) : Bool :=
  match env.gpm name with
  | some p =>
    (decide (p.type_ = "point") || decide (p.type_ = "sphere")) &&
      decide (env.kdl_getQNrFromLinkName robot_state p.frame_id_ ≠ -1)
  | none => false

end TaskAvoidCollisionsSDF

end tasks

/-! ## The task factory: `hiqp_controllers/src/task_factory__old.cpp` -/

namespace TaskFactory

/-- The result of code that may throw: a value, or the `std::out_of_range` of
`std::vector::at` leaving the function. -/
inductive Result (α : Type) where
  | returned (a : α)
  | threw
  deriving DecidableEq, Repr

/-- The call `v.at(i)`. -/
def vecAt (v : List String) (i : Nat) : Result String :=
  match v[i]? with
  | some x => Result.returned x
  | none => Result.threw

/-- The primitive classes the function templates are instantiated with. -/
inductive PrimitiveKind where
  | GeometricPoint
  | GeometricLine
  | GeometricPlane
  | GeometricBox
  | GeometricCylinder
  | GeometricSphere
  deriving DecidableEq, Repr

/-- The dynamics classes the factory constructs. -/
inductive TaskDynamicsKind where
  | DynamicsFirstOrder
  | DynamicsJntLimits
  | DynamicsMinimalJerk
  deriving DecidableEq, Repr

/-- The function classes the factory constructs. -/
inductive TaskFunctionKind where
  | TaskFullPose
  | TaskJntConfig
  | TaskJntLimits
  | TaskGeometricProjection (a b : PrimitiveKind)
  | TaskGeometricAlignment (a b : PrimitiveKind)
  deriving DecidableEq, Repr

/-- The method `TaskFactory::constructTaskDynamics`; `none` is `nullptr`. -/
def constructTaskDynamics (parameters : List String) : Option TaskDynamicsKind :=
  match parameters with
  | [] => some TaskDynamicsKind.DynamicsFirstOrder
  | p0 :: rest =>
    if rest.length + 1 = 1 ∧ p0 = "NA" then some TaskDynamicsKind.DynamicsFirstOrder
    else if p0 = "DynamicsFirstOrder" then
      if rest.length + 1 = 2 then some TaskDynamicsKind.DynamicsFirstOrder else none
    else if p0 = "DynamicsJntLimits" then
      if rest.length + 1 = 2 then some TaskDynamicsKind.DynamicsJntLimits else none
    else if p0 = "DynamicsMinimalJerk" then
      if rest.length + 1 = 3 then some TaskDynamicsKind.DynamicsMinimalJerk else none
    else none

/-- The chain of comparisons of `constructTaskFunction` for
`TaskGeometricProjection`. -/
def projectionFor (type1 type2 : String) : Option TaskFunctionKind :=
  if type1 = "point" ∧ type2 = "point" then
    some (TaskFunctionKind.TaskGeometricProjection PrimitiveKind.GeometricPoint
      PrimitiveKind.GeometricPoint)
  else if type1 = "point" ∧ type2 = "line" then
    some (TaskFunctionKind.TaskGeometricProjection PrimitiveKind.GeometricPoint
      PrimitiveKind.GeometricLine)
  else if type1 = "point" ∧ type2 = "plane" then
    some (TaskFunctionKind.TaskGeometricProjection PrimitiveKind.GeometricPoint
      PrimitiveKind.GeometricPlane)
  else if type1 = "point" ∧ type2 = "box" then
    some (TaskFunctionKind.TaskGeometricProjection PrimitiveKind.GeometricPoint
      PrimitiveKind.GeometricBox)
  else if type1 = "point" ∧ type2 = "cylinder" then
    some (TaskFunctionKind.TaskGeometricProjection PrimitiveKind.GeometricPoint
      PrimitiveKind.GeometricCylinder)
  else if type1 = "point" ∧ type2 = "sphere" then
    some (TaskFunctionKind.TaskGeometricProjection PrimitiveKind.GeometricPoint
      PrimitiveKind.GeometricSphere)
  else if type1 = "sphere" ∧ type2 = "plane" then
    some (TaskFunctionKind.TaskGeometricProjection PrimitiveKind.GeometricSphere
      PrimitiveKind.GeometricPlane)
  else if type1 = "sphere" ∧ type2 = "sphere" then
    some (TaskFunctionKind.TaskGeometricProjection PrimitiveKind.GeometricSphere
      PrimitiveKind.GeometricSphere)
  else none

/-- The chain of comparisons of `constructTaskFunction` for
`TaskGeometricAlignment`. -/
def alignmentFor (type1 type2 : String) : Option TaskFunctionKind :=
  if type1 = "line" ∧ type2 = "line" then
    some (TaskFunctionKind.TaskGeometricAlignment PrimitiveKind.GeometricLine
      PrimitiveKind.GeometricLine)
  else if type1 = "line" ∧ type2 = "plane" then
    some (TaskFunctionKind.TaskGeometricAlignment PrimitiveKind.GeometricLine
      PrimitiveKind.GeometricPlane)
  else if type1 = "line" ∧ type2 = "cylinder" then
    some (TaskFunctionKind.TaskGeometricAlignment PrimitiveKind.GeometricLine
      PrimitiveKind.GeometricCylinder)
  else if type1 = "line" ∧ type2 = "sphere" then
    some (TaskFunctionKind.TaskGeometricAlignment PrimitiveKind.GeometricLine
      PrimitiveKind.GeometricSphere)
  else none

/-- The method `TaskFactory::constructTaskFunction`; `none` is `nullptr`. -/
def constructTaskFunction (type : String) (parameters : List String) :
    Result (Option TaskFunctionKind) :=
  if type = "TaskFullPose" then Result.returned (some TaskFunctionKind.TaskFullPose)
  else if type = "TaskJntConfig" then Result.returned (some TaskFunctionKind.TaskJntConfig)
  else if type = "TaskJntLimits" then Result.returned (some TaskFunctionKind.TaskJntLimits)
  else if type = "TaskGeometricProjection" then
    match vecAt parameters 0 with
    | Result.threw => Result.threw
    | Result.returned type1 =>
      match vecAt parameters 1 with
      | Result.threw => Result.threw
      | Result.returned type2 => Result.returned (projectionFor type1 type2)
  else if type = "TaskGeometricAlignment" then
    match vecAt parameters 0 with
    | Result.threw => Result.threw
    | Result.returned type1 =>
      match vecAt parameters 1 with
      | Result.threw => Result.threw
      | Result.returned type2 => Result.returned (alignmentFor type1 type2)
  else Result.returned none

/-- The sizes `buildTask` compares: the rows of `e_`, `J_` and `e_dot_star_`,
the size of `task_types_`, and the columns of `J_`. -/
structure Dims where
  e_rows : Nat
  J_rows : Nat
  J_cols : Nat
  e_dot_star_rows : Nat
  task_types_size : Nat
  deriving DecidableEq, Repr

/-- The virtual methods of the constructed objects that `buildTask` calls:
`function->init(sampling_time, parameters, kdl_tree, num_controls_)` and
`dynamics->init(sampling_time, beh_params, initial state, final state)`, each
giving its status and the sizes of the function's members afterwards. -/
structure FactoryEnv where
  functionInit : TaskFunctionKind → List String → Nat → Int × Dims
  dynamicsInit : TaskDynamicsKind → List String → Dims → Int × Dims

/-- What `buildTask` hands back: its status and, when the objects are still
alive at the return, the dynamics, the function and the function's sizes. -/
structure Built where
  status : Int
  objects : Option (TaskDynamicsKind × TaskFunctionKind × Dims)
  deriving DecidableEq, Repr

/-- The behaviour parameters `beh_params` assembled at the start of
`buildTask`. -/
def behParams (type : String) (parameters behaviour_parameters : List String) :
    Result (List String) :=
  if type = "TaskJntLimits" then
    match vecAt parameters 1 with
    | Result.threw => Result.threw
    | Result.returned p1 => Result.returned ["DynamicsJntLimits", p1]
  else if behaviour_parameters.length = 0 then
    Result.returned ["DynamicsFirstOrder", "1.0"]
  else Result.returned behaviour_parameters

/-- The three size tests of `buildTask`. -/
def sizeTestsFail (d : Dims) : Bool :=
  decide (d.e_rows ≠ d.J_rows) || decide (d.e_rows ≠ d.e_dot_star_rows) ||
    decide (d.e_rows ≠ d.task_types_size)

/-- The method `TaskFactory::buildTask`, for a factory initialised with
`num_controls`. -/
def buildTask (env : FactoryEnv) (num_controls : Nat) (_name type : String) (_priority : Nat)
    (_visibility _active : Bool) (parameters behaviour_parameters : List String) :
    Result Built :=
  match behParams type parameters behaviour_parameters with
  | Result.threw => Result.threw
  | Result.returned beh_params =>
    match constructTaskDynamics beh_params with
    | none => Result.returned { status := -1, objects := none }
    | some dynamics =>
      match vecAt beh_params 0 with
      | Result.threw => Result.threw
      | Result.returned _ =>
        match constructTaskFunction type parameters with
        | Result.threw => Result.threw
        | Result.returned none => Result.returned { status := -2, objects := none }
        | Result.returned (some function) =>
          if (env.functionInit function parameters num_controls).1 ≠ 0 then
            Result.returned { status := -3, objects := none }
          else if (env.dynamicsInit dynamics beh_params
              (env.functionInit function parameters num_controls).2).1 ≠ 0 then
            Result.returned { status := -4, objects := none }
          else if sizeTestsFail (env.dynamicsInit dynamics beh_params
              (env.functionInit function parameters num_controls).2).2 then
            Result.returned { status := -5, objects := none }
          else
            Result.returned
              { status := 0,
                objects := some (dynamics, function,
                  (env.dynamicsInit dynamics beh_params
                    (env.functionInit function parameters num_controls).2).2) }

/-- Modelled from the spec: `TaskFunction::init` of the function classes, whose
sources are not among the translated files.  "`J ∈ ℝ^{m×n}` — gradient with
respect to `q`", with `init(def_params, tree, n_controls)`: a successful `init`
gives `J_` as many columns as the number of controls it was called with. -/
def FunctionInitSizesJ (env : FactoryEnv) : Prop :=
  ∀ function parameters num_controls,
    (env.functionInit function parameters num_controls).1 = 0 →
      (env.functionInit function parameters num_controls).2.J_cols = num_controls

/-- Modelled from the spec: `TaskDynamics::init` of the dynamics classes, whose
sources are not among the translated files.  A dynamics "produces `ė*`": its
`init` leaves the columns of the function's `J_` as they are. -/
def DynamicsInitKeepsJ (env : FactoryEnv) : Prop :=
  ∀ dynamics beh_params d, (env.dynamicsInit dynamics beh_params d).2.J_cols = d.J_cols

/-- Specification side: the primitive class a primitive type name stands
for. -/
def primitiveKindOf (name : String) : Option PrimitiveKind :=
  if name = "point" then some PrimitiveKind.GeometricPoint
  else if name = "line" then some PrimitiveKind.GeometricLine
  else if name = "plane" then some PrimitiveKind.GeometricPlane
  else if name = "box" then some PrimitiveKind.GeometricBox
  else if name = "cylinder" then some PrimitiveKind.GeometricCylinder
  else if name = "sphere" then some PrimitiveKind.GeometricSphere
  else none

/-- Specification side: the ordered pairs of primitive type names for which a
geometric projection is to be built. -/
def projectionPairs : List (String × String) :=
  [("point", "point"), ("point", "line"), ("point", "plane"), ("point", "box"),
   ("point", "cylinder"), ("point", "sphere"), ("sphere", "plane"), ("sphere", "sphere")]

/-- Specification side: the ordered pairs of primitive type names for which a
geometric alignment is to be built. -/
def alignmentPairs : List (String × String) :=
  [("line", "line"), ("line", "plane"), ("line", "cylinder"), ("line", "sphere")]

/-- The function type names `constructTaskFunction` compares `type` with. -/
def functionTypeNames : List String :=
  ["TaskFullPose", "TaskJntConfig", "TaskJntLimits", "TaskGeometricProjection",
   "TaskGeometricAlignment"]

/-- The dynamics type names `constructTaskDynamics` compares `parameters.at(0)`
with. -/
def dynamicsTypeNames : List String :=
  ["DynamicsFirstOrder", "DynamicsJntLimits", "DynamicsMinimalJerk"]

/-- Specification side: the function type names of the specification. -/
def specFunctionTypeNames : List String :=
  ["FullPose", "JointConfiguration", "JointLimits", "GeometricProjection",
   "GeometricAlignment", "AvoidCollisionsSDF"]

/-- Specification side: the dynamics type names of the specification. -/
def specDynamicsTypeNames : List String := ["FirstOrder", "MinimalJerk", "JntLimits"]

/-- The definition parameters assembled by
`ROSKinematicsController::loadJointLimitsFromParamServer` for one entry: the
link frame followed by `std::to_string` of `limitations[0]`, `limitations[1]`
and `limitations[2]`. -/
def loaderParameters {D : Type} (to_string : D → String) (link_frame : String)
    (limitations0 limitations1 limitations2 : D) : List String :=
  [link_frame, to_string limitations0, to_string limitations1, to_string limitations2]

end TaskFactory

/-! ## The resource lock of the manager

Each method of `hiqp_core/src/task_manager.cpp` is read once more, keeping only
its `resource_mutex_.lock()` and `resource_mutex_.unlock()` statements and its
accesses to `task_map_`, in program order on the path the call takes. -/

/-- A lock statement or an access (read or write) to `task_map_`. -/
inductive LockStep where
  | lock
  | unlock
  | taskMap
  deriving DecidableEq, Repr

/-- Runs a sequence of steps from a lock state: the lock state at the end, or
nothing when `task_map_` is accessed while the lock is not held. -/
def lockRun : Bool → List LockStep → Option Bool
  | held, [] => some held
  | _, LockStep.lock :: rest => lockRun true rest
  | _, LockStep.unlock :: rest => lockRun false rest
  | held, LockStep.taskMap :: rest => if held then lockRun held rest else none

/-- The lock state after a sequence of steps, accesses left aside. -/
def lockAfter : Bool → List LockStep → Bool
  | held, [] => held
  | _, LockStep.lock :: rest => lockAfter true rest
  | _, LockStep.unlock :: rest => lockAfter false rest
  | held, LockStep.taskMap :: rest => lockAfter held rest

/-- The lock statements of a trace. -/
def Event.lockStep? {D : Type} : Event D → Option LockStep
  | Event.lock => some LockStep.lock
  | Event.unlock => some LockStep.unlock
  | _ => none

/-- The lock statements among the steps. -/
def LockStep.lockOnly? : LockStep → Option LockStep
  | LockStep.taskMap => none
  | st => some st

/-- A call of one of the manager methods the lock discipline is stated for. -/
inductive Call (D R : Type) where
  | getVelocityControls (robot_state : R) (controls : List D)
  | getTaskMeasures (data : List (TaskMeasure D))
  | setTask (task_name : String) (priority : Nat) (visible active monitored : Bool)
      (def_params dyn_params : List String) (robot_state : R)
  | removeTask (task_name : String)
  | removeAllTasks
  | removePriorityLevel (priority : Nat)
  | flag (op : FlagOp) (task_name : String)
  | flagLevel (op : FlagOp) (priority : Nat)

/-- The trace of a call, from the methods as embedded above (for a call that
flows off the end of its body, the calls made by the body). -/
def Call.trace {D σ R G S : Type} [Zero D] (env : Env D σ R G S) (m : TaskManager D σ G S) :
    Call D R → List (Event D)
  | Call.getVelocityControls rs controls => (hiqp.getVelocityControls env m rs controls).trace
  | Call.getTaskMeasures data => (hiqp.getTaskMeasures env m data).trace
  | Call.setTask n p v a mon dp yp rs => (hiqp.setTask env m n p v a mon dp yp rs).trace
  | Call.removeTask n => (hiqp.removeTask env m n).trace
  | Call.removeAllTasks => (hiqp.removeAllTasks env m).trace
  | Call.removePriorityLevel p => (hiqp.removePriorityLevel env m p).trace
  | Call.flag op n => (op.run m n).trace
  | Call.flagLevel op p => (op.runLevel m p).trace

/-- The lock statements and task-map accesses of a call, in program order:

* `getVelocityControls`: `task_map_.size()`, then, unless it returns at once,
  `lock`, the loop over the entries, `unlock`;
* `getTaskMeasures`: `lock`, the loop over the entries, `unlock`;
* `setTask`: `lock`, `find`, then `unlock` when `init` failed, and `emplace`,
  `unlock` otherwise;
* `removeTask`: `lock`, `erase`, `unlock` on either path;
* `removeAllTasks`: `lock`, the loop over the entries, `clear`, `unlock`;
* `removePriorityLevel` and the flag methods of a priority level: `lock`, the
  loop over the entries, `unlock`;
* the flag methods of a task: `lock`, `find`, `unlock`. -/
def Call.steps {D σ R G S : Type} (env : Env D σ R G S) (m : TaskManager D σ G S) :
    Call D R → List LockStep
  | Call.getVelocityControls _ _ =>
    if m.task_map_.length < 1 then [LockStep.taskMap]
    else [LockStep.taskMap, LockStep.lock] ++ m.task_map_.map (fun _ => LockStep.taskMap) ++
      [LockStep.unlock]
  | Call.getTaskMeasures _ =>
    [LockStep.lock] ++ m.task_map_.map (fun _ => LockStep.taskMap) ++ [LockStep.unlock]
  | Call.setTask n p v a mon dp yp rs =>
    if (initCall env m n p v a mon dp yp rs).1 ≠ 0 then
      [LockStep.lock, LockStep.taskMap, LockStep.unlock]
    else [LockStep.lock, LockStep.taskMap, LockStep.taskMap, LockStep.unlock]
  | Call.removeTask n =>
    if (TaskMap.erase m.task_map_ n).2 = 1 then
      [LockStep.lock, LockStep.taskMap, LockStep.unlock]
    else [LockStep.lock, LockStep.taskMap, LockStep.unlock]
  | Call.removeAllTasks =>
    [LockStep.lock] ++ m.task_map_.map (fun _ => LockStep.taskMap) ++
      [LockStep.taskMap, LockStep.unlock]
  | Call.removePriorityLevel _ =>
    [LockStep.lock] ++ m.task_map_.map (fun _ => LockStep.taskMap) ++ [LockStep.unlock]
  | Call.flag _ _ => [LockStep.lock, LockStep.taskMap, LockStep.unlock]
  | Call.flagLevel _ _ =>
    [LockStep.lock] ++ m.task_map_.map (fun _ => LockStep.taskMap) ++ [LockStep.unlock]

/-! ## The id-based task manager: `hiqp_controllers/src/task_manager.cpp` -/

namespace controllers

/-- The value of `-1` as a `std::size_t` (64 bits). -/
def sizeMax : Nat := 2 ^ 64 - 1

/-- The object made by `new TaskBehFO()`, with what `init` was given; `deleted`
records a `delete` of the object. -/
structure TaskBehaviour where
  init_parameters : List String
  deleted : Bool
  deriving DecidableEq, Repr

/-- The object made by `new TaskPoP()` with what the setters and `init` were
given; `behaviour` is the key under which the behaviour it points to is
stored. -/
structure Task where
  behaviour : Nat
  priority : Nat
  id : Nat
  visibility : Bool
  init_parameters : List String
  deriving DecidableEq, Repr

/-- The members of the id-based `TaskManager` that `addTask` uses. -/
structure TaskManager where
  next_task_id_ : Nat
  next_task_behaviour_id_ : Nat
  tasks_ : List (Nat × Task)
  task_behaviours_ : List (Nat × TaskBehaviour)
  deriving DecidableEq, Repr

/-- The assignment `map[key] = value`: overwrites the entry of the key, or adds
one. -/
def mapSet {α : Type} : List (Nat × α) → Nat → α → List (Nat × α)
  | [], key, value => [(key, value)]
  | (k, v) :: rest, key, value =>
    if k = key then (k, value) :: rest else (k, v) :: mapSet rest key value

/-- The call `map.insert(element)`: adds the entry unless the key is there. -/
def mapInsert {α : Type} : List (Nat × α) → Nat → α → List (Nat × α)
  | [], key, value => [(key, value)]
  | (k, v) :: rest, key, value =>
    if k = key then (k, v) :: rest else (k, v) :: mapInsert rest key value

/-- The effect of `delete behaviour` on the object stored under a key. -/
def markDeleted : List (Nat × TaskBehaviour) → Nat → List (Nat × TaskBehaviour)
  | [], _ => []
  | (k, v) :: rest, key =>
    if k = key then (k, { v with deleted := true }) :: rest else (k, v) :: markDeleted rest key

/-- The method `TaskManager::buildTask`: is an object made. -/
def buildTask (task_name : String) : Bool := decide (task_name = "TaskPoP")

/-- The method `TaskManager::buildTaskBehaviour`: is an object made. -/
def buildTaskBehaviour (behaviour_name : String) : Bool := decide (behaviour_name = "TaskBehFO")

/-- The method `TaskManager::addTask`: the value returned and the manager
afterwards. -/
def addTask (m : TaskManager) (task_name behaviour_name : String)
    (behaviour_parameters : List String) (priority : Nat) (visibility : Bool)
    (parameters : List String) : Nat × TaskManager :=
  if buildTaskBehaviour behaviour_name = false then (sizeMax, m)
  else
    let m1 : TaskManager :=
      { m with
        task_behaviours_ := mapSet m.task_behaviours_ m.next_task_behaviour_id_
          { init_parameters := behaviour_parameters, deleted := false },
        next_task_behaviour_id_ := (m.next_task_behaviour_id_ + 1) % 2 ^ 64 }
    if buildTask task_name = false then
      (sizeMax,
        { m1 with task_behaviours_ := markDeleted m1.task_behaviours_ m.next_task_behaviour_id_ })
    else
      let m2 : TaskManager :=
        { m1 with
          tasks_ := mapInsert m1.tasks_ m1.next_task_id_
            { behaviour := m.next_task_behaviour_id_, priority := priority,
              id := m1.next_task_id_, visibility := visibility, init_parameters := parameters },
          next_task_id_ := (m1.next_task_id_ + 1) % 2 ^ 64 }
      ((m2.next_task_id_ + (2 ^ 64 - 1)) % 2 ^ 64, m2)

/-- A manager with one task and its behaviour. -/
def mgr1 : TaskManager :=
  { next_task_id_ := 1, next_task_behaviour_id_ := 1,
    tasks_ := [(0, { behaviour := 0, priority := 1, id := 0, visibility := true,
                     init_parameters := ["p"] })],
    task_behaviours_ := [(0, { init_parameters := ["1.0"], deleted := false })] }

end controllers

/-! ## Damped least squares: `hiqp_controllers/include/hiqp/hiqp_utils.h`

Matrices are taken over an exact field `K` in place of `double`; `pinv`, whose
body is a singular value decomposition, is a parameter of `dls`. -/

namespace utils

/-- The matrix `a_ext` of `dls`: `r + c` rows and `c` columns, the block at row
0 being `a` and the block at row `r` being `eta` times the identity. -/
def extended {K : Type} [CommRing K] {r c : Nat} (a : Matrix (Fin r) (Fin c) K) (eta : K) :
    Matrix (Fin (r + c)) (Fin c) K :=
  (Matrix.fromRows a (eta • (1 : Matrix (Fin c) (Fin c) K))).submatrix finSumFinEquiv.symm id

/-- The matrix `b` of `dls`: `r + c` rows and `r` columns, zero but for the
identity in its first `r` rows. -/
def selector (K : Type) [CommRing K] (r c : Nat) : Matrix (Fin (r + c)) (Fin r) K :=
  (Matrix.fromRows (1 : Matrix (Fin r) (Fin r) K) (0 : Matrix (Fin c) (Fin r) K)).submatrix
    finSumFinEquiv.symm id

/-- The function `dls(a, eta)`: the matrix returned, with its numbers of rows
and columns.  (The sizes are below `2^31`, so that `r + c` does not wrap.) -/
def dls {K : Type} [CommRing K]
    (pinv : (p q : Nat) → Matrix (Fin p) (Fin q) K → Matrix (Fin q) (Fin p) K)
    {r c : Nat} (a : Matrix (Fin r) (Fin c) K) (eta : K) :
    (p : Nat) × (q : Nat) × Matrix (Fin p) (Fin q) K :=
  if r > c then ⟨r, c, a⟩
  else if r = c then ⟨c, r, pinv r c a⟩
  else ⟨c, r, pinv (r + c) c (extended a eta) * selector K r c⟩

/-- Specification side: `X` is the Moore-Penrose pseudoinverse of the real
matrix `A` (the four Penrose equations). -/
structure IsMoorePenrose {K : Type} [CommRing K] {p q : Nat} (A : Matrix (Fin p) (Fin q) K)
    (X : Matrix (Fin q) (Fin p) K) : Prop where
  mul_mul_self : A * X * A = A
  self_mul_mul : X * A * X = X
  symm_left : (A * X).transpose = A * X
  symm_right : (X * A).transpose = X * A

/-- A `pinv` for examples, over the rationals: by Cramer's rule, the inverse of
`Mᵀ M` times `Mᵀ`, which is the pseudoinverse of a matrix with independent
columns. -/
def normalPinv (p q : Nat) (M : Matrix (Fin p) (Fin q) ℚ) : Matrix (Fin q) (Fin p) ℚ :=
  ((M.transpose * M).det)⁻¹ • ((M.transpose * M).adjugate * M.transpose)

end utils

/-! ## Concrete collaborators for the tasks and the factory -/

namespace Demo

open tasks TaskFactory

/-- A number reader for examples, knowing the strings `2` and `5`. -/
def stod (str : String) : Option Int :=
  if str = "2" then some 2 else if str = "5" then some 5 else none

/-- A joint-limit dynamics object as `init` leaves it. -/
def jntLimits : TDynJntLimits Int :=
  { e_dot_star_ := [0, 0, 0, 0], performance_measures_ := [], dq_max_ := 2, gain_ := 5 }

/-- A store with the point `tip` on frame `wrist`, the sphere `ball` on frame
`elbow`, the point `far` on frame `table` and the plane `floor` on frame
`world`. -/
def gpm (name : String) : Option GeometricPrimitive :=
  if name = "tip" then some { name_ := "tip", type_ := "point", frame_id_ := "wrist" }
  else if name = "ball" then some { name_ := "ball", type_ := "sphere", frame_id_ := "elbow" }
  else if name = "far" then some { name_ := "far", type_ := "point", frame_id_ := "table" }
  else if name = "floor" then some { name_ := "floor", type_ := "plane", frame_id_ := "world" }
  else none

/-- A position for examples. -/
def origin : Vector3d :=
  { x := { mant := 0, exp10 := 0 }, y := { mant := 0, exp10 := 0 }, z := { mant := 0, exp10 := 0 } }

/-- Kinematics for examples: the frames `wrist` and `elbow` are attached to the
manipulator, and both solvers succeed on every frame but `elbow` when the robot
state is `false`. -/
def sdfEnv : SDFEnv Bool where
  gpm := gpm
  kdl_getQNrFromLinkName := fun _ frame =>
    if frame = "wrist" then 3 else if frame = "elbow" then 1 else -1
  jntToCart := fun rs frame => if frame = "elbow" ∧ rs = false then (-1, origin) else (0, origin)
  jntToJac := fun _ _ => 0
  rootFrame := fun _ => "world"

/-- An oracle that always fails, leaving one gradient of its own behind. -/
def oracleDown : Oracle := fun _ _ => (false, [origin])

/-- An oracle that succeeds with one unit gradient per point. -/
def oracleUp : Oracle := fun pts _ =>
  (true, pts.map (fun _ => { x := { mant := 1, exp10 := 0 }, y := { mant := 0, exp10 := 0 },
                             z := { mant := 0, exp10 := 0 } }))

/-- A task object before `init`, with leftovers in its members. -/
def sdf0 : TaskAvoidCollisionsSDF :=
  { n_dimensions_ := 7, task_types_ := [0], primitives_ := [], performance_measures_ := [],
    root_frame_id_ := "" }

/-- Object methods for examples: a function's `init` fails on an empty
parameter list and otherwise sets up one row and `num_controls` columns, three
rows of `e` for `TaskJntConfig`; a dynamics' `init` fails when its second
parameter is `bad` and otherwise gives `e_dot_star_` one row. -/
def factoryEnv : FactoryEnv where
  functionInit := fun function parameters num_controls =>
    if parameters.isEmpty then
      (-1, { e_rows := 0, J_rows := 0, J_cols := 0, e_dot_star_rows := 0, task_types_size := 0 })
    else if function = TaskFunctionKind.TaskJntConfig then
      (0, { e_rows := 3, J_rows := 1, J_cols := num_controls, e_dot_star_rows := 0,
            task_types_size := 1 })
    else
      (0, { e_rows := 1, J_rows := 1, J_cols := num_controls, e_dot_star_rows := 0,
            task_types_size := 1 })
  dynamicsInit := fun _ beh_params d =>
    if beh_params[1]? = some "bad" then (-1, d) else (0, { d with e_dot_star_rows := 1 })

end Demo

/-! ## Facts about the task map -/

section lemmas

variable {D σ R G S : Type}

namespace TaskMap

theorem find_assign_self (m : TaskMap D σ) (name : String) (t : Task D σ) :
    find (assign m name t) name = if contains m name then some t else none := by
  induction m with
  | nil => simp [assign, find, contains]
  | cons kv rest ih =>
    obtain ⟨k, t0⟩ := kv
    by_cases hk : k = name
    · simp [assign, find, contains, hk]
    · simpa [assign, find, contains, hk] using ih

theorem find_assign_other (m : TaskMap D σ) (name other : String) (t : Task D σ)
    (h : other ≠ name) : find (assign m name t) other = find m other := by
  induction m with
  | nil => simp [assign, find]
  | cons kv rest ih =>
    obtain ⟨k, t0⟩ := kv
    by_cases hk : k = name
    · have hko : k ≠ other := fun e => h (e ▸ hk)
      simp [assign, find, hk, hko, Ne.symm h]
    · by_cases hko : k = other
      · subst hko
        simp [assign, find, hk]
      · simpa [assign, find, hk, hko] using ih

theorem length_assign (m : TaskMap D σ) (name : String) (t : Task D σ) :
    (assign m name t).length = m.length := by
  induction m with
  | nil => simp [assign]
  | cons kv rest ih =>
    obtain ⟨k, t0⟩ := kv
    by_cases hk : k = name
    · simp [assign, hk]
    · simpa [assign, hk] using ih

theorem keys_assign (m : TaskMap D σ) (name : String) (t : Task D σ) :
    keys (assign m name t) = keys m := by
  induction m with
  | nil => simp [assign]
  | cons kv rest ih =>
    obtain ⟨k, t0⟩ := kv
    by_cases hk : k = name
    · simp [assign, keys, hk]
    · simpa [assign, keys, hk] using ih

theorem contains_assign (m : TaskMap D σ) (name : String) (t : Task D σ) :
    contains (assign m name t) name = contains m name := by
  unfold contains
  rw [find_assign_self]
  cases h : contains m name <;> simp_all [contains]

theorem length_insertSorted (m : TaskMap D σ) (name : String) (t : Task D σ) :
    (insertSorted m name t).length = m.length + 1 := by
  induction m with
  | nil => simp [insertSorted]
  | cons kv rest ih =>
    obtain ⟨k, t0⟩ := kv
    by_cases hlt : keyLt name.data k.data = true
    · simp [insertSorted, hlt]
    · simpa [insertSorted, hlt] using ih

theorem find_insertSorted_self (m : TaskMap D σ) (name : String) (t : Task D σ)
    (h : find m name = none) : find (insertSorted m name t) name = some t := by
  induction m with
  | nil => simp [insertSorted, find]
  | cons kv rest ih =>
    obtain ⟨k, t0⟩ := kv
    by_cases hk : k = name
    · simp [find, hk] at h
    · have hrest : find rest name = none := by simpa [find, hk] using h
      by_cases hlt : keyLt name.data k.data = true
      · simp [insertSorted, hlt, find]
      · simpa [insertSorted, hlt, find, hk] using ih hrest

theorem find_insertSorted_other (m : TaskMap D σ) (name other : String) (t : Task D σ)
    (h : other ≠ name) : find (insertSorted m name t) other = find m other := by
  induction m with
  | nil => simp [insertSorted, find, Ne.symm h]
  | cons kv rest ih =>
    obtain ⟨k, t0⟩ := kv
    by_cases hlt : keyLt name.data k.data = true
    · simp [insertSorted, hlt, find, Ne.symm h]
    · by_cases hko : k = other
      · subst hko
        simp [insertSorted, hlt, find]
      · simpa [insertSorted, hlt, find, hko] using ih

theorem find_filter_ne (m : TaskMap D σ) (name other : String) :
    find (m.filter (fun kv => decide (kv.1 ≠ name))) other =
      if other = name then none else find m other := by
  induction m with
  | nil => simp [find]
  | cons kv rest ih =>
    obtain ⟨k, t0⟩ := kv
    by_cases hk : k = name
    · by_cases ho : other = name
      · simpa [List.filter, hk, ho] using ih
      · have hko : ¬ name = other := fun e => ho e.symm
        simpa [List.filter, hk, ho, find, hko] using ih
    · by_cases ho : other = name
      · have hko : ¬ k = name := hk
        simpa [List.filter, hk, ho, find] using ih
      · by_cases hko : k = other
        · simp [List.filter, hk, ho, find, hko]
        · simpa [List.filter, hk, ho, find, hko] using ih

theorem filter_eq_length_of_not_mem (m : TaskMap D σ) (name : String)
    (h : name ∉ keys m) : (m.filter (fun kv => decide (kv.1 = name))).length = 0 := by
  induction m with
  | nil => simp
  | cons kv rest ih =>
    obtain ⟨k, t0⟩ := kv
    simp only [keys, List.map_cons, List.mem_cons, not_or] at h
    have hk : ¬ k = name := fun e => h.1 e.symm
    simpa [List.filter, hk] using ih h.2

theorem contains_iff_mem_keys (m : TaskMap D σ) (name : String) :
    contains m name = true ↔ name ∈ keys m := by
  induction m with
  | nil => simp [contains, find, keys]
  | cons kv rest ih =>
    obtain ⟨k, t0⟩ := kv
    by_cases hk : k = name
    · simp [contains, find, keys, hk]
    · have hk2 : ¬ name = k := fun e => hk e.symm
      simpa [contains, find, keys, hk, hk2] using ih

theorem erase_count (m : TaskMap D σ) (name : String) (hwf : WF m) :
    (erase m name).2 = if contains m name then 1 else 0 := by
  induction m with
  | nil => simp [erase, contains, find]
  | cons kv rest ih =>
    obtain ⟨k, t0⟩ := kv
    have hnd : k ∉ keys rest ∧ WF rest := by
      simpa [WF, keys] using hwf
    by_cases hk : k = name
    · have h0 := filter_eq_length_of_not_mem rest name (hk ▸ hnd.1)
      simp only [erase] at h0 ⊢
      simp [List.filter, hk, contains, find, h0]
    · have := ih hnd.2
      simp only [erase] at this ⊢
      simpa [List.filter, hk, contains, find] using this

theorem filter_ne_eq_self (m : TaskMap D σ) (name : String) (h : contains m name = false) :
    m.filter (fun kv => decide (kv.1 ≠ name)) = m := by
  induction m with
  | nil => simp
  | cons kv rest ih =>
    obtain ⟨k, t0⟩ := kv
    by_cases hk : k = name
    · simp [contains, find, hk] at h
    · have hr : contains rest name = false := by simpa [contains, find, hk] using h
      simpa [List.filter, hk] using ih hr

end TaskMap

end lemmas

/-! ## `getVelocityControls` -/

section tick

variable {D σ R G S : Type}

theorem zeroControls_eq [Zero D] (c : List D) :
    zeroControls c = List.replicate c.length 0 := by
  induction c with
  | nil => rfl
  | cons x xs ih =>
    simp only [zeroControls, List.map_cons, List.length_cons, List.replicate_succ] at ih ⊢
    rw [ih]

theorem stageLoop_trace (env : Env D σ R G S) (g : G) (rs : R) (m : TaskMap D σ) (s : S) :
    (stageLoop env g rs m s).trace = m.flatMap (taskEvents env g rs) := by
  induction m generalizing s with
  | nil => simp [stageLoop]
  | cons kv rest ih =>
    obtain ⟨k, t⟩ := kv
    by_cases ha : t.active_ = true
    · by_cases hu : (env.taskUpdate g t rs).1 = 0
      · simp [stageLoop, taskEvents, ha, hu, ih]
      · simp [stageLoop, taskEvents, ha, hu, ih]
    · simp [stageLoop, taskEvents, ha, ih]

theorem stageLoop_solver (env : Env D σ R G S) (g : G) (rs : R) (m : TaskMap D σ) (s : S) :
    (stageLoop env g rs m s).solver = (expectedStages env g rs m).foldl env.appendStage s := by
  induction m generalizing s with
  | nil => simp [stageLoop, expectedStages, stagedTasks]
  | cons kv rest ih =>
    obtain ⟨k, t⟩ := kv
    by_cases ha : t.active_ = true
    · by_cases hu : (env.taskUpdate g t rs).1 = 0
      · simp [stageLoop, expectedStages, stagedTasks, ha, hu, ih, List.filter]
      · simp [stageLoop, expectedStages, stagedTasks, ha, hu, ih, List.filter]
    · simp [stageLoop, expectedStages, stagedTasks, ha, ih, List.filter]

theorem taskEvents_stages (env : Env D σ R G S) (g : G) (rs : R) (m : TaskMap D σ) :
    (m.flatMap (taskEvents env g rs)).filterMap Event.stage? = expectedStages env g rs m := by
  induction m with
  | nil => simp [expectedStages, stagedTasks]
  | cons kv rest ih =>
    obtain ⟨k, t⟩ := kv
    simp only [expectedStages, stagedTasks] at ih
    by_cases ha : t.active_ = true
    · by_cases hu : (env.taskUpdate g t rs).1 = 0
      · simp [taskEvents, expectedStages, stagedTasks, ha, hu, ih, List.filter, Event.stage?,
          List.filterMap_append]
      · simp [taskEvents, expectedStages, stagedTasks, ha, hu, ih, List.filter, Event.stage?,
          List.filterMap_append]
    · simp [taskEvents, expectedStages, stagedTasks, ha, ih, List.filter]

theorem taskEvents_updates (env : Env D σ R G S) (g : G) (rs : R) (m : TaskMap D σ) :
    (m.flatMap (taskEvents env g rs)).filterMap Event.updateKey? =
      (m.filter (fun kv => kv.2.active_)).map Prod.fst := by
  induction m with
  | nil => simp
  | cons kv rest ih =>
    obtain ⟨k, t⟩ := kv
    by_cases ha : t.active_ = true
    · by_cases hu : (env.taskUpdate g t rs).1 = 0
      · simp [taskEvents, ha, hu, ih, List.filter, Event.updateKey?, List.filterMap_append]
      · simp [taskEvents, ha, hu, ih, List.filter, Event.updateKey?, List.filterMap_append]
    · simp [taskEvents, ha, ih, List.filter]

/-- C1: on a manager with at least one task, when `solve` reports failure the
call returns false and the output vector consists of zeros only and is as long
as `solve` left it, hence as long as the vector passed in when `solve` does not
resize it; when `solve` reports success the call returns true and the output is
exactly the vector `solve` wrote. -/
theorem getVelocityControls_solve_verdict [Zero D] (env : Env D σ R G S)
    (m : TaskManager D σ G S) (rs : R) (controls : List D)
    (h : 1 ≤ m.task_map_.length) :
    ((solveCall env m rs controls).1 = false →
        (getVelocityControls env m rs controls).ret = false ∧
        (∀ x ∈ (getVelocityControls env m rs controls).controls, x = 0) ∧
        (getVelocityControls env m rs controls).controls.length =
          (solveCall env m rs controls).2.2.length ∧
        ((solveCall env m rs controls).2.2.length = controls.length →
          (getVelocityControls env m rs controls).controls.length = controls.length)) ∧
    ((solveCall env m rs controls).1 = true →
        (getVelocityControls env m rs controls).ret = true ∧
        (getVelocityControls env m rs controls).controls = (solveCall env m rs controls).2.2) := by
  have hlt : ¬ m.task_map_.length < 1 := by omega
  constructor
  · intro hf
    have hf2 : (env.solve (stageLoop env m.geometric_primitive_map_ rs m.task_map_
        (env.clearStages m.solver_)).solver controls).1 = false := hf
    simp only [getVelocityControls, hlt, if_false, hf2, solveCall, Bool.not_false, if_true]
    refine ⟨trivial, ?_, ?_, ?_⟩
    · intro x hx
      rw [zeroControls_eq] at hx
      exact List.eq_of_mem_replicate hx
    · simp [zeroControls]
    · intro hl
      simp [zeroControls, hl]
  · intro ht
    have ht2 : (env.solve (stageLoop env m.geometric_primitive_map_ rs m.task_map_
        (env.clearStages m.solver_)).solver controls).1 = true := ht
    simp [getVelocityControls, hlt, ht2, solveCall]

/-- Witness for C1: a manager whose only task is inactive, so that the solver
gets no stage, fails and leaves `[6, 7]` in the vector; the call zeroes it. -/
theorem getVelocityControls_solve_verdict_witness :
    1 ≤ Demo.mgrIdle.task_map_.length ∧
    solveCall Demo.env Demo.mgrIdle () [5, 6] = (false, [], [6, 7]) ∧
    (getVelocityControls Demo.env Demo.mgrIdle () [5, 6]).ret = false ∧
    (getVelocityControls Demo.env Demo.mgrIdle () [5, 6]).controls = [0, 0] ∧
    (getVelocityControls Demo.env Demo.mgrIdle () [5, 6]).controls.length = [5, 6].length :=
  ⟨by decide, by decide,
    ((getVelocityControls_solve_verdict Demo.env Demo.mgrIdle () [5, 6] (by decide)).1
      (by decide)).1,
    by decide,
    ((getVelocityControls_solve_verdict Demo.env Demo.mgrIdle () [5, 6] (by decide)).1
      (by decide)).2.2.2 (by decide)⟩

/-- C2: with an empty task map the call returns false, the output vector has
its length and holds zeros only, and no collaborator is called: the trace is
empty and the manager, its solver included, is as before. -/
theorem getVelocityControls_no_tasks [Zero D] (env : Env D σ R G S)
    (m : TaskManager D σ G S) (rs : R) (controls : List D)
    (h : m.task_map_ = []) :
    (getVelocityControls env m rs controls).ret = false ∧
    (getVelocityControls env m rs controls).controls.length = controls.length ∧
    (∀ x ∈ (getVelocityControls env m rs controls).controls, x = 0) ∧
    (getVelocityControls env m rs controls).trace = [] ∧
    (getVelocityControls env m rs controls).mgr = m := by
  have hlt : m.task_map_.length < 1 := by simp [h]
  simp only [getVelocityControls, hlt, if_true]
  refine ⟨trivial, by simp [zeroControls], ?_, trivial, trivial⟩
  intro x hx
  rw [zeroControls_eq] at hx
  exact List.eq_of_mem_replicate hx

/-- Witness for C2: the empty manager and a two-entry vector. -/
theorem getVelocityControls_no_tasks_witness :
    Demo.mgr0.task_map_ = [] ∧
    (getVelocityControls Demo.env Demo.mgr0 () [5, 6]).controls = [0, 0] ∧
    (getVelocityControls Demo.env Demo.mgr0 () [5, 6]).trace = [] :=
  ⟨rfl, by decide,
    (getVelocityControls_no_tasks Demo.env Demo.mgr0 () [5, 6] rfl).2.2.2.1⟩

theorem stageLoop_tasks (env : Env D σ R G S) (g : G) (rs : R) (m : TaskMap D σ) (s : S) :
    (stageLoop env g rs m s).tasks =
      m.map (fun kv => if kv.2.active_ then (kv.1, updated env g rs kv.2) else kv) := by
  induction m generalizing s with
  | nil => rfl
  | cons kv rest ih =>
    obtain ⟨k, t⟩ := kv
    by_cases ha : t.active_ = true
    · by_cases hu : (env.taskUpdate g t rs).1 = 0
      · simp [stageLoop, ha, hu, ih]
      · simp [stageLoop, ha, hu, ih]
    · simp [stageLoop, ha, ih]

/-- C3: in a call on a non-empty task map the first call made is
`clearStages`; then, entry by entry in map order, an inactive task is not
touched, an active task is updated, and an `appendStage` with the task's
priority, desired dynamics, Jacobian and row types follows exactly when that
update returned 0; `solve` comes last.  So the stages the solver receives are
those of the active tasks whose update returned 0, one each and in map order,
appended to the cleared solver, and the updates go to the active tasks only.
The manager the call leaves holds the solver as `solve` left it after those
stages, the task map with exactly the active tasks updated, and the store
untouched; the value returned and the output vector are the verdict of that
`solve` and its vector, zeroed on failure. -/
theorem getVelocityControls_stages [Zero D] (env : Env D σ R G S)
    (m : TaskManager D σ G S) (rs : R) (controls : List D)
    (h : 1 ≤ m.task_map_.length) :
    (getVelocityControls env m rs controls).trace =
        Event.clearStages :: Event.lock ::
          (m.task_map_.flatMap (taskEvents env m.geometric_primitive_map_ rs) ++
            [Event.unlock, Event.solve]) ∧
    (getVelocityControls env m rs controls).trace.filterMap Event.stage? =
        expectedStages env m.geometric_primitive_map_ rs m.task_map_ ∧
    (getVelocityControls env m rs controls).trace.filterMap Event.updateKey? =
        (m.task_map_.filter (fun kv => kv.2.active_)).map Prod.fst ∧
    solveCall env m rs controls =
        env.solve ((expectedStages env m.geometric_primitive_map_ rs m.task_map_).foldl
          env.appendStage (env.clearStages m.solver_)) controls ∧
    (getVelocityControls env m rs controls).mgr.solver_ = (solveCall env m rs controls).2.1 ∧
    (getVelocityControls env m rs controls).mgr.task_map_ =
        m.task_map_.map (fun kv =>
          if kv.2.active_ then (kv.1, updated env m.geometric_primitive_map_ rs kv.2) else kv) ∧
    (getVelocityControls env m rs controls).mgr.geometric_primitive_map_ =
        m.geometric_primitive_map_ ∧
    (getVelocityControls env m rs controls).mgr.n_controls_ = m.n_controls_ ∧
    (getVelocityControls env m rs controls).ret = (solveCall env m rs controls).1 ∧
    (getVelocityControls env m rs controls).controls =
        (if (solveCall env m rs controls).1 then (solveCall env m rs controls).2.2
         else zeroControls (solveCall env m rs controls).2.2) := by
  have hlt : ¬ m.task_map_.length < 1 := by omega
  have htr : (getVelocityControls env m rs controls).trace =
      Event.clearStages :: Event.lock ::
        (m.task_map_.flatMap (taskEvents env m.geometric_primitive_map_ rs) ++
          [Event.unlock, Event.solve]) := by
    simp only [getVelocityControls, hlt, if_false]
    split <;> simp [stageLoop_trace]
  refine ⟨htr, ?_, ?_, ?_, ?_, ?_, ?_, ?_, ?_, ?_⟩
  · rw [htr]
    simp [List.filterMap_cons, List.filterMap_append, Event.stage?, taskEvents_stages]
  · rw [htr]
    simp [List.filterMap_cons, List.filterMap_append, Event.updateKey?, taskEvents_updates]
  · simp [solveCall, stageLoop_solver]
  · simp only [getVelocityControls, hlt, if_false, solveCall]
    split <;> rfl
  · simp only [getVelocityControls, hlt, if_false]
    split <;> exact stageLoop_tasks env _ rs _ _
  · simp only [getVelocityControls, hlt, if_false]
    split <;> rfl
  · simp only [getVelocityControls, hlt, if_false]
    split <;> rfl
  · simp only [getVelocityControls, hlt, if_false, solveCall]
    cases hs : (env.solve (stageLoop env m.geometric_primitive_map_ rs m.task_map_
        (env.clearStages m.solver_)).solver controls).1 <;> simp
  · simp only [getVelocityControls, hlt, if_false, solveCall]
    cases hs : (env.solve (stageLoop env m.geometric_primitive_map_ rs m.task_map_
        (env.clearStages m.solver_)).solver controls).1 <;> simp

/-- Witness for C3: the three-task manager; `a` is staged, `b` is inactive and
`c` fails its update; the solver the manager is left with holds the one stage
of `a`. -/
theorem getVelocityControls_stages_witness :
    1 ≤ Demo.mgr3.task_map_.length ∧
    (getVelocityControls Demo.env Demo.mgr3 () [5, 6]).trace.filterMap Event.stage? =
      [{ priority := 1, e_dot_star := [1], J := [[1]], task_types := [0] }] ∧
    (getVelocityControls Demo.env Demo.mgr3 () [5, 6]).trace.filterMap Event.updateKey? =
      ["a", "c"] ∧
    (getVelocityControls Demo.env Demo.mgr3 () [5, 6]).mgr.solver_ =
      [{ priority := 1, e_dot_star := [1], J := [[1]], task_types := [0] }] :=
  ⟨by decide,
    (getVelocityControls_stages Demo.env Demo.mgr3 () [5, 6] (by decide)).2.1.trans (by decide),
    (getVelocityControls_stages Demo.env Demo.mgr3 () [5, 6] (by decide)).2.2.1.trans
      (by decide),
    (getVelocityControls_stages Demo.env Demo.mgr3 () [5, 6] (by decide)).2.2.2.2.1.trans
      (by decide)⟩

end tick

/-! ## `setTask` -/

section upsert

variable {D σ R G S : Type}

theorem setTask_ret (env : Env D σ R G S) (m : TaskManager D σ G S) (name : String)
    (p : Nat) (v a mon : Bool) (dp yp : List String) (rs : R) :
    (setTask env m name p v a mon dp yp rs).ret =
      if (initCall env m name p v a mon dp yp rs).1 ≠ 0 then -1 else 0 := by
  by_cases h0 : (initCall env m name p v a mon dp yp rs).1 = 0 <;> simp [setTask, h0]

theorem setTask_map_of_found (env : Env D σ R G S) (m : TaskManager D σ G S) (name : String)
    (p : Nat) (v a mon : Bool) (dp yp : List String) (rs : R)
    (hc : TaskMap.contains m.task_map_ name = true) :
    (setTask env m name p v a mon dp yp rs).mgr.task_map_ =
      TaskMap.assign m.task_map_ name (initialised env m name p v a mon dp yp rs) := by
  obtain ⟨t, ht⟩ := Option.isSome_iff_exists.mp hc
  have hc2 : TaskMap.contains (TaskMap.assign m.task_map_ name
      (initialised env m name p v a mon dp yp rs)) name = true := by
    rw [TaskMap.contains_assign]; exact hc
  by_cases h0 : (initCall env m name p v a mon dp yp rs).1 = 0 <;>
    simp [setTask, writtenThrough, h0, ht, TaskMap.emplace, hc2]

theorem setTask_map_of_new (env : Env D σ R G S) (m : TaskManager D σ G S) (name : String)
    (p : Nat) (v a mon : Bool) (dp yp : List String) (rs : R)
    (hn : TaskMap.find m.task_map_ name = none) :
    (setTask env m name p v a mon dp yp rs).mgr.task_map_ =
      if (initCall env m name p v a mon dp yp rs).1 ≠ 0 then m.task_map_
      else TaskMap.insertSorted m.task_map_ name (initialised env m name p v a mon dp yp rs) := by
  have hc : TaskMap.contains m.task_map_ name = false := by simp [TaskMap.contains, hn]
  by_cases h0 : (initCall env m name p v a mon dp yp rs).1 = 0 <;>
    simp [setTask, writtenThrough, h0, hn, TaskMap.emplace, hc]

theorem setTask_success_find (env : Env D σ R G S) (m : TaskManager D σ G S) (name : String)
    (p : Nat) (v a mon : Bool) (dp yp : List String) (rs : R)
    (h : (setTask env m name p v a mon dp yp rs).ret = 0) :
    TaskMap.find (setTask env m name p v a mon dp yp rs).mgr.task_map_ name =
      some (initialised env m name p v a mon dp yp rs) := by
  have hinit : (initCall env m name p v a mon dp yp rs).1 = 0 := by
    by_contra hne
    rw [setTask_ret, if_pos hne] at h
    exact absurd h (by decide)
  cases hf : TaskMap.find m.task_map_ name with
  | none =>
    rw [setTask_map_of_new env m name p v a mon dp yp rs hf]
    simp [hinit, TaskMap.find_insertSorted_self _ _ _ hf]
  | some t =>
    have hc : TaskMap.contains m.task_map_ name = true := by simp [TaskMap.contains, hf]
    rw [setTask_map_of_found env m name p v a mon dp yp rs hc, TaskMap.find_assign_self]
    simp [hc]

/-- C4: when `setTask` succeeds twice in a row under one name, the second call
leaves the number of tasks as the first call left it, and the task then stored
under the name has the priority, visible, active and monitored values of the
second call. -/
theorem setTask_twice (env : Env D σ R G S) (m : TaskManager D σ G S) (name : String)
    (p1 : Nat) (v1 a1 mon1 : Bool) (dp1 yp1 : List String) (rs1 : R)
    (p2 : Nat) (v2 a2 mon2 : Bool) (dp2 yp2 : List String) (rs2 : R)
    (h1 : (setTask env m name p1 v1 a1 mon1 dp1 yp1 rs1).ret = 0)
    (h2 : (setTask env (setTask env m name p1 v1 a1 mon1 dp1 yp1 rs1).mgr name
            p2 v2 a2 mon2 dp2 yp2 rs2).ret = 0) :
    (setTask env (setTask env m name p1 v1 a1 mon1 dp1 yp1 rs1).mgr name
        p2 v2 a2 mon2 dp2 yp2 rs2).mgr.task_map_.length =
      (setTask env m name p1 v1 a1 mon1 dp1 yp1 rs1).mgr.task_map_.length ∧
    ∃ t, TaskMap.find (setTask env (setTask env m name p1 v1 a1 mon1 dp1 yp1 rs1).mgr name
        p2 v2 a2 mon2 dp2 yp2 rs2).mgr.task_map_ name = some t ∧
      t.priority_ = p2 ∧ t.visible_ = v2 ∧ t.active_ = a2 ∧ t.monitored_ = mon2 := by
  have hf1 := setTask_success_find env m name p1 v1 a1 mon1 dp1 yp1 rs1 h1
  have hc1 : TaskMap.contains (setTask env m name p1 v1 a1 mon1 dp1 yp1 rs1).mgr.task_map_
      name = true := by simp [TaskMap.contains, hf1]
  constructor
  · rw [setTask_map_of_found env _ name p2 v2 a2 mon2 dp2 yp2 rs2 hc1, TaskMap.length_assign]
  · exact ⟨_, setTask_success_find env _ name p2 v2 a2 mon2 dp2 yp2 rs2 h2, rfl, rfl, rfl, rfl⟩

/-- Witness for C4: task `n` is added to the three-task manager and then set
again with other values. -/
theorem setTask_twice_witness :
    (setTask Demo.env Demo.mgr3 "n" 4 true true false ["x"] [] ()).ret = 0 ∧
    (setTask Demo.env (setTask Demo.env Demo.mgr3 "n" 4 true true false ["x"] [] ()).mgr "n"
      5 false false true ["y"] [] ()).ret = 0 ∧
    (setTask Demo.env (setTask Demo.env Demo.mgr3 "n" 4 true true false ["x"] [] ()).mgr "n"
      5 false false true ["y"] [] ()).mgr.task_map_.length = 4 :=
  ⟨by decide, by decide,
    (setTask_twice Demo.env Demo.mgr3 "n" 4 true true false ["x"] [] ()
      5 false false true ["y"] [] () (by decide) (by decide)).1.trans (by decide)⟩

/-- With an existing name and a failing `init`, `setTask` returns -1 and the
stored task carries the values of the failed call. -/
theorem setTask_existing_init_failure (env : Env D σ R G S) (m : TaskManager D σ G S)
    (name : String) (p : Nat) (v a mon : Bool) (dp yp : List String) (rs : R)
    (hc : TaskMap.contains m.task_map_ name = true)
    (hfail : (initCall env m name p v a mon dp yp rs).1 ≠ 0) :
    (setTask env m name p v a mon dp yp rs).ret = -1 ∧
    ∃ t, TaskMap.find (setTask env m name p v a mon dp yp rs).mgr.task_map_ name = some t ∧
      t.priority_ = p ∧ t.visible_ = v ∧ t.active_ = a ∧ t.monitored_ = mon := by
  constructor
  · rw [setTask_ret, if_pos hfail]
  · refine ⟨initialised env m name p v a mon dp yp rs, ?_, rfl, rfl, rfl, rfl⟩
    rw [setTask_map_of_found env m name p v a mon dp yp rs hc, TaskMap.find_assign_self]
    simp [hc]

/-- C5, evaluated on the code: task `a` is stored with priority 1, visible,
active and not monitored; `setTask` for `a` with priority 9, not visible, not
active, monitored and an `init` that fails returns -1, and the task stored
under `a` afterwards has the values of the failed call, not its earlier ones. -/
theorem setTask_failed_update_overwrites :
    (TaskMap.find Demo.mgr3.task_map_ "a").map
        (fun t => (t.priority_, t.visible_, t.active_, t.monitored_)) =
      some (1, true, true, false) ∧
    (initCall Demo.env Demo.mgr3 "a" 9 false false true [] [] ()).1 = -1 ∧
    (setTask Demo.env Demo.mgr3 "a" 9 false false true [] [] ()).ret = -1 ∧
    (TaskMap.find (setTask Demo.env Demo.mgr3 "a" 9 false false true [] [] ()).mgr.task_map_
        "a").map (fun t => (t.priority_, t.visible_, t.active_, t.monitored_)) =
      some (9, false, false, true) := by
  decide

/-- C6: for a name that is not in the task map, `setTask` returns 0 when `init`
returns 0, and the map then has one entry more, holds under that name the new
task with the values of the call, and holds under every other name what it held
before; when `init` returns non-zero, `setTask` returns -1 and the task map is
the same as before. -/
theorem setTask_new_name (env : Env D σ R G S) (m : TaskManager D σ G S) (name : String)
    (p : Nat) (v a mon : Bool) (dp yp : List String) (rs : R)
    (h : TaskMap.find m.task_map_ name = none) :
    ((initCall env m name p v a mon dp yp rs).1 = 0 →
        (setTask env m name p v a mon dp yp rs).ret = 0 ∧
        (setTask env m name p v a mon dp yp rs).mgr.task_map_.length = m.task_map_.length + 1 ∧
        TaskMap.find (setTask env m name p v a mon dp yp rs).mgr.task_map_ name =
          some { configure (newTask env m.n_controls_) name p v a mon with
                 data := (initCall env m name p v a mon dp yp rs).2.1 } ∧
        ∀ other, other ≠ name →
          TaskMap.find (setTask env m name p v a mon dp yp rs).mgr.task_map_ other =
            TaskMap.find m.task_map_ other) ∧
    ((initCall env m name p v a mon dp yp rs).1 ≠ 0 →
        (setTask env m name p v a mon dp yp rs).ret = -1 ∧
        (setTask env m name p v a mon dp yp rs).mgr.task_map_ = m.task_map_) := by
  have hmap := setTask_map_of_new env m name p v a mon dp yp rs h
  have hini : initialised env m name p v a mon dp yp rs =
      { configure (newTask env m.n_controls_) name p v a mon with
        data := (initCall env m name p v a mon dp yp rs).2.1 } := by
    simp [initialised, taskFor, h]
  constructor
  · intro h0
    have hmap0 : (setTask env m name p v a mon dp yp rs).mgr.task_map_ =
        TaskMap.insertSorted m.task_map_ name (initialised env m name p v a mon dp yp rs) := by
      rw [hmap]; simp [h0]
    refine ⟨?_, ?_, ?_, ?_⟩
    · rw [setTask_ret]; simp [h0]
    · rw [hmap0, TaskMap.length_insertSorted]
    · rw [hmap0, TaskMap.find_insertSorted_self _ _ _ h, hini]
    · intro other ho
      rw [hmap0, TaskMap.find_insertSorted_other _ _ _ _ ho]
  · intro hne
    refine ⟨?_, ?_⟩
    · rw [setTask_ret, if_pos hne]
    · rw [hmap, if_pos hne]

/-- Witness for C6: the name `ab` is new to the three-task manager and `init`
succeeds. -/
theorem setTask_new_name_witness :
    TaskMap.find Demo.mgr3.task_map_ "ab" = none ∧
    (initCall Demo.env Demo.mgr3 "ab" 9 false false true ["x"] [] ()).1 = 0 ∧
    (setTask Demo.env Demo.mgr3 "ab" 9 false false true ["x"] [] ()).ret = 0 ∧
    (setTask Demo.env Demo.mgr3 "ab" 9 false false true ["x"] [] ()).mgr.task_map_.length = 4 :=
  ⟨by decide, by decide,
    ((setTask_new_name Demo.env Demo.mgr3 "ab" 9 false false true ["x"] [] () (by decide)).1
      (by decide)).1,
    ((setTask_new_name Demo.env Demo.mgr3 "ab" 9 false false true ["x"] [] () (by decide)).1
      (by decide)).2.1⟩

end upsert

/-! ## `setPrimitive` -/

section primitives

variable {D σ R G S : Type}

/-- The status of `setPrimitive` does not depend on the store: it is 0 for every
answer of `setGeometricPrimitive`, and the store is left as that call left it. -/
theorem setPrimitive_ret (env : Env D σ R G S) (m : TaskManager D σ G S)
    (name type frame_id : String) (visible : Bool) (color parameters : List D) :
    (setPrimitive env m name type frame_id visible color parameters).ret = 0 ∧
    (setPrimitive env m name type frame_id visible color parameters).mgr.geometric_primitive_map_ =
      (env.setGeometricPrimitive m.geometric_primitive_map_ name type frame_id visible color
        parameters).2 :=
  ⟨rfl, rfl⟩

/-- C7, evaluated on the code: the store holds `p` as a point and rejects the
upsert of `p` as a sphere with status -1, leaving its content as it was, and
`setPrimitive` for that upsert returns 0. -/
theorem setPrimitive_rejected_returns_zero :
    Demo.mgr3.geometric_primitive_map_.prims = [("p", "point")] ∧
    Demo.env.setGeometricPrimitive Demo.mgr3.geometric_primitive_map_ "p" "sphere" "world" true
        [] [] = (-1, Demo.mgr3.geometric_primitive_map_) ∧
    (setPrimitive Demo.env Demo.mgr3 "p" "sphere" "world" true [] []).ret = 0 := by
  decide

end primitives

/-! ## Removing tasks -/

section removal

variable {D σ R G S : Type}

theorem removeTask_found (env : Env D σ R G S) (m : TaskManager D σ G S) (name : String)
    (h1 : (TaskMap.erase m.task_map_ name).2 = 1) :
    removeTask env m name =
      { ret := 0,
        mgr := { m with task_map_ := m.task_map_.filter (fun kv => decide (kv.1 ≠ name)),
                        geometric_primitive_map_ :=
                          env.removeDependency m.geometric_primitive_map_ name },
        trace := [Event.lock, Event.removeDependency name, Event.unlock] } := by
  unfold removeTask
  rw [if_pos h1]
  rfl

theorem removeTask_absent (env : Env D σ R G S) (m : TaskManager D σ G S) (name : String)
    (h1 : ¬ (TaskMap.erase m.task_map_ name).2 = 1) :
    removeTask env m name =
      { ret := -1,
        mgr := { m with task_map_ := m.task_map_.filter (fun kv => decide (kv.1 ≠ name)) },
        trace := [Event.lock, Event.unlock] } := by
  unfold removeTask
  rw [if_neg h1]
  rfl

theorem removedName_map {α : Type} (f : α → String) (l : List α) :
    (l.map (fun x => (Event.removeDependency (f x) : Event D))).filterMap Event.removedName? =
      l.map f := by
  induction l with
  | nil => rfl
  | cons x xs ih => simp [List.filterMap_cons, Event.removedName?, ih]

/-- C8: on a task map with one entry per name, `removeTask(name)` returns 0
exactly when the name was in the map.  In that case the name is absent
afterwards, every other name holds the task it held, and `removeDependency` is
called once, with that name.  When the name was absent the call returns -1, the
task map is the same and `removeDependency` is not called. -/
theorem removeTask_spec (env : Env D σ R G S) (m : TaskManager D σ G S) (name : String)
    (hwf : TaskMap.WF m.task_map_) :
    ((removeTask env m name).ret = 0 ↔ TaskMap.contains m.task_map_ name = true) ∧
    (TaskMap.contains m.task_map_ name = true →
        TaskMap.find (removeTask env m name).mgr.task_map_ name = none ∧
        (∀ other, other ≠ name →
          TaskMap.find (removeTask env m name).mgr.task_map_ other =
            TaskMap.find m.task_map_ other) ∧
        (removeTask env m name).trace.filterMap Event.removedName? = [name] ∧
        (removeTask env m name).mgr.geometric_primitive_map_ =
          env.removeDependency m.geometric_primitive_map_ name) ∧
    (TaskMap.contains m.task_map_ name = false →
        (removeTask env m name).ret = -1 ∧
        (removeTask env m name).mgr.task_map_ = m.task_map_ ∧
        (removeTask env m name).trace.filterMap Event.removedName? = [] ∧
        (removeTask env m name).mgr.geometric_primitive_map_ = m.geometric_primitive_map_) := by
  have hcount := TaskMap.erase_count m.task_map_ name hwf
  cases hc : TaskMap.contains m.task_map_ name with
  | true =>
    have h1 : (TaskMap.erase m.task_map_ name).2 = 1 := by simpa [hc] using hcount
    rw [removeTask_found env m name h1]
    refine ⟨?_, ?_, ?_⟩
    · simp
    · intro _
      refine ⟨?_, ?_, ?_, ?_⟩
      · exact (TaskMap.find_filter_ne m.task_map_ name name).trans (if_pos rfl)
      · intro other ho
        exact (TaskMap.find_filter_ne m.task_map_ name other).trans (if_neg ho)
      · simp [Event.removedName?]
      · simp
    · intro hf
      exact absurd hf (by decide)
  | false =>
    have h0 : (TaskMap.erase m.task_map_ name).2 = 0 := by simpa [hc] using hcount
    have hne : ¬ (TaskMap.erase m.task_map_ name).2 = 1 := by omega
    rw [removeTask_absent env m name hne]
    refine ⟨?_, ?_, ?_⟩
    · simp
    · intro hf
      exact absurd hf (by decide)
    · intro _
      refine ⟨rfl, ?_, ?_, rfl⟩
      · exact TaskMap.filter_ne_eq_self m.task_map_ name hc
      · simp [Event.removedName?]

/-- Witness for C8: task `b` is removed from the three-task manager. -/
theorem removeTask_spec_witness :
    TaskMap.WF Demo.mgr3.task_map_ ∧
    TaskMap.contains Demo.mgr3.task_map_ "b" = true ∧
    (removeTask Demo.env Demo.mgr3 "b").ret = 0 ∧
    TaskMap.find (removeTask Demo.env Demo.mgr3 "b").mgr.task_map_ "b" = none ∧
    (removeTask Demo.env Demo.mgr3 "b").mgr.geometric_primitive_map_.deps = ["a", "c"] :=
  ⟨by decide, by decide,
    (removeTask_spec Demo.env Demo.mgr3 "b" (by decide)).1.mpr (by decide),
    ((removeTask_spec Demo.env Demo.mgr3 "b" (by decide)).2.1 (by decide)).1,
    by decide⟩

theorem removePriorityLoop_tasks (env : Env D σ R G S) (p : Nat) (tm : TaskMap D σ) (g : G) :
    (removePriorityLoop env p tm g).1 = tm.filter (fun kv => decide (kv.2.priority_ ≠ p)) := by
  induction tm generalizing g with
  | nil => simp [removePriorityLoop]
  | cons kv rest ih =>
    obtain ⟨k, t⟩ := kv
    by_cases hp : t.priority_ = p
    · simp [removePriorityLoop, hp, ih, List.filter]
    · simp [removePriorityLoop, hp, ih, List.filter]

theorem removePriorityLoop_trace (env : Env D σ R G S) (p : Nat) (tm : TaskMap D σ) (g : G) :
    (removePriorityLoop env p tm g).2.2 =
      ((tm.filter (fun kv => decide (kv.2.priority_ = p))).map
        (fun kv => Event.removeDependency kv.2.task_name_)) := by
  induction tm generalizing g with
  | nil => simp [removePriorityLoop]
  | cons kv rest ih =>
    obtain ⟨k, t⟩ := kv
    by_cases hp : t.priority_ = p
    · simp [removePriorityLoop, hp, ih, List.filter]
    · simp [removePriorityLoop, hp, ih, List.filter]

theorem removePriorityLoop_store (env : Env D σ R G S) (p : Nat) (tm : TaskMap D σ) (g : G) :
    (removePriorityLoop env p tm g).2.1 =
      ((tm.filter (fun kv => decide (kv.2.priority_ = p))).map
        (fun kv => kv.2.task_name_)).foldl env.removeDependency g := by
  induction tm generalizing g with
  | nil => simp [removePriorityLoop]
  | cons kv rest ih =>
    obtain ⟨k, t⟩ := kv
    by_cases hp : t.priority_ = p
    · simp [removePriorityLoop, hp, ih, List.filter]
    · simp [removePriorityLoop, hp, ih, List.filter]

/-- What the body of `removePriorityLevel` has done when control reaches its
closing brace: the task map consists of the entries it had whose task has a
priority different from `p`, unchanged and in their order, and the
`removeDependency` calls made are one per removed task, with that task's
name. -/
theorem removePriorityLevelBody_spec (env : Env D σ R G S) (m : TaskManager D σ G S) (p : Nat) :
    (removePriorityLevelBody env m p).mgr.task_map_ =
        m.task_map_.filter (fun kv => decide (kv.2.priority_ ≠ p)) ∧
    (removePriorityLevelBody env m p).trace.filterMap Event.removedName? =
        (m.task_map_.filter (fun kv => decide (kv.2.priority_ = p))).map
          (fun kv => kv.2.task_name_) ∧
    (∀ n : String,
        ((removePriorityLevelBody env m p).trace.filterMap Event.removedName?).count n =
          ((m.task_map_.filter (fun kv => decide (kv.2.priority_ = p))).map
            (fun kv => kv.2.task_name_)).count n) ∧
    (removePriorityLevelBody env m p).mgr.geometric_primitive_map_ =
        ((m.task_map_.filter (fun kv => decide (kv.2.priority_ = p))).map
          (fun kv => kv.2.task_name_)).foldl env.removeDependency m.geometric_primitive_map_ := by
  have htr : (removePriorityLevelBody env m p).trace.filterMap Event.removedName? =
      (m.task_map_.filter (fun kv => decide (kv.2.priority_ = p))).map
        (fun kv => kv.2.task_name_) := by
    simp only [removePriorityLevelBody, removePriorityLoop_trace]
    rw [List.filterMap_cons, List.filterMap_append, removedName_map]
    simp [Event.removedName?]
  refine ⟨?_, htr, ?_, ?_⟩
  · simp [removePriorityLevelBody, removePriorityLoop_tasks]
  · intro n
    rw [htr]
  · simp [removePriorityLevelBody, removePriorityLoop_store]

/-- C9, evaluated on the code: for every manager and priority, the call
`removePriorityLevel(p)` ends by control flowing off the end of a function
declared `int`: it has no outcome, so no task map after the call is determined
by the program.  The removals themselves are made before that point: at the
closing brace the task map holds the entries of priority other than `p`, and
`removeDependency` was called once per removed task with its name. -/
theorem removePriorityLevel_flows_off_end (env : Env D σ R G S) (m : TaskManager D σ G S)
    (p : Nat) :
    removePriorityLevel env m p = Completion.offEnd (removePriorityLevelBody env m p) ∧
    (removePriorityLevel env m p).out? = none ∧
    (removePriorityLevel env m p).ret? = none ∧
    (removePriorityLevelBody env m p).mgr.task_map_ =
        m.task_map_.filter (fun kv => decide (kv.2.priority_ ≠ p)) ∧
    (removePriorityLevelBody env m p).trace.filterMap Event.removedName? =
        (m.task_map_.filter (fun kv => decide (kv.2.priority_ = p))).map
          (fun kv => kv.2.task_name_) :=
  ⟨rfl, rfl, rfl, (removePriorityLevelBody_spec env m p).1,
    (removePriorityLevelBody_spec env m p).2.1⟩

end removal

/-! ## Return values of the flag methods -/

section flags

variable {D σ R G S : Type}

/-- C10, evaluated on the code: `activateTask`, `deactivateTask`, `monitorTask`
and `demonitorTask` have no `return` statement, so for every manager and every
name, found or not, they hand no status to the caller: the call flows off the
end of the body and has no outcome at all. -/
theorem flag_methods_return_nothing (m : TaskManager D σ G S) (name : String) :
    ((activateTask m name).ret? = none ∧ (deactivateTask m name).ret? = none ∧
      (monitorTask m name).ret? = none ∧ (demonitorTask m name).ret? = none) ∧
    ((activateTask m name).out? = none ∧ (deactivateTask m name).out? = none ∧
      (monitorTask m name).out? = none ∧ (demonitorTask m name).out? = none) :=
  ⟨⟨rfl, rfl, rfl, rfl⟩, ⟨rfl, rfl, rfl, rfl⟩⟩

end flags

/-! ## Frame of the flag methods -/

section flagframe

variable {D σ R G S : Type}

theorem FlagOp.runBody_eq (op : FlagOp) (m : TaskManager D σ G S) (name : String) :
    (op.runBody m name).mgr =
      match TaskMap.find m.task_map_ name with
      | some t => { m with task_map_ := TaskMap.assign m.task_map_ name (op.apply t) }
      | none => m := by
  cases op <;> simp only [FlagOp.runBody, activateTaskBody, deactivateTaskBody,
    monitorTaskBody, demonitorTaskBody, FlagOp.apply] <;>
    cases TaskMap.find m.task_map_ name <;> rfl

/-- What the body of each of `activateTask`, `deactivateTask`, `monitorTask`,
`demonitorTask` has done when control reaches its closing brace: the set of
names is as it was, the given name holds the task found there with the one flag
set and every other field as before, every other name holds the task it had,
and with no task of that name the manager is as before. -/
theorem flag_bodies_frame (op : FlagOp) (m : TaskManager D σ G S) (name : String) :
    TaskMap.keys (op.runBody m name).mgr.task_map_ = TaskMap.keys m.task_map_ ∧
    TaskMap.find (op.runBody m name).mgr.task_map_ name =
      (TaskMap.find m.task_map_ name).map op.apply ∧
    (∀ other, other ≠ name →
      TaskMap.find (op.runBody m name).mgr.task_map_ other = TaskMap.find m.task_map_ other) ∧
    (TaskMap.find m.task_map_ name = none → (op.runBody m name).mgr = m) := by
  have hrun := FlagOp.runBody_eq op m name
  refine ⟨?_, ?_, ?_, ?_⟩
  · rw [hrun]
    cases hf : TaskMap.find m.task_map_ name with
    | none => rfl
    | some t => exact TaskMap.keys_assign _ _ _
  · rw [hrun]
    cases hf : TaskMap.find m.task_map_ name with
    | none => simpa using hf
    | some t =>
      have hc : TaskMap.contains m.task_map_ name = true := by simp [TaskMap.contains, hf]
      simp only [Option.map_some']
      rw [TaskMap.find_assign_self]
      simp [hc]
  · intro other ho
    rw [hrun]
    cases hf : TaskMap.find m.task_map_ name with
    | none => rfl
    | some t => exact TaskMap.find_assign_other _ _ _ _ ho
  · intro hn
    rw [hrun, hn]

/-- C11, evaluated on the code: for every manager and name, each of
`activateTask`, `deactivateTask`, `monitorTask` and `demonitorTask` ends by
control flowing off the end of a function declared `int`: the call has no
outcome, so the program determines no task map after it.  The flag itself is
written before that point: at the closing brace the named task, when there is
one, is the task found with the flag of the method set. -/
theorem flag_methods_flow_off_end (op : FlagOp) (m : TaskManager D σ G S) (name : String) :
    op.run m name = Completion.offEnd (op.runBody m name) ∧
    (op.run m name).out? = none ∧
    TaskMap.find (op.runBody m name).mgr.task_map_ name =
      (TaskMap.find m.task_map_ name).map op.apply := by
  refine ⟨?_, ?_, (flag_bodies_frame op m name).2.1⟩
  · cases op <;> rfl
  · cases op <;> rfl

theorem priorityLoop_eq_map (p : Nat) (f : Task D σ → Task D σ) (tm : TaskMap D σ) :
    priorityLoop p f tm =
      tm.map (fun kv => if kv.2.priority_ = p then (kv.1, f kv.2) else kv) := by
  induction tm with
  | nil => rfl
  | cons kv rest ih =>
    obtain ⟨k, t⟩ := kv
    by_cases hp : t.priority_ = p <;> simp [priorityLoop, hp, ih]

theorem FlagOp.runLevelBody_eq (op : FlagOp) (m : TaskManager D σ G S) (p : Nat) :
    (op.runLevelBody m p).mgr =
      { m with task_map_ := priorityLoop p op.apply m.task_map_ } := by
  cases op <;> rfl

/-- What the body of each of `activatePriorityLevel`, `deactivatePriorityLevel`,
`monitorPriorityLevel`, `demonitorPriorityLevel` has done when control reaches
its closing brace: the task map is mapped entry by entry, an entry whose task
has priority `p` getting the flag of the method set and every other entry
staying; the names and the priorities are as before. -/
theorem priority_level_bodies_frame (op : FlagOp) (m : TaskManager D σ G S) (p : Nat) :
    (op.runLevelBody m p).mgr.task_map_ =
      m.task_map_.map (fun kv => if kv.2.priority_ = p then (kv.1, op.apply kv.2) else kv) ∧
    TaskMap.keys (op.runLevelBody m p).mgr.task_map_ = TaskMap.keys m.task_map_ ∧
    (op.runLevelBody m p).mgr.task_map_.map (fun kv => kv.2.priority_) =
      m.task_map_.map (fun kv => kv.2.priority_) := by
  have hmap : (op.runLevelBody m p).mgr.task_map_ =
      m.task_map_.map (fun kv => if kv.2.priority_ = p then (kv.1, op.apply kv.2) else kv) := by
    rw [FlagOp.runLevelBody_eq, ← priorityLoop_eq_map]
  have hpr : ∀ t : Task D σ, (op.apply t).priority_ = t.priority_ := by
    intro t; cases op <;> rfl
  refine ⟨hmap, ?_, ?_⟩
  · rw [hmap]
    simp only [TaskMap.keys, List.map_map]
    apply List.map_congr_left
    intro kv _
    by_cases h : kv.2.priority_ = p <;> simp [h]
  · rw [hmap]
    simp only [List.map_map]
    apply List.map_congr_left
    intro kv _
    by_cases h : kv.2.priority_ = p <;> simp [h, hpr]

/-- C12, evaluated on the code: for every manager and priority, each of
`activatePriorityLevel`, `deactivatePriorityLevel`, `monitorPriorityLevel` and
`demonitorPriorityLevel` ends by control flowing off the end of a function
declared `int`: the call has no outcome, so the program determines no task map
after it.  The flags themselves are written before that point: at the closing
brace exactly the tasks of priority `p` have the flag of the method set. -/
theorem priority_level_methods_flow_off_end (op : FlagOp) (m : TaskManager D σ G S)
    (p : Nat) :
    op.runLevel m p = Completion.offEnd (op.runLevelBody m p) ∧
    (op.runLevel m p).out? = none ∧
    (op.runLevelBody m p).mgr.task_map_ =
      m.task_map_.map (fun kv => if kv.2.priority_ = p then (kv.1, op.apply kv.2) else kv) := by
  refine ⟨?_, ?_, (priority_level_bodies_frame op m p).1⟩
  · cases op <;> rfl
  · cases op <;> rfl

end flagframe

/-! ## `getTaskMeasures` -/

section measures

variable {D σ R G S : Type}

theorem measureLoop_data (env : Env D σ R G S) (tm : TaskMap D σ) :
    (measureLoop env tm).2.1 =
      (tm.filter (fun kv => kv.2.monitored_)).map (fun kv => measureOf (monitored env kv.2)) := by
  induction tm with
  | nil => rfl
  | cons kv rest ih =>
    obtain ⟨k, t⟩ := kv
    by_cases hm : t.monitored_ = true
    · simp [measureLoop, hm, ih, List.filter, measureOf, monitored]
    · simp [measureLoop, hm, ih, List.filter]

theorem measureLoop_trace (env : Env D σ R G S) (tm : TaskMap D σ) :
    (measureLoop env tm).2.2 =
      (tm.filter (fun kv => kv.2.monitored_)).map (fun kv => Event.monitor kv.1) := by
  induction tm with
  | nil => rfl
  | cons kv rest ih =>
    obtain ⟨k, t⟩ := kv
    by_cases hm : t.monitored_ = true
    · simp [measureLoop, hm, ih, List.filter]
    · simp [measureLoop, hm, ih, List.filter]

theorem monitorKey_map {α : Type} (f : α → String) (l : List α) :
    (l.map (fun x => (Event.monitor (f x) : Event D))).filterMap Event.monitorKey? =
      l.map f := by
  induction l with
  | nil => rfl
  | cons x xs ih => simp [List.filterMap_cons, Event.monitorKey?, ih]

/-- C13: whatever the output list held before, after `getTaskMeasures` it is
the list of one record per monitored task, active or not, in task-map order,
each holding the task's name and its value, desired dynamics and performance
measures as they are after its `monitor()`; and `monitor()` is called on the
monitored tasks and on no others. -/
theorem getTaskMeasures_spec (env : Env D σ R G S) (m : TaskManager D σ G S)
    (data : List (TaskMeasure D)) :
    (getTaskMeasures env m data).data =
      (m.task_map_.filter (fun kv => kv.2.monitored_)).map
        (fun kv => measureOf (monitored env kv.2)) ∧
    (getTaskMeasures env m data).trace.filterMap Event.monitorKey? =
      (m.task_map_.filter (fun kv => kv.2.monitored_)).map Prod.fst := by
  constructor
  · simp [getTaskMeasures, clearMeasures, measureLoop_data]
  · simp only [getTaskMeasures, measureLoop_trace]
    rw [List.filterMap_cons, List.filterMap_append, monitorKey_map]
    simp [Event.monitorKey?]

end measures

/-! ## Joint-limit dynamics -/

namespace tasks

namespace TDynJntLimits

/-- C14: on a dynamics object whose desired-dynamics vector has the four rows
`init` gives it, for every task value `e` with at least four rows, every `J`
and every robot state, `update` returns 0 and leaves the desired dynamics equal
to `(-dq_max, dq_max, -gain * e(2), -gain * e(3))`, the other members staying;
any other call whose `e` agrees in rows 2 and 3 gives the same result. -/
theorem update_spec {D R : Type} [Neg D] [Mul D] (s : TDynJntLimits D) (rs : R)
    (e : List D) (J : List (List D)) (hs : s.e_dot_star_.length = 4) (he : 4 ≤ e.length) :
    ∃ e2 e3, e[2]? = some e2 ∧ e[3]? = some e3 ∧
      update s rs e J =
        some (0, { s with e_dot_star_ := [-s.dq_max_, s.dq_max_, -s.gain_ * e2, -s.gain_ * e3] }) ∧
      ∀ (rs' : R) (e' : List D) (J' : List (List D)),
        e'[2]? = some e2 → e'[3]? = some e3 → update s rs' e' J' = update s rs e J := by
  obtain ⟨v, pm, dq, g⟩ := s
  simp only at hs
  match v, hs with
  | [a, b, c, d], _ =>
    match e, he with
    | x0 :: x1 :: x2 :: x3 :: rest, _ =>
      refine ⟨x2, x3, by simp, by simp, ?_, ?_⟩
      · simp [update, setCoeff]
      · intro rs' e' J' h2 h3
        simp [update, setCoeff, h2, h3]

/-- Witness for C14: `dq_max = 2`, `gain = 5` and `e = (9, 8, 1, -1)`. -/
theorem update_spec_witness :
    Demo.jntLimits.e_dot_star_.length = 4 ∧ 4 ≤ [(9 : Int), 8, 1, -1].length ∧
    update Demo.jntLimits () [(9 : Int), 8, 1, -1] [] =
      some (0, { Demo.jntLimits with e_dot_star_ := [-2, 2, -5, 5] }) := by
  refine ⟨by decide, by decide, ?_⟩
  obtain ⟨e2, e3, h2, h3, hu, _⟩ :=
    update_spec Demo.jntLimits () [(9 : Int), 8, 1, -1] [] (by decide) (by decide)
  rw [hu]
  have e2v : e2 = 1 := by simpa using h2.symm
  have e3v : e3 = -1 := by simpa using h3.symm
  subst e2v e3v
  decide

theorem length_resize {D : Type} (fresh : Nat → D) (v : List D) (n : Nat) :
    (resize fresh v n).length = n := by
  unfold resize
  split
  · assumption
  · simp

/-- C15: `init` returns -1 and leaves the object as it was when the parameter
list does not have exactly 3 elements; on a list of exactly 3 elements whose
second and third read as numbers it returns 0, the desired-dynamics vector then
has 4 rows, `dq_max` is the number read from the second element and `gain` the
number read from the third, and the first element has no influence. -/
theorem init_spec {D R : Type} (stod : String → Option D) (fresh : Nat → D)
    (s : TDynJntLimits D) (parameters : List String) (rs : R) (e_initial e_final : List D) :
    (parameters.length ≠ 3 → init stod fresh s parameters rs e_initial e_final = some (-1, s)) ∧
    (∀ p0 p1 p2 dq g, parameters = [p0, p1, p2] → stod p1 = some dq → stod p2 = some g →
      ∃ s', init stod fresh s parameters rs e_initial e_final = some (0, s') ∧
        s'.e_dot_star_.length = 4 ∧ s'.dq_max_ = dq ∧ s'.gain_ = g ∧
        ∀ q0, init stod fresh s [q0, p1, p2] rs e_initial e_final = some (0, s')) := by
  constructor
  · intro h
    simp [init, h]
  · intro p0 p1 p2 dq g hp h1 h2
    subst hp
    refine ⟨{ e_dot_star_ := resize fresh s.e_dot_star_ 4, performance_measures_ := [],
              dq_max_ := dq, gain_ := g }, ?_, ?_, rfl, rfl, ?_⟩
    · simp [init, h1, h2]
    · exact length_resize fresh _ 4
    · intro q0
      simp [init, h1, h2]

/-- Witness for C15: the parameters `JntLimits`, `2`, `5`, and a list of two
elements. -/
theorem init_spec_witness :
    (init Demo.stod (fun _ => 0) Demo.jntLimits ["JntLimits", "2"] () [] [] =
      some (-1, Demo.jntLimits)) ∧
    ∃ s', init Demo.stod (fun _ => 0) Demo.jntLimits ["JntLimits", "2", "5"] () [] [] =
        some (0, s') ∧ s'.e_dot_star_.length = 4 ∧ s'.dq_max_ = 2 ∧ s'.gain_ = 5 := by
  refine ⟨(init_spec Demo.stod (fun _ => 0) Demo.jntLimits ["JntLimits", "2"] () [] []).1
    (by decide), ?_⟩
  obtain ⟨s', h0, hl, hd, hg, _⟩ :=
    (init_spec Demo.stod (fun _ => 0) Demo.jntLimits ["JntLimits", "2", "5"] () [] []).2
      "JntLimits" "2" "5" 2 5 rfl (by decide) (by decide)
  exact ⟨s', h0, hl, hd, hg⟩

end TDynJntLimits

/-! ## Collision avoidance -/

namespace TaskAvoidCollisionsSDF

theorem bindLoop_status {R : Type} (env : SDFEnv R) (rs : R) (names : List String)
    (s : TaskAvoidCollisionsSDF) :
    (bindLoop env rs names s).1 = 0 ∨ (bindLoop env rs names s).1 = -2 := by
  induction names generalizing s with
  | nil => exact Or.inl rfl
  | cons name rest ih =>
    unfold bindLoop
    split
    · split
      · exact Or.inr rfl
      · exact ih _
    · split
      · split
        · exact Or.inr rfl
        · exact ih _
      · exact Or.inr rfl

theorem bindLoop_task_types {R : Type} (env : SDFEnv R) (rs : R) (names : List String)
    (s : TaskAvoidCollisionsSDF) :
    (bindLoop env rs names s).2.task_types_ = s.task_types_ := by
  induction names generalizing s with
  | nil => rfl
  | cons name rest ih =>
    unfold bindLoop
    split
    · split
      · rfl
      · rw [ih]
    · split
      · split
        · rfl
        · rw [ih]
      · rfl

theorem bindLoop_ok_iff {R : Type} (env : SDFEnv R) (rs : R) (names : List String)
    (s : TaskAvoidCollisionsSDF) :
    (bindLoop env rs names s).1 = 0 ↔ ∀ name ∈ names, bindable env rs name = true := by
  induction names generalizing s with
  | nil => simp [bindLoop]
  | cons name rest ih =>
    have hps : ¬ ("sphere" = "point") := by decide
    cases hg : env.gpm name with
    | none => simp [bindLoop, getGeometricPrimitive, bindable, hg]
    | some p =>
      by_cases hpt : p.type_ = "point"
      · by_cases hq : env.kdl_getQNrFromLinkName rs p.frame_id_ = -1
        · simp [bindLoop, getGeometricPrimitive, bindable, hg, hpt, hq]
        · simp [bindLoop, getGeometricPrimitive, bindable, hg, hpt, hq, ih]
      · by_cases hsp : p.type_ = "sphere"
        · by_cases hq : env.kdl_getQNrFromLinkName rs p.frame_id_ = -1
          · simp [bindLoop, getGeometricPrimitive, bindable, hg, hsp, hps, hq]
          · simp [bindLoop, getGeometricPrimitive, bindable, hg, hsp, hps, hq, ih]
        · simp [bindLoop, getGeometricPrimitive, bindable, hg, hpt, hsp]

theorem init_of_short {R : Type} (env : SDFEnv R) (s : TaskAvoidCollisionsSDF)
    (parameters : List String) (rs : R) (hlen : parameters.length < 2) :
    init env s parameters rs = (-2, s) := by
  unfold init
  exact if_pos hlen

theorem init_of_unbound {R : Type} (env : SDFEnv R) (s : TaskAvoidCollisionsSDF)
    (parameters : List String) (rs : R) (hlen : ¬ parameters.length < 2)
    (hb : (bindLoop env rs (parameters.drop 1) (reset s)).1 ≠ 0) :
    init env s parameters rs = bindLoop env rs (parameters.drop 1) (reset s) := by
  unfold init
  rw [if_neg hlen]
  exact if_pos hb

theorem init_of_bound {R : Type} (env : SDFEnv R) (s : TaskAvoidCollisionsSDF)
    (parameters : List String) (rs : R) (hlen : ¬ parameters.length < 2)
    (hb : (bindLoop env rs (parameters.drop 1) (reset s)).1 = 0) :
    init env s parameters rs =
      (0, { (bindLoop env rs (parameters.drop 1) (reset s)).2 with
            performance_measures_ := [],
            task_types_ :=
              List.replicate (bindLoop env rs (parameters.drop 1) (reset s)).2.n_dimensions_ (-1)
                ++ (bindLoop env rs (parameters.drop 1) (reset s)).2.task_types_,
            root_frame_id_ := env.rootFrame rs }) := by
  unfold init
  rw [if_neg hlen]
  exact if_neg (not_not.mpr hb)

theorem init_task_types {R : Type} (env : SDFEnv R) (s : TaskAvoidCollisionsSDF)
    (parameters : List String) (rs : R) (h : (init env s parameters rs).1 = 0) :
    (init env s parameters rs).2.task_types_ =
      List.replicate (init env s parameters rs).2.n_dimensions_ (-1) := by
  by_cases hlen : parameters.length < 2
  · rw [init_of_short env s parameters rs hlen] at h
    have hm : ((-2 : Int) = 0) := h
    exact absurd hm (by decide)
  · by_cases hb : (bindLoop env rs (parameters.drop 1) (reset s)).1 = 0
    · rw [init_of_bound env s parameters rs hlen hb]
      show List.replicate _ (-1) ++ (bindLoop env rs (parameters.drop 1) (reset s)).2.task_types_
        = List.replicate _ (-1)
      rw [bindLoop_task_types]
      exact List.append_nil _
    · rw [init_of_unbound env s parameters rs hlen hb] at h
      exact absurd h hb

/-- C16, as the code has it: after a successful `init` the row-type list holds
one entry per task dimension and every entry is -1, the upper-bound
inequality. -/
theorem init_row_types {R : Type} (env : SDFEnv R) (s : TaskAvoidCollisionsSDF)
    (parameters : List String) (rs : R) (h : (init env s parameters rs).1 = 0) :
    (init env s parameters rs).2.task_types_.length =
      (init env s parameters rs).2.n_dimensions_ ∧
    ∀ x ∈ (init env s parameters rs).2.task_types_, x = -1 := by
  rw [init_task_types env s parameters rs h]
  exact ⟨List.length_replicate _ _, fun x hx => List.eq_of_mem_replicate hx⟩

/-- Witness for C16 as amended: the point `tip` and the sphere `ball` are
bound. -/
theorem init_row_types_witness :
    (init Demo.sdfEnv Demo.sdf0 ["avoid", "tip", "ball"] true).1 = 0 ∧
    (init Demo.sdfEnv Demo.sdf0 ["avoid", "tip", "ball"] true).2.task_types_.length = 2 ∧
    ∀ x ∈ (init Demo.sdfEnv Demo.sdf0 ["avoid", "tip", "ball"] true).2.task_types_, x = -1 :=
  ⟨by decide,
    (init_row_types Demo.sdfEnv Demo.sdf0 ["avoid", "tip", "ball"] true (by decide)).1.trans
      (by decide),
    (init_row_types Demo.sdfEnv Demo.sdf0 ["avoid", "tip", "ball"] true (by decide)).2⟩

/-- C16 fails as stated: a successful `init` over the point `tip` and the
sphere `ball` leaves the row types `[-1, -1]`, so not every row has type +1. -/
theorem init_row_types_not_plus_one :
    (init Demo.sdfEnv Demo.sdf0 ["avoid", "tip", "ball"] true).1 = 0 ∧
    (init Demo.sdfEnv Demo.sdf0 ["avoid", "tip", "ball"] true).2.task_types_ = [-1, -1] ∧
    ¬ ∀ x ∈ (init Demo.sdfEnv Demo.sdf0 ["avoid", "tip", "ball"] true).2.task_types_, x = 1 := by
  decide

theorem updateLoop_ret_zero {R : Type} (env : SDFEnv R) (oracle : Oracle) (rs : R)
    (root : String) (ps : List GeometricPrimitive)
    (h : ∀ p ∈ ps, 0 ≤ (primitiveForwardKinematics env rs p).1) :
    (updateLoop env oracle rs root ps).ret = 0 := by
  induction ps with
  | nil => rfl
  | cons p rest ih =>
    have hp : ¬ (primitiveForwardKinematics env rs p).1 < 0 := by
      have := h p (List.mem_cons_self _ _)
      omega
    simp only [updateLoop, hp, if_false]
    exact ih (fun q hq => h q (List.mem_cons_of_mem _ hq))

theorem updateLoop_ret_fail {R : Type} (env : SDFEnv R) (oracle : Oracle) (rs : R)
    (root : String) (ps : List GeometricPrimitive)
    (h : ∃ p ∈ ps, (primitiveForwardKinematics env rs p).1 < 0) :
    (updateLoop env oracle rs root ps).ret = -2 := by
  induction ps with
  | nil => simp at h
  | cons p rest ih =>
    by_cases hp : (primitiveForwardKinematics env rs p).1 < 0
    · simp [updateLoop, hp]
    · simp only [updateLoop, hp, if_false]
      apply ih
      obtain ⟨q, hq, hlt⟩ := h
      rcases List.mem_cons.mp hq with rfl | hq'
      · exact absurd hlt hp
      · exact ⟨q, hq', hlt⟩

/-- C17: `update` returns 0 whenever forward kinematics succeeds for every
bound primitive, whatever the oracle answers; it returns a negative status,
which is -2, exactly when forward kinematics fails for some bound primitive;
and its status is the same under any two oracles. -/
theorem update_status {R : Type} (env : SDFEnv R) (oracle : Oracle) (s : TaskAvoidCollisionsSDF)
    (rs : R) :
    ((∀ p ∈ s.primitives_, 0 ≤ (primitiveForwardKinematics env rs p).1) →
      (update env oracle s rs).ret = 0) ∧
    ((update env oracle s rs).ret < 0 ↔
      ∃ p ∈ s.primitives_, (primitiveForwardKinematics env rs p).1 < 0) ∧
    ((∃ p ∈ s.primitives_, (primitiveForwardKinematics env rs p).1 < 0) →
      (update env oracle s rs).ret = -2) ∧
    ∀ oracle' : Oracle, (update env oracle' s rs).ret = (update env oracle s rs).ret := by
  have hcase : (∀ p ∈ s.primitives_, 0 ≤ (primitiveForwardKinematics env rs p).1) ∨
      ∃ p ∈ s.primitives_, (primitiveForwardKinematics env rs p).1 < 0 := by
    by_cases hex : ∃ p ∈ s.primitives_, (primitiveForwardKinematics env rs p).1 < 0
    · exact Or.inr hex
    · left
      intro p hp
      by_contra hneg
      exact hex ⟨p, hp, by omega⟩
  refine ⟨fun h => updateLoop_ret_zero env oracle rs _ _ h, ?_,
    fun h => updateLoop_ret_fail env oracle rs _ _ h, ?_⟩
  · constructor
    · intro hlt
      rcases hcase with hall | hex
      · have h0 : (update env oracle s rs).ret = 0 := updateLoop_ret_zero env oracle rs _ _ hall
        omega
      · exact hex
    · intro hex
      have h2 : (update env oracle s rs).ret = -2 := updateLoop_ret_fail env oracle rs _ _ hex
      omega
  · intro oracle'
    rcases hcase with hall | hex
    · have h0 : (update env oracle s rs).ret = 0 := updateLoop_ret_zero env oracle rs _ _ hall
      have h1 : (update env oracle' s rs).ret = 0 := updateLoop_ret_zero env oracle' rs _ _ hall
      rw [h0, h1]
    · have h0 : (update env oracle s rs).ret = -2 := updateLoop_ret_fail env oracle rs _ _ hex
      have h1 : (update env oracle' s rs).ret = -2 := updateLoop_ret_fail env oracle' rs _ _ hex
      rw [h0, h1]

/-- Witness for C17: with `tip` and `ball` bound and the oracle down, `update`
returns 0 in a state where both solvers succeed. -/
theorem update_status_witness :
    (∀ p ∈ (init Demo.sdfEnv Demo.sdf0 ["avoid", "tip", "ball"] true).2.primitives_,
      0 ≤ (primitiveForwardKinematics Demo.sdfEnv true p).1) ∧
    (update Demo.sdfEnv Demo.oracleDown
      (init Demo.sdfEnv Demo.sdf0 ["avoid", "tip", "ball"] true).2 true).ret = 0 :=
  ⟨by decide,
    (update_status Demo.sdfEnv Demo.oracleDown
      (init Demo.sdfEnv Demo.sdf0 ["avoid", "tip", "ball"] true).2 true).1 (by decide)⟩

/-- Whenever the oracle reports failure, the gradients kept for the primitive
are the one fallback gradient of the source. -/
theorem gradientsAfterOracle_of_failure (oracle : Oracle) (test_pts : List Vector3d)
    (root : String) (h : (oracle test_pts root).1 = false) :
    gradientsAfterOracle oracle test_pts root = [fallbackGradient] := by
  simp [gradientsAfterOracle, h]

/-- C18, evaluated on the code: with the point `tip` bound and an oracle that
reports failure, `update` returns 0 and the gradients associated with `tip` are
the constant `(0.6, -0.3, 0.3)`, whatever the oracle left behind. -/
theorem update_oracle_failure_injects_gradient :
    (Demo.oracleDown [Demo.origin] "world").1 = false ∧
    update Demo.sdfEnv Demo.oracleDown (init Demo.sdfEnv Demo.sdf0 ["avoid", "tip"] true).2 true =
      { ret := 0,
        gradients := [("tip", [{ x := { mant := 6, exp10 := 1 }, y := { mant := -3, exp10 := 1 },
                                 z := { mant := 3, exp10 := 1 } }])] } := by
  decide

/-- C19: `init` returns 0 exactly when the parameter list has at least 2
elements and every element from index 1 on names a primitive that the store
holds as a point or as a sphere and whose frame is attached to the manipulator;
in every other case it returns -2. -/
theorem init_status {R : Type} (env : SDFEnv R) (s : TaskAvoidCollisionsSDF)
    (parameters : List String) (rs : R) :
    ((init env s parameters rs).1 = 0 ↔
      (2 ≤ parameters.length ∧ ∀ name ∈ parameters.drop 1, bindable env rs name = true)) ∧
    (¬ (2 ≤ parameters.length ∧ ∀ name ∈ parameters.drop 1, bindable env rs name = true) →
      (init env s parameters rs).1 = -2) := by
  by_cases hlen : parameters.length < 2
  · have hn2 : ¬ 2 ≤ parameters.length := by omega
    rw [init_of_short env s parameters rs hlen]
    have hm : ¬ ((-2 : Int) = 0) := by decide
    exact ⟨⟨fun h => absurd h hm, fun h => absurd h.1 hn2⟩, fun _ => rfl⟩
  · have h2 : 2 ≤ parameters.length := by omega
    by_cases hb : (bindLoop env rs (parameters.drop 1) (reset s)).1 = 0
    · have hall := (bindLoop_ok_iff env rs (parameters.drop 1) (reset s)).mp hb
      rw [init_of_bound env s parameters rs hlen hb]
      exact ⟨⟨fun _ => ⟨h2, hall⟩, fun _ => rfl⟩, fun hn => absurd ⟨h2, hall⟩ hn⟩
    · have hnall : ¬ ∀ name ∈ parameters.drop 1, bindable env rs name = true :=
        fun hall => hb ((bindLoop_ok_iff env rs (parameters.drop 1) (reset s)).mpr hall)
      rw [init_of_unbound env s parameters rs hlen hb]
      refine ⟨⟨fun h => absurd h hb, fun h => absurd h.2 hnall⟩, fun _ => ?_⟩
      rcases bindLoop_status env rs (parameters.drop 1) (reset s) with h0 | hm
      · exact absurd h0 hb
      · exact hm

/-- Witness for C19: `tip` and `ball` can be bound; the plane `floor` cannot. -/
theorem init_status_witness :
    (init Demo.sdfEnv Demo.sdf0 ["avoid", "tip", "ball"] true).1 = 0 ∧
    (init Demo.sdfEnv Demo.sdf0 ["avoid", "tip", "floor"] true).1 = -2 :=
  ⟨(init_status Demo.sdfEnv Demo.sdf0 ["avoid", "tip", "ball"] true).1.mpr (by decide),
    (init_status Demo.sdfEnv Demo.sdf0 ["avoid", "tip", "floor"] true).2 (by decide)⟩

end TaskAvoidCollisionsSDF

end tasks

/-! ## The task factory -/

namespace TaskFactory

theorem behParams_head (type : String) (parameters behaviour_parameters beh : List String)
    (hb : behParams type parameters behaviour_parameters = Result.returned beh) :
    ∃ b0, vecAt beh 0 = Result.returned b0 := by
  unfold behParams at hb
  split at hb
  · split at hb
    · cases hb
    · cases hb
      exact ⟨_, rfl⟩
  · split at hb
    · cases hb
      exact ⟨_, rfl⟩
    · rename_i hlen
      cases hb
      cases hbeh : behaviour_parameters with
      | nil => exact absurd (by rw [hbeh]; rfl) hlen
      | cons x xs => exact ⟨x, by simp [vecAt]⟩

/-- C20, as the code has it: whenever the behaviour parameters can be
assembled, `buildTask` returns -1 when the dynamics cannot be built, -2 when
the task function cannot be built, -3 when the function's `init` fails, -4 when
the dynamics' `init` fails, -5 when a size test fails, and 0, with the objects
kept, in the one remaining case, where all five steps succeed; an out-of-range
access while the function is built leaves `buildTask` as an exception. -/
theorem buildTask_status_codes (env : FactoryEnv) (num_controls : Nat) (name type : String)
    (priority : Nat) (visibility active : Bool)
    (parameters behaviour_parameters beh : List String)
    (hb : behParams type parameters behaviour_parameters = Result.returned beh) :
    (constructTaskDynamics beh = none →
      buildTask env num_controls name type priority visibility active parameters
        behaviour_parameters = Result.returned { status := -1, objects := none }) ∧
    (∀ dyn, constructTaskDynamics beh = some dyn →
      (constructTaskFunction type parameters = Result.threw →
        buildTask env num_controls name type priority visibility active parameters
          behaviour_parameters = Result.threw) ∧
      (constructTaskFunction type parameters = Result.returned none →
        buildTask env num_controls name type priority visibility active parameters
          behaviour_parameters = Result.returned { status := -2, objects := none }) ∧
      (∀ fn, constructTaskFunction type parameters = Result.returned (some fn) →
        ((env.functionInit fn parameters num_controls).1 ≠ 0 →
          buildTask env num_controls name type priority visibility active parameters
            behaviour_parameters = Result.returned { status := -3, objects := none }) ∧
        ((env.functionInit fn parameters num_controls).1 = 0 →
          ((env.dynamicsInit dyn beh (env.functionInit fn parameters num_controls).2).1 ≠ 0 →
            buildTask env num_controls name type priority visibility active parameters
              behaviour_parameters = Result.returned { status := -4, objects := none }) ∧
          ((env.dynamicsInit dyn beh (env.functionInit fn parameters num_controls).2).1 = 0 →
            (sizeTestsFail
                (env.dynamicsInit dyn beh (env.functionInit fn parameters num_controls).2).2 = true →
              buildTask env num_controls name type priority visibility active parameters
                behaviour_parameters = Result.returned { status := -5, objects := none }) ∧
            (sizeTestsFail
                (env.dynamicsInit dyn beh (env.functionInit fn parameters num_controls).2).2 = false →
              buildTask env num_controls name type priority visibility active parameters
                behaviour_parameters =
                  Result.returned
                    { status := 0,
                      objects := some (dyn, fn,
                        (env.dynamicsInit dyn beh
                          (env.functionInit fn parameters num_controls).2).2) }))))) := by
  obtain ⟨b0, hb0⟩ := behParams_head type parameters behaviour_parameters beh hb
  refine ⟨?_, ?_⟩
  · intro hd
    simp [buildTask, hb, hd]
  · intro dyn hd
    refine ⟨?_, ?_, ?_⟩
    · intro hf
      simp [buildTask, hb, hd, hb0, hf]
    · intro hf
      simp [buildTask, hb, hd, hb0, hf]
    · intro fn hf
      refine ⟨?_, ?_⟩
      · intro hfi
        simp [buildTask, hb, hd, hb0, hf, hfi]
      · intro hfi
        refine ⟨?_, ?_⟩
        · intro hdi
          simp [buildTask, hb, hd, hb0, hf, hfi, hdi]
        · intro hdi
          refine ⟨?_, ?_⟩
          · intro hsz
            simp [buildTask, hb, hd, hb0, hf, hfi, hdi, hsz]
          · intro hsz
            simp [buildTask, hb, hd, hb0, hf, hfi, hdi, hsz]

/-- Witness for C20 as amended: a `TaskJntConfig` whose sizes disagree is
answered with -5. -/
theorem buildTask_status_codes_witness :
    behParams "TaskJntConfig" ["j1"] [] = Result.returned ["DynamicsFirstOrder", "1.0"] ∧
    buildTask Demo.factoryEnv 2 "t" "TaskJntConfig" 1 true true ["j1"] [] =
      Result.returned { status := -5, objects := none } :=
  ⟨by decide,
    (((((buildTask_status_codes Demo.factoryEnv 2 "t" "TaskJntConfig" 1 true true ["j1"] []
      ["DynamicsFirstOrder", "1.0"] (by decide)).2 TaskDynamicsKind.DynamicsFirstOrder
      (by decide)).2.2 TaskFunctionKind.TaskJntConfig (by decide)).2 (by decide)).2
      (by decide)).1 (by decide)⟩

/-- C20 fails as stated: when the task function cannot be built (type `Bogus`)
`buildTask` returns -2, not -1; when the dynamics cannot be built (dynamics
type `Nope`) it returns -1, not -3; and when the function's `init` fails (empty
parameters) it returns -3, not -2. -/
theorem buildTask_codes_differ :
    (constructTaskFunction "Bogus" ["x"] = Result.returned none ∧
      buildTask Demo.factoryEnv 2 "t" "Bogus" 1 true true ["x"] [] =
        Result.returned { status := -2, objects := none }) ∧
    (constructTaskDynamics ["Nope", "1.0"] = none ∧
      buildTask Demo.factoryEnv 2 "t" "TaskFullPose" 1 true true ["x"] ["Nope", "1.0"] =
        Result.returned { status := -1, objects := none }) ∧
    ((Demo.factoryEnv.functionInit TaskFunctionKind.TaskFullPose [] 2).1 ≠ 0 ∧
      buildTask Demo.factoryEnv 2 "t" "TaskFullPose" 1 true true [] [] =
        Result.returned { status := -3, objects := none }) := by
  decide

/-- What a status 0 of `buildTask` means: every step succeeded and the objects
handed back are those the steps made. -/
theorem buildTask_zero (env : FactoryEnv) (num_controls : Nat) (name type : String)
    (priority : Nat) (visibility active : Bool) (parameters behaviour_parameters : List String)
    (b : Built)
    (h : buildTask env num_controls name type priority visibility active parameters
      behaviour_parameters = Result.returned b)
    (h0 : b.status = 0) :
    ∃ beh dyn fn,
      behParams type parameters behaviour_parameters = Result.returned beh ∧
      constructTaskDynamics beh = some dyn ∧
      constructTaskFunction type parameters = Result.returned (some fn) ∧
      (env.functionInit fn parameters num_controls).1 = 0 ∧
      (env.dynamicsInit dyn beh (env.functionInit fn parameters num_controls).2).1 = 0 ∧
      sizeTestsFail
        (env.dynamicsInit dyn beh (env.functionInit fn parameters num_controls).2).2 = false ∧
      b.objects = some (dyn, fn,
        (env.dynamicsInit dyn beh (env.functionInit fn parameters num_controls).2).2) := by
  cases hb : behParams type parameters behaviour_parameters with
  | threw => simp [buildTask, hb] at h
  | returned beh =>
    obtain ⟨b0, hb0⟩ := behParams_head type parameters behaviour_parameters beh hb
    have hall := buildTask_status_codes env num_controls name type priority visibility active
      parameters behaviour_parameters beh hb
    cases hd : constructTaskDynamics beh with
    | none =>
      rw [hall.1 hd] at h
      cases h
      exact absurd h0 (by decide)
    | some dyn =>
      have hdyn := hall.2 dyn hd
      cases hf : constructTaskFunction type parameters with
      | threw =>
        rw [hdyn.1 hf] at h
        cases h
      | returned ofn =>
        cases ofn with
        | none =>
          rw [hdyn.2.1 hf] at h
          cases h
          exact absurd h0 (by decide)
        | some fn =>
          have hfn := hdyn.2.2 fn hf
          by_cases hfi : (env.functionInit fn parameters num_controls).1 = 0
          · by_cases hdi :
                (env.dynamicsInit dyn beh (env.functionInit fn parameters num_controls).2).1 = 0
            · cases hsz : sizeTestsFail
                  (env.dynamicsInit dyn beh (env.functionInit fn parameters num_controls).2).2 with
              | true =>
                rw [((hfn.2 hfi).2 hdi).1 hsz] at h
                cases h
                exact absurd h0 (by decide)
              | false =>
                rw [((hfn.2 hfi).2 hdi).2 hsz] at h
                cases h
                exact ⟨beh, dyn, fn, rfl, hd, rfl, hfi, hdi, hsz, rfl⟩
            · rw [(hfn.2 hfi).1 hdi] at h
              cases h
              exact absurd h0 (by decide)
          · rw [hfn.1 hfi] at h
            cases h
            exact absurd h0 (by decide)

theorem sizeTestsFail_eq_false (d : Dims) :
    sizeTestsFail d = false ↔
      (d.e_rows = d.J_rows ∧ d.e_rows = d.e_dot_star_rows ∧ d.e_rows = d.task_types_size) := by
  simp [sizeTestsFail, and_assoc]

/-- C21: whenever `buildTask` returns 0, the function it hands back has equally
many rows in `e`, `J`, the desired dynamics and the row-type list; and when the
dynamics and the function are built and both `init`s succeed but these four row
counts are not all equal, `buildTask` returns -5. -/
theorem buildTask_dimension_check (env : FactoryEnv) (num_controls : Nat) (name type : String)
    (priority : Nat) (visibility active : Bool)
    (parameters behaviour_parameters : List String) :
    (∀ b, buildTask env num_controls name type priority visibility active parameters
          behaviour_parameters = Result.returned b → b.status = 0 →
        ∃ dyn fn d, b.objects = some (dyn, fn, d) ∧
          d.e_rows = d.J_rows ∧ d.e_rows = d.e_dot_star_rows ∧ d.e_rows = d.task_types_size ∧
          d.J_rows = d.e_dot_star_rows ∧ d.J_rows = d.task_types_size ∧
          d.e_dot_star_rows = d.task_types_size) ∧
    (∀ beh dyn fn, behParams type parameters behaviour_parameters = Result.returned beh →
        constructTaskDynamics beh = some dyn →
        constructTaskFunction type parameters = Result.returned (some fn) →
        (env.functionInit fn parameters num_controls).1 = 0 →
        (env.dynamicsInit dyn beh (env.functionInit fn parameters num_controls).2).1 = 0 →
        ¬ ((env.dynamicsInit dyn beh (env.functionInit fn parameters num_controls).2).2.e_rows =
              (env.dynamicsInit dyn beh (env.functionInit fn parameters num_controls).2).2.J_rows ∧
            (env.dynamicsInit dyn beh (env.functionInit fn parameters num_controls).2).2.e_rows =
              (env.dynamicsInit dyn beh
                (env.functionInit fn parameters num_controls).2).2.e_dot_star_rows ∧
            (env.dynamicsInit dyn beh (env.functionInit fn parameters num_controls).2).2.e_rows =
              (env.dynamicsInit dyn beh
                (env.functionInit fn parameters num_controls).2).2.task_types_size) →
        buildTask env num_controls name type priority visibility active parameters
          behaviour_parameters = Result.returned { status := -5, objects := none }) := by
  constructor
  · intro b h h0
    obtain ⟨beh, dyn, fn, _, _, _, _, _, hsz, hobj⟩ :=
      buildTask_zero env num_controls name type priority visibility active parameters
        behaviour_parameters b h h0
    obtain ⟨h1, h2, h3⟩ := (sizeTestsFail_eq_false _).mp hsz
    exact ⟨dyn, fn, _, hobj, h1, h2, h3, by omega, by omega, by omega⟩
  · intro beh dyn fn hb hd hf hfi hdi hne
    have hsz : sizeTestsFail
        (env.dynamicsInit dyn beh (env.functionInit fn parameters num_controls).2).2 = true := by
      cases hs : sizeTestsFail
          (env.dynamicsInit dyn beh (env.functionInit fn parameters num_controls).2).2 with
      | true => rfl
      | false => exact absurd ((sizeTestsFail_eq_false _).mp hs) hne
    exact ((((buildTask_status_codes env num_controls name type priority visibility active
      parameters behaviour_parameters beh hb).2 dyn hd).2.2 fn hf).2 hfi).2 hdi |>.1 hsz

/-- Witness for C21: a `TaskFullPose` over one parameter is built with one row
everywhere, and a `TaskJntConfig` with three rows of `e` against one of `J` is
answered with -5. -/
theorem buildTask_dimension_check_witness :
    (∃ dyn fn d,
      (Built.mk 0 (some (TaskDynamicsKind.DynamicsFirstOrder, TaskFunctionKind.TaskFullPose,
        { e_rows := 1, J_rows := 1, J_cols := 2, e_dot_star_rows := 1,
          task_types_size := 1 }))).objects = some (dyn, fn, d) ∧
      d.e_rows = d.J_rows ∧ d.e_rows = d.e_dot_star_rows ∧ d.e_rows = d.task_types_size ∧
      d.J_rows = d.e_dot_star_rows ∧ d.J_rows = d.task_types_size ∧
      d.e_dot_star_rows = d.task_types_size) ∧
    buildTask Demo.factoryEnv 2 "t" "TaskJntConfig" 1 true true ["j1"] [] =
      Result.returned { status := -5, objects := none } :=
  ⟨(buildTask_dimension_check Demo.factoryEnv 2 "t" "TaskFullPose" 1 true true ["q"] []).1
      _ (by decide) rfl,
    (buildTask_dimension_check Demo.factoryEnv 2 "t" "TaskJntConfig" 1 true true ["j1"] []).2
      ["DynamicsFirstOrder", "1.0"] TaskDynamicsKind.DynamicsFirstOrder
      TaskFunctionKind.TaskJntConfig (by decide) (by decide) (by decide) (by decide) (by decide)
      (by decide)⟩

/-- C22: when a function's `init` sizes `J` to the number of controls it is
given and a dynamics' `init` leaves `J` alone, then whenever `buildTask` returns
0 the function it hands back has a `J` with as many columns as the number of
controls the factory was initialised with. -/
theorem buildTask_J_columns (env : FactoryEnv) (num_controls : Nat) (name type : String)
    (priority : Nat) (visibility active : Bool)
    (parameters behaviour_parameters : List String)
    (hfn : FunctionInitSizesJ env) (hdyn : DynamicsInitKeepsJ env) (b : Built)
    (h : buildTask env num_controls name type priority visibility active parameters
      behaviour_parameters = Result.returned b)
    (h0 : b.status = 0) :
    ∃ dyn fn d, b.objects = some (dyn, fn, d) ∧ d.J_cols = num_controls := by
  obtain ⟨beh, dyn, fn, _, _, _, hfi, _, _, hobj⟩ :=
    buildTask_zero env num_controls name type priority visibility active parameters
      behaviour_parameters b h h0
  refine ⟨dyn, fn, _, hobj, ?_⟩
  rw [hdyn dyn beh _]
  exact hfn fn parameters num_controls hfi

theorem Demo_functionInitSizesJ : FunctionInitSizesJ Demo.factoryEnv := by
  intro function parameters num_controls h
  simp only [Demo.factoryEnv] at h ⊢
  by_cases he : parameters.isEmpty = true
  · rw [if_pos he] at h
    exact absurd h (by decide)
  · rw [if_neg he]
    by_cases hk : function = TaskFunctionKind.TaskJntConfig
    · rw [if_pos hk]
    · rw [if_neg hk]

theorem Demo_dynamicsInitKeepsJ : DynamicsInitKeepsJ Demo.factoryEnv := by
  intro dynamics beh_params d
  simp only [Demo.factoryEnv]
  split <;> rfl

/-- Witness for C22: a `TaskFullPose` built by a factory with 2 controls. -/
theorem buildTask_J_columns_witness :
    buildTask Demo.factoryEnv 2 "t" "TaskFullPose" 1 true true ["q"] [] =
      Result.returned
        { status := 0,
          objects := some (TaskDynamicsKind.DynamicsFirstOrder, TaskFunctionKind.TaskFullPose,
            { e_rows := 1, J_rows := 1, J_cols := 2, e_dot_star_rows := 1,
              task_types_size := 1 }) } ∧
    ∃ dyn fn d,
      (Built.mk 0 (some (TaskDynamicsKind.DynamicsFirstOrder, TaskFunctionKind.TaskFullPose,
        { e_rows := 1, J_rows := 1, J_cols := 2, e_dot_star_rows := 1,
          task_types_size := 1 }))).objects = some (dyn, fn, d) ∧ d.J_cols = 2 :=
  ⟨by decide,
    buildTask_J_columns Demo.factoryEnv 2 "t" "TaskFullPose" 1 true true ["q"] []
      Demo_functionInitSizesJ Demo_dynamicsInitKeepsJ _ (by decide) rfl⟩

theorem projectionFor_of_mem (p0 p1 : String) (h : (p0, p1) ∈ projectionPairs) :
    projectionFor p0 p1 = (primitiveKindOf p0).bind (fun a =>
      (primitiveKindOf p1).map (fun b => TaskFunctionKind.TaskGeometricProjection a b)) ∧
    (primitiveKindOf p0).isSome = true ∧ (primitiveKindOf p1).isSome = true := by
  simp only [projectionPairs, List.mem_cons, Prod.mk.injEq, List.mem_singleton, List.not_mem_nil,
    or_false] at h
  rcases h with h | h | h | h | h | h | h | h <;> obtain ⟨rfl, rfl⟩ := h <;> decide

theorem projectionFor_of_not_mem (p0 p1 : String) (h : (p0, p1) ∉ projectionPairs) :
    projectionFor p0 p1 = none := by
  simp only [projectionPairs, List.mem_cons, Prod.mk.injEq, List.mem_singleton, List.not_mem_nil,
    or_false, not_or] at h
  obtain ⟨h1, h2, h3, h4, h5, h6, h7, h8⟩ := h
  simp only [projectionFor, h1, h2, h3, h4, h5, h6, h7, h8, if_false]

theorem alignmentFor_of_mem (p0 p1 : String) (h : (p0, p1) ∈ alignmentPairs) :
    alignmentFor p0 p1 = (primitiveKindOf p0).bind (fun a =>
      (primitiveKindOf p1).map (fun b => TaskFunctionKind.TaskGeometricAlignment a b)) ∧
    (primitiveKindOf p0).isSome = true ∧ (primitiveKindOf p1).isSome = true := by
  simp only [alignmentPairs, List.mem_cons, Prod.mk.injEq, List.mem_singleton, List.not_mem_nil,
    or_false] at h
  rcases h with h | h | h | h <;> obtain ⟨rfl, rfl⟩ := h <;> decide

theorem alignmentFor_of_not_mem (p0 p1 : String) (h : (p0, p1) ∉ alignmentPairs) :
    alignmentFor p0 p1 = none := by
  simp only [alignmentPairs, List.mem_cons, Prod.mk.injEq, List.mem_singleton, List.not_mem_nil,
    or_false, not_or] at h
  obtain ⟨h1, h2, h3, h4⟩ := h
  simp only [alignmentFor, h1, h2, h3, h4, if_false]

theorem constructTaskFunction_projection (p0 p1 : String) (rest : List String) :
    constructTaskFunction "TaskGeometricProjection" (p0 :: p1 :: rest) =
      Result.returned (projectionFor p0 p1) := by
  simp [constructTaskFunction, vecAt]

theorem constructTaskFunction_alignment (p0 p1 : String) (rest : List String) :
    constructTaskFunction "TaskGeometricAlignment" (p0 :: p1 :: rest) =
      Result.returned (alignmentFor p0 p1) := by
  simp [constructTaskFunction, vecAt]

theorem constructTaskFunction_other (type : String) (parameters : List String)
    (hp : type ≠ "TaskGeometricProjection") (ha : type ≠ "TaskGeometricAlignment") :
    constructTaskFunction type parameters = Result.returned (some TaskFunctionKind.TaskFullPose) ∨
    constructTaskFunction type parameters = Result.returned (some TaskFunctionKind.TaskJntConfig) ∨
    constructTaskFunction type parameters = Result.returned (some TaskFunctionKind.TaskJntLimits) ∨
    constructTaskFunction type parameters = Result.returned none := by
  unfold constructTaskFunction
  by_cases h1 : type = "TaskFullPose"
  · simp [h1]
  · by_cases h2 : type = "TaskJntConfig"
    · simp [h2]
    · by_cases h3 : type = "TaskJntLimits"
      · simp [h3]
      · simp [h1, h2, h3, hp, ha]

theorem bind_map_projection_ne_alignment (x y : Option PrimitiveKind) (a b : PrimitiveKind) :
    x.bind (fun a' => y.map (fun b' => TaskFunctionKind.TaskGeometricProjection a' b')) ≠
      some (TaskFunctionKind.TaskGeometricAlignment a b) := by
  cases x <;> cases y <;> simp

theorem bind_map_alignment_ne_projection (x y : Option PrimitiveKind) (a b : PrimitiveKind) :
    x.bind (fun a' => y.map (fun b' => TaskFunctionKind.TaskGeometricAlignment a' b')) ≠
      some (TaskFunctionKind.TaskGeometricProjection a b) := by
  cases x <;> cases y <;> simp

/-- C23: on a parameter list with at least two elements, `constructTaskFunction`
builds a geometric-projection function exactly when the type is
`TaskGeometricProjection` and the pair of the first two parameters is one of
the eight projection pairs, and a geometric-alignment function exactly when the
type is `TaskGeometricAlignment` and the pair is one of the four alignment
pairs; the function is the one instantiated with the two primitive classes the
names stand for; and for every other pair under these two types it returns no
function. -/
theorem constructTaskFunction_pairs (type p0 p1 : String) (rest : List String) :
    (type = "TaskGeometricProjection" →
      ((p0, p1) ∈ projectionPairs →
        constructTaskFunction type (p0 :: p1 :: rest) =
          Result.returned ((primitiveKindOf p0).bind (fun a =>
            (primitiveKindOf p1).map (fun b => TaskFunctionKind.TaskGeometricProjection a b))) ∧
        (primitiveKindOf p0).isSome = true ∧ (primitiveKindOf p1).isSome = true) ∧
      ((p0, p1) ∉ projectionPairs →
        constructTaskFunction type (p0 :: p1 :: rest) = Result.returned none)) ∧
    (type = "TaskGeometricAlignment" →
      ((p0, p1) ∈ alignmentPairs →
        constructTaskFunction type (p0 :: p1 :: rest) =
          Result.returned ((primitiveKindOf p0).bind (fun a =>
            (primitiveKindOf p1).map (fun b => TaskFunctionKind.TaskGeometricAlignment a b))) ∧
        (primitiveKindOf p0).isSome = true ∧ (primitiveKindOf p1).isSome = true) ∧
      ((p0, p1) ∉ alignmentPairs →
        constructTaskFunction type (p0 :: p1 :: rest) = Result.returned none)) ∧
    (∀ a b, constructTaskFunction type (p0 :: p1 :: rest) =
        Result.returned (some (TaskFunctionKind.TaskGeometricProjection a b)) →
      type = "TaskGeometricProjection" ∧ (p0, p1) ∈ projectionPairs) ∧
    (∀ a b, constructTaskFunction type (p0 :: p1 :: rest) =
        Result.returned (some (TaskFunctionKind.TaskGeometricAlignment a b)) →
      type = "TaskGeometricAlignment" ∧ (p0, p1) ∈ alignmentPairs) := by
  refine ⟨?_, ?_, ?_, ?_⟩
  · intro ht
    subst ht
    rw [constructTaskFunction_projection]
    exact ⟨fun h => ⟨by rw [(projectionFor_of_mem p0 p1 h).1], (projectionFor_of_mem p0 p1 h).2⟩,
      fun h => by rw [projectionFor_of_not_mem p0 p1 h]⟩
  · intro ht
    subst ht
    rw [constructTaskFunction_alignment]
    exact ⟨fun h => ⟨by rw [(alignmentFor_of_mem p0 p1 h).1], (alignmentFor_of_mem p0 p1 h).2⟩,
      fun h => by rw [alignmentFor_of_not_mem p0 p1 h]⟩
  · intro a b h
    by_cases hp : type = "TaskGeometricProjection"
    · refine ⟨hp, ?_⟩
      subst hp
      rw [constructTaskFunction_projection] at h
      by_contra hn
      rw [projectionFor_of_not_mem p0 p1 hn] at h
      cases h
    · by_cases ha : type = "TaskGeometricAlignment"
      · subst ha
        rw [constructTaskFunction_alignment] at h
        by_cases hm : (p0, p1) ∈ alignmentPairs
        · rw [(alignmentFor_of_mem p0 p1 hm).1] at h
          injection h with h'
          exact absurd h' (bind_map_alignment_ne_projection _ _ a b)
        · rw [alignmentFor_of_not_mem p0 p1 hm] at h
          cases h
      · rcases constructTaskFunction_other type (p0 :: p1 :: rest) hp ha with h' | h' | h' | h' <;>
          rw [h'] at h <;> cases h
  · intro a b h
    by_cases ha : type = "TaskGeometricAlignment"
    · refine ⟨ha, ?_⟩
      subst ha
      rw [constructTaskFunction_alignment] at h
      by_contra hn
      rw [alignmentFor_of_not_mem p0 p1 hn] at h
      cases h
    · by_cases hp : type = "TaskGeometricProjection"
      · subst hp
        rw [constructTaskFunction_projection] at h
        by_cases hm : (p0, p1) ∈ projectionPairs
        · rw [(projectionFor_of_mem p0 p1 hm).1] at h
          injection h with h'
          exact absurd h' (bind_map_projection_ne_alignment _ _ a b)
        · rw [projectionFor_of_not_mem p0 p1 hm] at h
          cases h
      · rcases constructTaskFunction_other type (p0 :: p1 :: rest) hp ha with h' | h' | h' | h' <;>
          rw [h'] at h <;> cases h

/-- Witness for C23: the pair (sphere, plane) gives a projection of a sphere on
a plane, and the pair (plane, sphere) gives no function. -/
theorem constructTaskFunction_pairs_witness :
    constructTaskFunction "TaskGeometricProjection" ["sphere", "plane", "x"] =
      Result.returned (some (TaskFunctionKind.TaskGeometricProjection
        PrimitiveKind.GeometricSphere PrimitiveKind.GeometricPlane)) ∧
    constructTaskFunction "TaskGeometricProjection" ["plane", "sphere", "x"] =
      Result.returned none :=
  ⟨(((constructTaskFunction_pairs "TaskGeometricProjection" "sphere" "plane" ["x"]).1 rfl).1
      (by decide)).1.trans (by decide),
    ((constructTaskFunction_pairs "TaskGeometricProjection" "plane" "sphere" ["x"]).1 rfl).2
      (by decide)⟩

theorem constructTaskFunction_is_some_iff (type : String) :
    (∃ parameters fn, constructTaskFunction type parameters = Result.returned (some fn)) ↔
      type ∈ functionTypeNames := by
  constructor
  · rintro ⟨parameters, fn, h⟩
    by_contra hn
    simp only [functionTypeNames, List.mem_cons, List.mem_singleton, List.not_mem_nil, or_false,
      not_or] at hn
    obtain ⟨h1, h2, h3, h4, h5⟩ := hn
    simp [constructTaskFunction, h1, h2, h3, h4, h5] at h
  · intro hm
    simp only [functionTypeNames, List.mem_cons, List.mem_singleton, List.not_mem_nil,
      or_false] at hm
    rcases hm with rfl | rfl | rfl | rfl | rfl
    · exact ⟨[], TaskFunctionKind.TaskFullPose, by decide⟩
    · exact ⟨[], TaskFunctionKind.TaskJntConfig, by decide⟩
    · exact ⟨[], TaskFunctionKind.TaskJntLimits, by decide⟩
    · exact ⟨["point", "point"], TaskFunctionKind.TaskGeometricProjection
        PrimitiveKind.GeometricPoint PrimitiveKind.GeometricPoint, by decide⟩
    · exact ⟨["line", "line"], TaskFunctionKind.TaskGeometricAlignment
        PrimitiveKind.GeometricLine PrimitiveKind.GeometricLine, by decide⟩

theorem constructTaskDynamics_is_some (p0 : String) (rest : List String)
    (h : (constructTaskDynamics (p0 :: rest)).isSome = true) :
    p0 ∈ dynamicsTypeNames ∨ (p0 = "NA" ∧ rest = []) := by
  by_cases hna : rest.length + 1 = 1 ∧ p0 = "NA"
  · right
    exact ⟨hna.2, List.length_eq_zero.mp (by omega)⟩
  · left
    by_contra hn
    simp only [dynamicsTypeNames, List.mem_cons, List.mem_singleton, List.not_mem_nil, or_false,
      not_or] at hn
    obtain ⟨h1, h2, h3⟩ := hn
    simp only [constructTaskDynamics, hna, h1, h2, h3, if_false] at h
    exact absurd h (by decide)

/-- C24, as the code has it: a function is built exactly for the type names
`TaskFullPose`, `TaskJntConfig`, `TaskJntLimits`, `TaskGeometricProjection` and
`TaskGeometricAlignment` (for some parameter list), a dynamics is built from a
non-empty list only when its first element is `DynamicsFirstOrder`,
`DynamicsJntLimits` or `DynamicsMinimalJerk`, or the list is the single element
`NA`; with 2, 2 and 3 parameters these three names, and also the empty list and
the list `NA`, yield an object; and none of the names of the specification
yields one. -/
theorem factory_type_names :
    (∀ type, (∃ parameters fn,
        constructTaskFunction type parameters = Result.returned (some fn)) ↔
      type ∈ functionTypeNames) ∧
    (∀ p0 rest, (constructTaskDynamics (p0 :: rest)).isSome = true →
      p0 ∈ dynamicsTypeNames ∨ (p0 = "NA" ∧ rest = [])) ∧
    (∀ x, constructTaskDynamics ["DynamicsFirstOrder", x] =
      some TaskDynamicsKind.DynamicsFirstOrder) ∧
    (∀ x, constructTaskDynamics ["DynamicsJntLimits", x] =
      some TaskDynamicsKind.DynamicsJntLimits) ∧
    (∀ x y, constructTaskDynamics ["DynamicsMinimalJerk", x, y] =
      some TaskDynamicsKind.DynamicsMinimalJerk) ∧
    constructTaskDynamics [] = some TaskDynamicsKind.DynamicsFirstOrder ∧
    constructTaskDynamics ["NA"] = some TaskDynamicsKind.DynamicsFirstOrder ∧
    (∀ type, type ∈ specFunctionTypeNames → ∀ parameters,
      constructTaskFunction type parameters = Result.returned none) ∧
    (∀ p0, p0 ∈ specDynamicsTypeNames → ∀ rest, constructTaskDynamics (p0 :: rest) = none) := by
  refine ⟨constructTaskFunction_is_some_iff, constructTaskDynamics_is_some, ?_, ?_, ?_, ?_, ?_,
    ?_, ?_⟩
  · intro x; simp [constructTaskDynamics]
  · intro x; simp [constructTaskDynamics]
  · intro x y; simp [constructTaskDynamics]
  · rfl
  · decide
  · intro type hm parameters
    simp only [specFunctionTypeNames, List.mem_cons, List.mem_singleton, List.not_mem_nil,
      or_false] at hm
    rcases hm with rfl | rfl | rfl | rfl | rfl | rfl <;> simp [constructTaskFunction]
  · intro p0 hm rest
    simp only [specDynamicsTypeNames, List.mem_cons, List.mem_singleton, List.not_mem_nil,
      or_false] at hm
    rcases hm with rfl | rfl | rfl <;> simp [constructTaskDynamics]

/-- Witness for C24 as amended: `TaskJntConfig` is a function type name and
`JntLimits` heads no dynamics parameter list that is accepted. -/
theorem factory_type_names_witness :
    (∃ parameters fn,
      constructTaskFunction "TaskJntConfig" parameters = Result.returned (some fn)) ∧
    constructTaskDynamics ["JntLimits", "0.2", "10"] = none :=
  ⟨(factory_type_names.1 "TaskJntConfig").mpr (by decide),
    factory_type_names.2.2.2.2.2.2.2.2 "JntLimits" (by decide) ["0.2", "10"]⟩

/-- C24 fails as stated: the names `FullPose` and `AvoidCollisionsSDF` yield no
function and `FirstOrder` with one parameter yields no dynamics, while
`TaskFullPose` and `DynamicsFirstOrder`, which are not among the names of the
claim, yield objects. -/
theorem factory_rejects_spec_names :
    constructTaskFunction "FullPose" ["0.5", "-0.3"] = Result.returned none ∧
    constructTaskFunction "AvoidCollisionsSDF" ["tip"] = Result.returned none ∧
    constructTaskDynamics ["FirstOrder", "1.0"] = none ∧
    constructTaskFunction "TaskFullPose" ["0.5", "-0.3"] =
      Result.returned (some TaskFunctionKind.TaskFullPose) ∧
    constructTaskDynamics ["DynamicsFirstOrder", "1.0"] =
      some TaskDynamicsKind.DynamicsFirstOrder := by
  decide

/-- C25, evaluated on the code: for every choice of the collaborators and of
the other arguments, `buildTask` for a `TaskJntLimits` with no or one
definition parameter, and for a `TaskGeometricProjection` or
`TaskGeometricAlignment` with no or one definition parameter and no behaviour
parameters, ends in the `std::out_of_range` of `parameters.at`, not in a
status. -/
theorem buildTask_short_parameters_throw (env : FactoryEnv) (num_controls : Nat)
    (name : String) (priority : Nat) (visibility active : Bool)
    (behaviour_parameters : List String) (x : String) :
    buildTask env num_controls name "TaskJntLimits" priority visibility active []
      behaviour_parameters = Result.threw ∧
    buildTask env num_controls name "TaskJntLimits" priority visibility active [x]
      behaviour_parameters = Result.threw ∧
    buildTask env num_controls name "TaskGeometricProjection" priority visibility active []
      [] = Result.threw ∧
    buildTask env num_controls name "TaskGeometricProjection" priority visibility active [x]
      [] = Result.threw ∧
    buildTask env num_controls name "TaskGeometricAlignment" priority visibility active []
      [] = Result.threw ∧
    buildTask env num_controls name "TaskGeometricAlignment" priority visibility active [x]
      [] = Result.threw := by
  refine ⟨?_, ?_, ?_, ?_, ?_, ?_⟩ <;>
    simp [buildTask, behParams, vecAt, constructTaskDynamics, constructTaskFunction]

/-- C26, as the code has it: for a `TaskJntLimits` with at least two definition
parameters the dynamics parameter list is `DynamicsJntLimits` followed by the
second definition parameter, whatever behaviour parameters the caller supplied;
for the parameters assembled by the loader that is the text of
`limitations[0]`. -/
theorem behParams_jnt_limits {D : Type} (p0 p1 : String) (rest behaviour_parameters : List String)
    (to_string : D → String) (link_frame : String) (l0 l1 l2 : D) :
    behParams "TaskJntLimits" (p0 :: p1 :: rest) behaviour_parameters =
      Result.returned ["DynamicsJntLimits", p1] ∧
    behParams "TaskJntLimits" (loaderParameters to_string link_frame l0 l1 l2)
        behaviour_parameters =
      Result.returned ["DynamicsJntLimits", to_string l0] := by
  constructor <;> simp [behParams, vecAt, loaderParameters]

/-- C26 fails as stated: from the definition parameters `(j1, -1, 1, 0.2)`, in
the order joint name, `q_min`, `q_max`, `dq_max`, the dynamics parameter list
is `(DynamicsJntLimits, -1)`: it carries `q_min`, not `dq_max`. -/
theorem behParams_carries_second_parameter :
    behParams "TaskJntLimits" ["j1", "-1", "1", "0.2"] ["DynamicsJntLimits", "0.2"] =
      Result.returned ["DynamicsJntLimits", "-1"] ∧
    behParams "TaskJntLimits" ["j1", "-1", "1", "0.2"] ["DynamicsJntLimits", "0.2"] ≠
      Result.returned ["DynamicsJntLimits", "0.2"] := by
  decide

end TaskFactory

/-! ## Bindings of the collision-avoidance task -/

namespace tasks

namespace TaskAvoidCollisionsSDF

theorem bindLoop_bound {R : Type} (env : SDFEnv R) (rs : R) (names : List String)
    (s : TaskAvoidCollisionsSDF) (h : (bindLoop env rs names s).1 = 0) :
    (bindLoop env rs names s).2.n_dimensions_ = s.n_dimensions_ + names.length ∧
    (bindLoop env rs names s).2.primitives_.map some =
      s.primitives_.map some ++ names.map env.gpm := by
  induction names generalizing s with
  | nil => simp [bindLoop]
  | cons name rest ih =>
    have hps : ¬ ("sphere" = "point") := by decide
    have hm2 : ¬ ((-2 : Int) = 0) := by decide
    cases hg : env.gpm name with
    | none => simp [bindLoop, getGeometricPrimitive, hg] at h
    | some p =>
      by_cases hpt : p.type_ = "point"
      · by_cases hq : env.kdl_getQNrFromLinkName rs p.frame_id_ = -1
        · simp [bindLoop, getGeometricPrimitive, hg, hpt, hq] at h
        · simp only [bindLoop, getGeometricPrimitive, hg, hpt, if_true, hq, if_false] at h ⊢
          obtain ⟨h1, h2⟩ := ih _ h
          rw [h1, h2]
          constructor
          · simp only [List.length_cons]; omega
          · simp [hg]
      · by_cases hsp : p.type_ = "sphere"
        · by_cases hq : env.kdl_getQNrFromLinkName rs p.frame_id_ = -1
          · simp [bindLoop, getGeometricPrimitive, hg, hsp, hps, hq] at h
          · simp only [bindLoop, getGeometricPrimitive, hg, hsp, hps, if_false, if_true, hq] at h ⊢
            obtain ⟨h1, h2⟩ := ih _ h
            rw [h1, h2]
            constructor
            · simp only [List.length_cons]; omega
            · simp [hg]
        · simp [bindLoop, getGeometricPrimitive, hg, hpt, hsp] at h

/-- C29: after a successful `init`, whatever the object held before (so also
after an earlier `init`), the number of bound primitives, `n_dimensions_` and
the length of the row-type list all equal `parameters.size() - 1`, and the
bound primitives are, in order, the primitives the store holds under the names
`parameters[1]`, `parameters[2]`, ... -/
theorem init_bindings {R : Type} (env : SDFEnv R) (s : TaskAvoidCollisionsSDF)
    (parameters : List String) (rs : R) (h : (init env s parameters rs).1 = 0) :
    (init env s parameters rs).2.primitives_.length = parameters.length - 1 ∧
    (init env s parameters rs).2.n_dimensions_ = parameters.length - 1 ∧
    (init env s parameters rs).2.task_types_.length = parameters.length - 1 ∧
    (init env s parameters rs).2.primitives_.map some = (parameters.drop 1).map env.gpm := by
  have htypes := init_row_types env s parameters rs h
  by_cases hlen : parameters.length < 2
  · rw [init_of_short env s parameters rs hlen] at h
    have hm : ((-2 : Int) = 0) := h
    exact absurd hm (by decide)
  · by_cases hb : (bindLoop env rs (parameters.drop 1) (reset s)).1 = 0
    · obtain ⟨hn, hp⟩ := bindLoop_bound env rs (parameters.drop 1) (reset s) hb
      have hn' : (init env s parameters rs).2.n_dimensions_ = parameters.length - 1 := by
        rw [init_of_bound env s parameters rs hlen hb]
        show (bindLoop env rs (parameters.drop 1) (reset s)).2.n_dimensions_ = _
        rw [hn]
        simp [reset]
      have hp' : (init env s parameters rs).2.primitives_.map some =
          (parameters.drop 1).map env.gpm := by
        rw [init_of_bound env s parameters rs hlen hb]
        show (bindLoop env rs (parameters.drop 1) (reset s)).2.primitives_.map some = _
        rw [hp]
        simp [reset]
      refine ⟨?_, hn', ?_, hp'⟩
      · have := congrArg List.length hp'
        simpa using this
      · rw [htypes.1, hn']
    · rw [init_of_unbound env s parameters rs hlen hb] at h
      exact absurd h hb

/-- Witness for C29: `init` over `tip` and `ball`, then `init` of the same
object over `ball` alone, which leaves one primitive, one dimension and one
row type. -/
theorem init_bindings_witness :
    (init Demo.sdfEnv (init Demo.sdfEnv Demo.sdf0 ["avoid", "tip", "ball"] true).2
      ["avoid", "ball"] true).1 = 0 ∧
    (init Demo.sdfEnv (init Demo.sdfEnv Demo.sdf0 ["avoid", "tip", "ball"] true).2
      ["avoid", "ball"] true).2.primitives_.length = 1 ∧
    (init Demo.sdfEnv (init Demo.sdfEnv Demo.sdf0 ["avoid", "tip", "ball"] true).2
      ["avoid", "ball"] true).2.n_dimensions_ = 1 ∧
    (init Demo.sdfEnv (init Demo.sdfEnv Demo.sdf0 ["avoid", "tip", "ball"] true).2
      ["avoid", "ball"] true).2.task_types_.length = 1 :=
  ⟨by decide,
    (init_bindings Demo.sdfEnv (init Demo.sdfEnv Demo.sdf0 ["avoid", "tip", "ball"] true).2
      ["avoid", "ball"] true (by decide)).1,
    (init_bindings Demo.sdfEnv (init Demo.sdfEnv Demo.sdf0 ["avoid", "tip", "ball"] true).2
      ["avoid", "ball"] true (by decide)).2.1,
    (init_bindings Demo.sdfEnv (init Demo.sdfEnv Demo.sdf0 ["avoid", "tip", "ball"] true).2
      ["avoid", "ball"] true (by decide)).2.2.1⟩

end TaskAvoidCollisionsSDF

end tasks

/-! ## The id-based task manager -/

namespace controllers

/-- Whenever the behaviour name is recognised and the task name is not,
`addTask` returns `-1` and leaves the behaviour counter advanced and the
behaviour map written at the old counter value. -/
theorem addTask_unknown_task (m : TaskManager) (task_name behaviour_name : String)
    (behaviour_parameters : List String) (priority : Nat) (visibility : Bool)
    (parameters : List String) (hb : buildTaskBehaviour behaviour_name = true)
    (ht : buildTask task_name = false) :
    addTask m task_name behaviour_name behaviour_parameters priority visibility parameters =
      (sizeMax,
        { m with
          task_behaviours_ :=
            markDeleted (mapSet m.task_behaviours_ m.next_task_behaviour_id_
              { init_parameters := behaviour_parameters, deleted := false })
              m.next_task_behaviour_id_,
          next_task_behaviour_id_ := (m.next_task_behaviour_id_ + 1) % 2 ^ 64 }) := by
  simp [addTask, hb, ht]

/-- C30, evaluated on the code: `addTask` with the behaviour name `TaskBehFO`
and the unknown task name `Bogus` returns `-1`, leaves the task map and the
task counter as they were, but leaves the behaviour counter at 2 instead of 1
and the behaviour map with a second entry, under key 1, for the behaviour it
deleted. -/
theorem addTask_failure_changes_state :
    (addTask mgr1 "Bogus" "TaskBehFO" ["2.0"] 3 true ["q"]).1 = sizeMax ∧
    (addTask mgr1 "Bogus" "TaskBehFO" ["2.0"] 3 true ["q"]).2.tasks_ = mgr1.tasks_ ∧
    (addTask mgr1 "Bogus" "TaskBehFO" ["2.0"] 3 true ["q"]).2.next_task_id_ =
      mgr1.next_task_id_ ∧
    mgr1.next_task_behaviour_id_ = 1 ∧
    (addTask mgr1 "Bogus" "TaskBehFO" ["2.0"] 3 true ["q"]).2.next_task_behaviour_id_ = 2 ∧
    (addTask mgr1 "Bogus" "TaskBehFO" ["2.0"] 3 true ["q"]).2.task_behaviours_ =
      [(0, { init_parameters := ["1.0"], deleted := false }),
       (1, { init_parameters := ["2.0"], deleted := true })] ∧
    (addTask mgr1 "Bogus" "TaskBehFO" ["2.0"] 3 true ["q"]).2 ≠ mgr1 := by
  decide

end controllers

/-! ## The lock discipline -/

section locking

variable {D σ R G S : Type}

theorem lockRun_held_accesses {α : Type} (l : List α) (rest : List LockStep) :
    lockRun true (l.map (fun _ => LockStep.taskMap) ++ rest) = lockRun true rest := by
  induction l with
  | nil => rfl
  | cons x xs ih => simpa [lockRun] using ih

theorem lockAfter_accesses {α : Type} (held : Bool) (l : List α) (rest : List LockStep) :
    lockAfter held (l.map (fun _ => LockStep.taskMap) ++ rest) = lockAfter held rest := by
  induction l with
  | nil => rfl
  | cons x xs ih => simpa [lockAfter] using ih

theorem lockOnly_accesses {α : Type} (l : List α) :
    (l.map (fun _ => LockStep.taskMap)).filterMap LockStep.lockOnly? = [] := by
  induction l with
  | nil => rfl
  | cons x xs ih => simp [List.filterMap_cons, LockStep.lockOnly?]

theorem taskEvents_no_lock (env : Env D σ R G S) (g : G) (rs : R) (tm : TaskMap D σ) :
    (tm.flatMap (taskEvents env g rs)).filterMap Event.lockStep? = [] := by
  induction tm with
  | nil => rfl
  | cons kv rest ih =>
    obtain ⟨k, t⟩ := kv
    by_cases ha : t.active_ = true
    · by_cases hu : (env.taskUpdate g t rs).1 = 0
      · simp [taskEvents, ha, hu, ih, Event.lockStep?, List.filterMap_append]
      · simp [taskEvents, ha, hu, ih, Event.lockStep?, List.filterMap_append]
    · simp [taskEvents, ha, ih]

theorem lockStep_map_no_lock {α : Type} (f : α → Event D)
    (hf : ∀ x, Event.lockStep? (f x) = none) (l : List α) :
    (l.map f).filterMap Event.lockStep? = [] := by
  induction l with
  | nil => rfl
  | cons x xs ih => simp [List.filterMap_cons, hf x, ih]

theorem removeAllLoop_trace (env : Env D σ R G S) (tm : TaskMap D σ) (g : G) :
    (removeAllLoop env tm g).2 = tm.map (fun kv => Event.removeDependency kv.1) := by
  induction tm generalizing g with
  | nil => rfl
  | cons kv rest ih =>
    obtain ⟨k, t⟩ := kv
    simp [removeAllLoop, ih]

/-- The lock statements kept in the steps of a call are those of the trace of
the embedded method, in the same order. -/
theorem steps_agree_with_trace [Zero D] (env : Env D σ R G S) (m : TaskManager D σ G S)
    (c : Call D R) :
    (Call.steps env m c).filterMap LockStep.lockOnly? =
      (Call.trace env m c).filterMap Event.lockStep? := by
  cases c with
  | getVelocityControls rs controls =>
    by_cases hlt : m.task_map_.length < 1
    · simp [Call.steps, Call.trace, getVelocityControls, hlt, LockStep.lockOnly?]
    · have h1 : 1 ≤ m.task_map_.length := by omega
      have htr := (getVelocityControls_stages env m rs controls h1).1
      simp only [Call.steps, Call.trace, hlt, if_false, htr]
      simp [List.filterMap_cons, List.filterMap_append, LockStep.lockOnly?, Event.lockStep?,
        lockOnly_accesses, taskEvents_no_lock]
  | getTaskMeasures data =>
    simp only [Call.steps, Call.trace, getTaskMeasures, measureLoop_trace]
    simp [List.filterMap_cons, List.filterMap_append, LockStep.lockOnly?, Event.lockStep?,
      lockOnly_accesses, lockStep_map_no_lock]
  | setTask n p v a mon dp yp rs =>
    by_cases h0 : (initCall env m n p v a mon dp yp rs).1 = 0 <;>
      simp [Call.steps, Call.trace, setTask, h0, LockStep.lockOnly?, Event.lockStep?]
  | removeTask n =>
    by_cases h1 : (TaskMap.erase m.task_map_ n).2 = 1
    · simp [Call.steps, Call.trace, removeTask_found env m n h1, h1, LockStep.lockOnly?,
        Event.lockStep?]
    · simp [Call.steps, Call.trace, removeTask_absent env m n h1, h1, LockStep.lockOnly?,
        Event.lockStep?]
  | removeAllTasks =>
    simp only [Call.steps, Call.trace, removeAllTasks, removeAllLoop_trace]
    simp [List.filterMap_cons, List.filterMap_append, LockStep.lockOnly?, Event.lockStep?,
      lockOnly_accesses, lockStep_map_no_lock]
  | removePriorityLevel p =>
    simp only [Call.steps, Call.trace, removePriorityLevel, Completion.trace,
      removePriorityLevelBody, removePriorityLoop_trace]
    simp [List.filterMap_cons, List.filterMap_append, LockStep.lockOnly?, Event.lockStep?,
      lockOnly_accesses, lockStep_map_no_lock]
  | flag op n =>
    cases op <;>
      simp only [Call.steps, Call.trace, FlagOp.run, activateTask, deactivateTask, monitorTask,
        demonitorTask, Completion.trace, activateTaskBody, deactivateTaskBody, monitorTaskBody,
        demonitorTaskBody] <;>
      cases TaskMap.find m.task_map_ n <;>
      simp [LockStep.lockOnly?, Event.lockStep?]
  | flagLevel op p =>
    cases op <;>
      simp [Call.steps, Call.trace, FlagOp.runLevel, activatePriorityLevel,
        deactivatePriorityLevel, monitorPriorityLevel, demonitorPriorityLevel,
        Completion.trace, activatePriorityLevelBody, deactivatePriorityLevelBody,
        monitorPriorityLevelBody, demonitorPriorityLevelBody,
        List.filterMap_cons, List.filterMap_append, LockStep.lockOnly?, Event.lockStep?,
        lockOnly_accesses]

/-- Every call leaves the lock free, and every call other than
`getVelocityControls` accesses the task map only while it holds the lock. -/
theorem lock_discipline_of_the_other_calls (env : Env D σ R G S) (m : TaskManager D σ G S)
    (c : Call D R) :
    lockAfter false (Call.steps env m c) = false ∧
    ((∀ rs controls, c ≠ Call.getVelocityControls rs controls) →
      lockRun false (Call.steps env m c) = some false) := by
  cases c with
  | getVelocityControls rs controls =>
    constructor
    · by_cases hlt : m.task_map_.length < 1
      · simp [Call.steps, hlt, lockAfter]
      · simp only [Call.steps, hlt, if_false]
        exact lockAfter_accesses true m.task_map_ [LockStep.unlock]
    · intro h
      exact absurd rfl (h rs controls)
  | getTaskMeasures data =>
    exact ⟨lockAfter_accesses true m.task_map_ [LockStep.unlock],
      fun _ => lockRun_held_accesses m.task_map_ [LockStep.unlock]⟩
  | setTask n p v a mon dp yp rs =>
    by_cases h0 : (initCall env m n p v a mon dp yp rs).1 = 0 <;>
      simp [Call.steps, h0, lockAfter, lockRun]
  | removeTask n =>
    by_cases h1 : (TaskMap.erase m.task_map_ n).2 = 1 <;>
      simp [Call.steps, h1, lockAfter, lockRun]
  | removeAllTasks =>
    exact ⟨lockAfter_accesses true m.task_map_ [LockStep.taskMap, LockStep.unlock],
      fun _ => lockRun_held_accesses m.task_map_ [LockStep.taskMap, LockStep.unlock]⟩
  | removePriorityLevel p =>
    exact ⟨lockAfter_accesses true m.task_map_ [LockStep.unlock],
      fun _ => lockRun_held_accesses m.task_map_ [LockStep.unlock]⟩
  | flag op n => simp [Call.steps, lockAfter, lockRun]
  | flagLevel op p =>
    exact ⟨lockAfter_accesses true m.task_map_ [LockStep.unlock],
      fun _ => lockRun_held_accesses m.task_map_ [LockStep.unlock]⟩

/-- C27, evaluated on the code: for every manager, robot state and vector, the
first step of `getVelocityControls` is an access to the task map, the call of
`task_map_.size()`, made before any `lock`; so the call does not keep to
accessing the task map only under the lock, on either of its paths. -/
theorem getVelocityControls_reads_map_unlocked (env : Env D σ R G S)
    (m : TaskManager D σ G S) (rs : R) (controls : List D) :
    (Call.steps env m (Call.getVelocityControls rs controls)).head? = some LockStep.taskMap ∧
    lockRun false (Call.steps env m (Call.getVelocityControls rs controls)) = none := by
  by_cases hlt : m.task_map_.length < 1
  · simp [Call.steps, hlt, lockRun]
  · simp [Call.steps, hlt, lockRun]

end locking

/-! ## Damped least squares -/

namespace utils

theorem extended_gram {K : Type} [CommRing K] {r c : Nat} (a : Matrix (Fin r) (Fin c) K)
    (eta : K) :
    (extended a eta).transpose * extended a eta =
      a.transpose * a + (eta ^ 2) • (1 : Matrix (Fin c) (Fin c) K) := by
  unfold extended
  rw [Matrix.transpose_submatrix, Matrix.submatrix_mul_equiv, Matrix.transpose_fromRows,
    Matrix.fromColumns_mul_fromRows]
  simp [Matrix.submatrix_id_id, pow_two, Matrix.smul_mul, Matrix.mul_smul, smul_smul]

theorem extended_transpose_mul_selector {K : Type} [CommRing K] {r c : Nat}
    (a : Matrix (Fin r) (Fin c) K) (eta : K) :
    (extended a eta).transpose * selector K r c = a.transpose := by
  unfold extended selector
  rw [Matrix.transpose_submatrix, Matrix.submatrix_mul_equiv, Matrix.transpose_fromRows,
    Matrix.fromColumns_mul_fromRows]
  simp [Matrix.submatrix_id_id]

theorem gram_isUnit {K : Type} [LinearOrderedField K] {r c : Nat}
    (a : Matrix (Fin r) (Fin c) K) (eta : K) (h : eta ≠ 0) :
    IsUnit (a.transpose * a + (eta ^ 2) • (1 : Matrix (Fin c) (Fin c) K)) := by
  rw [← Matrix.mulVec_injective_iff_isUnit]
  intro v w hvw
  have hz : (a.transpose * a + (eta ^ 2) • (1 : Matrix (Fin c) (Fin c) K)).mulVec (v - w) = 0 := by
    rw [Matrix.mulVec_sub, hvw, sub_self]
  have hq : Matrix.dotProduct (v - w)
      ((a.transpose * a + (eta ^ 2) • (1 : Matrix (Fin c) (Fin c) K)).mulVec (v - w)) = 0 := by
    rw [hz, Matrix.dotProduct_zero]
  have hexp : Matrix.dotProduct (v - w)
      ((a.transpose * a + (eta ^ 2) • (1 : Matrix (Fin c) (Fin c) K)).mulVec (v - w)) =
      Matrix.dotProduct (a.mulVec (v - w)) (a.mulVec (v - w)) +
        eta ^ 2 * Matrix.dotProduct (v - w) (v - w) := by
    rw [Matrix.add_mulVec, Matrix.dotProduct_add, ← Matrix.mulVec_mulVec,
      Matrix.dotProduct_mulVec, Matrix.vecMul_transpose, Matrix.smul_mulVec_assoc,
      Matrix.one_mulVec, Matrix.dotProduct_smul, smul_eq_mul]
  rw [hexp] at hq
  have h1 : 0 ≤ Matrix.dotProduct (a.mulVec (v - w)) (a.mulVec (v - w)) :=
    Finset.sum_nonneg (fun i _ => mul_self_nonneg _)
  have h2 : 0 ≤ Matrix.dotProduct (v - w) (v - w) :=
    Finset.sum_nonneg (fun i _ => mul_self_nonneg _)
  have h3 : 0 < eta ^ 2 := by positivity
  have h4 : Matrix.dotProduct (v - w) (v - w) = 0 := by
    by_contra hne
    have hpos : 0 < Matrix.dotProduct (v - w) (v - w) := lt_of_le_of_ne h2 (Ne.symm hne)
    have : 0 < eta ^ 2 * Matrix.dotProduct (v - w) (v - w) := mul_pos h3 hpos
    linarith
  have h5 : v - w = 0 := Matrix.dotProduct_self_eq_zero.mp h4
  exact sub_eq_zero.mp h5

theorem pinv_normal_equation {K : Type} [CommRing K] {p q : Nat} (A : Matrix (Fin p) (Fin q) K)
    (X : Matrix (Fin q) (Fin p) K) (h : IsMoorePenrose A X) :
    A.transpose * A * X = A.transpose := by
  calc A.transpose * A * X = A.transpose * (A * X) := by rw [Matrix.mul_assoc]
    _ = A.transpose * (A * X).transpose := by rw [h.symm_left]
    _ = (A * X * A).transpose := by rw [Matrix.transpose_mul (A * X) A]
    _ = A.transpose := by rw [h.mul_mul_self]

theorem dls_wide {K : Type} [LinearOrderedField K]
    (pinv : (p q : Nat) → Matrix (Fin p) (Fin q) K → Matrix (Fin q) (Fin p) K)
    {r c : Nat} (a : Matrix (Fin r) (Fin c) K) (eta : K) (heta : eta ≠ 0)
    (hp : IsMoorePenrose (extended a eta) (pinv (r + c) c (extended a eta))) :
    pinv (r + c) c (extended a eta) * selector K r c =
      (a.transpose * a + (eta ^ 2) • (1 : Matrix (Fin c) (Fin c) K))⁻¹ * a.transpose := by
  have hu := gram_isUnit a eta heta
  have hdet : IsUnit (a.transpose * a + (eta ^ 2) • (1 : Matrix (Fin c) (Fin c) K)).det :=
    (Matrix.isUnit_iff_isUnit_det _).mp hu
  have hn := pinv_normal_equation _ _ hp
  rw [extended_gram] at hn
  have hmul : (a.transpose * a + (eta ^ 2) • (1 : Matrix (Fin c) (Fin c) K)) *
      (pinv (r + c) c (extended a eta) * selector K r c) = a.transpose := by
    rw [← Matrix.mul_assoc, hn, extended_transpose_mul_selector]
  calc pinv (r + c) c (extended a eta) * selector K r c
      = (a.transpose * a + (eta ^ 2) • (1 : Matrix (Fin c) (Fin c) K))⁻¹ *
          ((a.transpose * a + (eta ^ 2) • (1 : Matrix (Fin c) (Fin c) K)) *
            (pinv (r + c) c (extended a eta) * selector K r c)) := by
        rw [← Matrix.mul_assoc, Matrix.nonsing_inv_mul _ hdet, Matrix.one_mul]
    _ = (a.transpose * a + (eta ^ 2) • (1 : Matrix (Fin c) (Fin c) K))⁻¹ * a.transpose := by
        rw [hmul]

/-- C28: `dls(a, eta)` returns `a` itself when `r > c`, returns `pinv(a)` when
`r = c`, and when `r < c` returns `pinv(A) * B` with `A` the `(r+c)`-by-`c`
matrix of `a` stacked on `eta` times the identity and `B` the `(r+c)`-by-`r`
matrix of the identity on top of zeros; when moreover `eta` is not zero and
`pinv(A)` is the Moore-Penrose pseudoinverse of `A`, that result is the
`c`-by-`r` matrix `(aᵀ a + eta² I)⁻¹ aᵀ`. -/
theorem dls_spec {K : Type} [LinearOrderedField K]
    (pinv : (p q : Nat) → Matrix (Fin p) (Fin q) K → Matrix (Fin q) (Fin p) K)
    {r c : Nat} (a : Matrix (Fin r) (Fin c) K) (eta : K) :
    (c < r → dls pinv a eta = ⟨r, c, a⟩) ∧
    (r = c → dls pinv a eta = ⟨c, r, pinv r c a⟩) ∧
    (r < c → dls pinv a eta = ⟨c, r, pinv (r + c) c (extended a eta) * selector K r c⟩) ∧
    (r < c → eta ≠ 0 →
      IsMoorePenrose (extended a eta) (pinv (r + c) c (extended a eta)) →
      dls pinv a eta =
        ⟨c, r, (a.transpose * a + (eta ^ 2) • (1 : Matrix (Fin c) (Fin c) K))⁻¹ * a.transpose⟩) := by
  refine ⟨?_, ?_, ?_, ?_⟩
  · intro h
    simp [dls, h]
  · intro h
    have h1 : ¬ r > c := by omega
    simp [dls, h1, h]
  · intro h
    have h1 : ¬ r > c := by omega
    have h2 : ¬ r = c := by omega
    simp [dls, h1, h2]
  · intro h heta hp
    have h1 : ¬ r > c := by omega
    have h2 : ¬ r = c := by omega
    simp only [dls, h1, h2, if_false]
    rw [dls_wide pinv a eta heta hp]

theorem normalPinv_isMoorePenrose {p q : Nat} (A : Matrix (Fin p) (Fin q) ℚ)
    (h : (A.transpose * A).det ≠ 0) : IsMoorePenrose A (normalPinv p q A) := by
  have hleft : normalPinv p q A * A = 1 := by
    unfold normalPinv
    rw [Matrix.smul_mul, Matrix.mul_assoc, Matrix.adjugate_mul, smul_smul, inv_mul_cancel₀ h,
      one_smul]
  have hsymm : (A * normalPinv p q A).transpose = A * normalPinv p q A := by
    unfold normalPinv
    rw [Matrix.mul_smul, Matrix.transpose_smul, Matrix.transpose_mul, Matrix.transpose_mul,
      Matrix.transpose_transpose, Matrix.adjugate_transpose, Matrix.transpose_mul,
      Matrix.transpose_transpose, Matrix.mul_assoc]
  constructor
  · rw [Matrix.mul_assoc, hleft, Matrix.mul_one]
  · rw [hleft, Matrix.one_mul]
  · exact hsymm
  · rw [hleft, Matrix.transpose_one]

theorem extended_gram_det_ne_zero {r c : Nat} (a : Matrix (Fin r) (Fin c) ℚ) (eta : ℚ)
    (h : eta ≠ 0) : ((extended a eta).transpose * extended a eta).det ≠ 0 := by
  rw [extended_gram]
  exact ((Matrix.isUnit_iff_isUnit_det _).mp (gram_isUnit a eta h)).ne_zero

/-- Witness for C28: the 1-by-2 matrix `(3 4)` and `eta = 1`. -/
theorem dls_spec_witness :
    (1 : Nat) < 2 ∧ (1 : ℚ) ≠ 0 ∧
    dls normalPinv (Matrix.of ![![3, 4]] : Matrix (Fin 1) (Fin 2) ℚ) 1 =
      ⟨2, 1, ((Matrix.of ![![3, 4]] : Matrix (Fin 1) (Fin 2) ℚ).transpose *
          (Matrix.of ![![3, 4]] : Matrix (Fin 1) (Fin 2) ℚ) +
        ((1 : ℚ) ^ 2) • (1 : Matrix (Fin 2) (Fin 2) ℚ))⁻¹ *
          (Matrix.of ![![3, 4]] : Matrix (Fin 1) (Fin 2) ℚ).transpose⟩ :=
  ⟨by decide, one_ne_zero,
    (dls_spec normalPinv (Matrix.of ![![3, 4]] : Matrix (Fin 1) (Fin 2) ℚ) 1).2.2.2 (by decide)
      one_ne_zero
      (normalPinv_isMoorePenrose _ (extended_gram_det_ne_zero _ 1 one_ne_zero))⟩

end utils

end hiqp
